import Mathlib

/-!
# DPC cartridge (src/emucore/CartDPC.cxx): a shallow embedding

Machine integers are natural numbers with the truncation written out where the
C++ type truncates.  The arrays `myTops`, `myBottoms`, `myCounters`, `myFlags`
(8 entries each) and `myMusicMode` (3 entries) are lists; `myImage` is the
10496-byte copy of the ROM image, `myProgramImage` and `myDisplayImage` are the
two pointers into it.  `myFractionalClocks` and the clock computation use exact
rational arithmetic in place of IEEE doubles.
-/

namespace Stella

/-! ## The bus: `System` and its page table -/

/-- Modelled from the spec: the `kind` of a page record (`System::PageAccessType`;
System.hxx is not among the sources). -/
inductive PageAccessType where
  | PA_READ
  | PA_READWRITE
  deriving DecidableEq, Repr

/-- Modelled from the spec: the device a page record dispatches to.  The only
device this development installs is the cartridge itself (`this`). -/
inductive Device where
  | nullDevice
  | cartridge
  deriving DecidableEq, Repr

/-- Modelled from the spec: `System::PageAccess`, one dispatch record per page.
The two base pointers are offsets into the cartridge's `myImage`
(`myCodeAccessBase` for `codeAccessBase`); `none` is the null pointer. -/
structure PageAccess where
  directPeekBase : Option Nat
  codeAccessBase : Option Nat
  device : Device
  type : PageAccessType
  deriving DecidableEq, Repr

/-- Modelled from the spec: the constructor `System::PageAccess(dev, access)`,
which leaves both base pointers null. -/
def PageAccess.new (dev : Device) (access : PageAccessType) : PageAccess :=
  { directPeekBase := none, codeAccessBase := none, device := dev, type := access }

/-- Modelled from the spec: `System::PAGE_SHIFT` (pages of 64 bytes). -/
def PAGE_SHIFT : Nat := 6

/-- Modelled from the spec: `System::PAGE_SIZE`. -/
def PAGE_SIZE : Nat := 1 <<< PAGE_SHIFT

/-- Modelled from the spec: `System::PAGE_MASK = PAGE_SIZE - 1`. -/
def PAGE_MASK : Nat := PAGE_SIZE - 1

/-- Modelled from the spec: the part of `System` the cartridge talks to, namely
the host cycle counter read by `cycles()` and the page table written by
`setPageAccess`, keyed by page number. -/
structure System where
  myCycles : Nat
  myPageAccessTable : Nat → PageAccess

namespace System

/-- Modelled from the spec: `System::cycles()`, the 64-bit host cycle count. -/
def cycles (sys : System) : Nat := sys.myCycles

/-- Modelled from the spec: `setPageAccess(addr, access)` installs the record
for the page containing `addr`. -/
def setPageAccess (sys : System) (addr : Nat) (access : PageAccess) : System :=
  { sys with myPageAccessTable := Function.update sys.myPageAccessTable (addr >>> PAGE_SHIFT) access }

/-- A bus whose pages are all unmapped. -/
def empty : System :=
  { myCycles := 0, myPageAccessTable := fun _ => PageAccess.new Device.nullDevice PageAccessType.PA_READ }

end System

/-- The addresses visited by `for(addr = start; addr < stop; addr += PAGE_SIZE)`. -/
def pageAddrs (start stop : Nat) : List Nat :=
  (List.range ((stop + PAGE_SIZE - 1 - start) / PAGE_SIZE)).map (fun k => start + k * PAGE_SIZE)

/-! ## The cartridge state -/

/-- The data members of `CartridgeDPC`, with the members of the base class
`Cartridge` that the code reads (`myBankLocked`, `myStartBank`, `myBankChanged`). -/
structure CartridgeDPC where
  myImage : List Nat
  mySize : Nat
  myTops : List Nat
  myBottoms : List Nat
  myCounters : List Nat
  myFlags : List Nat
  myMusicMode : List Bool
  myRandomNumber : Nat
  myAudioCycles : Nat
  myFractionalClocks : ℚ
  myBankOffset : Nat
  myBankLocked : Bool
  myStartBank : Nat
  myBankChanged : Bool
  mySystem : System

namespace CartridgeDPC

/-- Modelled from the spec: `Cartridge::bankLocked()`, the debugger's lock flag. -/
def bankLocked (s : CartridgeDPC) : Bool := s.myBankLocked

/-- Modelled from the spec: `Cartridge::startBank()`, the bank selected on reset. -/
def startBank (s : CartridgeDPC) : Nat := s.myStartBank

/-- Modelled from the spec: `Cartridge::initializeStartBank(defaultStartBank)`
records the bank selected on reset; with no override it is the default. -/
def initializeStartBank (s : CartridgeDPC) (defaultStartBank : Nat) : CartridgeDPC :=
  { s with myStartBank := defaultStartBank }

/-- The byte `myProgramImage[i]`; `myProgramImage = myImage`.  A read past the
end of the array is given the value 0. -/
def myProgramImage (s : CartridgeDPC) (i : Nat) : Nat := s.myImage.getD i 0

/-- The byte `myDisplayImage[i]`.  `myDisplayImage = myProgramImage + 8192` is a
pointer into `myImage`, so the access reads `myImage[8192 + i]`, also for a
negative `i` (a counter above 2047 reaches back into the program ROM).  The
index is a C++ `int`; a read outside `myImage` is given the value 0. -/
def myDisplayImage (s : CartridgeDPC) (i : Int) : Nat :=
  match 8192 + i with
  | Int.ofNat n => s.myImage.getD n 0
  | Int.negSucc _ => 0

/-- The constructor: copies at most 8192 + 2048 + 256 bytes of the image (the
rest of `myImage` is zero) and clears the DPC registers. -/
def new (image : List Nat) (size : Nat) : CartridgeDPC :=
  { myImage := (image.take (min size (8192 + 2048 + 256))
               ++ List.replicate (8192 + 2048 + 256 - (image.take (min size (8192 + 2048 + 256))).length) 0)
    mySize := size
    myTops := List.replicate 8 0
    myBottoms := List.replicate 8 0
    myCounters := List.replicate 8 0
    myFlags := List.replicate 8 0
    myMusicMode := [false, false, false]
    myRandomNumber := 1
    myAudioCycles := 0
    myFractionalClocks := 0
    myBankOffset := 0
    myBankLocked := false
    myStartBank := 0
    myBankChanged := true
    mySystem := System.empty }

/-- The table `f` of `clockRandomNumberGenerator`. -/
def f : List Nat := [1, 0, 0, 1, 0, 1, 1, 0, 0, 1, 1, 0, 1, 0, 0, 1]

/-- One step of the shift register on the 8-bit value `r`. -/
def clockRandomNumberGenerator (s : CartridgeDPC) : CartridgeDPC :=
  let bit := f.getD (((s.myRandomNumber >>> 3) &&& 0x07) |||
      (if s.myRandomNumber &&& 0x80 ≠ 0 then 0x08 else 0x00)) 0
  { s with myRandomNumber := ((s.myRandomNumber <<< 1) ||| bit) % 256 }

/-- The body of the loop `for(int x = 5; x <= 7; ++x)` of
`updateMusicModeDataFetchers`.  `top` and `newLow` are `Int32`; the unsigned
remainder `wholeClocks % top` is subtracted without wrap-around since the
result is converted back to `Int32`. -/
def updateMusicModeDataFetcher (wholeClocks : Nat) (s : CartridgeDPC) (x : Nat) : CartridgeDPC :=
  if s.myMusicMode.getD (x - 5) false then
    let top : Int := (s.myTops.getD x 0 : Nat) + 1
    let low : Int := ((s.myCounters.getD x 0 &&& 0x00ff : Nat) : Int)
    let newLow : Int :=
      if s.myTops.getD x 0 ≠ 0 then
        let n := low - ((wholeClocks % top.toNat : Nat) : Int)
        if n < 0 then n + top else n
      else 0
    let flags :=
      if newLow ≤ (s.myBottoms.getD x 0 : Nat) then s.myFlags.set x 0x00
      else if newLow ≤ (s.myTops.getD x 0 : Nat) then s.myFlags.set x 0xff
      else s.myFlags
    { s with
      myFlags := flags
      myCounters := s.myCounters.set x ((s.myCounters.getD x 0 &&& 0x0700) ||| (newLow.toNat % 65536)) }
  else s

/-- The oscillator update.  `cycles` is the 64-bit difference truncated to 32
bits; `clocks` is computed exactly; `uInt32(clocks)` truncates a non-negative
value to its integer part. -/
def updateMusicModeDataFetchers (s : CartridgeDPC) : CartridgeDPC :=
  let cycles : Nat := ((((s.mySystem.cycles : Int) - (s.myAudioCycles : Int)) % 2 ^ 64) % 2 ^ 32).toNat
  let clocks : ℚ := ((20000 * (cycles : ℚ)) / 1193191.66666667) + s.myFractionalClocks
  let wholeClocks : Nat := (Int.toNat ⌊clocks⌋) % 2 ^ 32
  let s1 : CartridgeDPC :=
    { s with
      myAudioCycles := s.mySystem.cycles
      myFractionalClocks := clocks - (wholeClocks : ℚ) }
  if wholeClocks ≤ 0 then s1
  else [5, 6, 7].foldl (updateMusicModeDataFetcher wholeClocks) s1

/-- The table `musicAmplitudes` of `peek`. -/
def musicAmplitudes : List Nat := [0x00, 0x04, 0x05, 0x09, 0x06, 0x0a, 0x0b, 0x0f]

/-- The two loops of `bank`: the page of the hot spots gets a READ record with
only `codeAccessBase`; the ROM pages from 0x1080 up to that page get
`directPeekBase` and `codeAccessBase`, both at `offset + (addr & 0x0FFF)`.  The
record `access` is carried from one iteration to the next, as in the source. -/
def bankPages (sys : System) (offset : Nat) : System :=
  let access := PageAccess.new Device.cartridge PageAccessType.PA_READ
  let r1 := (pageAddrs (0x1FF8 - (0x1FF8 &&& PAGE_MASK)) 0x2000).foldl
    (fun (p : PageAccess × System) addr =>
      let acc := { p.1 with codeAccessBase := some (offset + (addr &&& 0x0FFF)) }
      (acc, p.2.setPageAccess addr acc))
    (access, sys)
  let r2 := (pageAddrs 0x1080 (0x1FF8 - (0x1FF8 &&& PAGE_MASK))).foldl
    (fun (p : PageAccess × System) addr =>
      let acc := { p.1 with
        directPeekBase := some (offset + (addr &&& 0x0FFF))
        codeAccessBase := some (offset + (addr &&& 0x0FFF)) }
      (acc, p.2.setPageAccess addr acc))
    r1
  r2.2

/-- Selects bank `bank`: refuses when locked, else records the offset
`bank << 12` (a `uInt16`) and rewrites the page records. -/
def bank (s : CartridgeDPC) (bank : Nat) : Bool × CartridgeDPC :=
  if s.bankLocked then (false, s)
  else
    (true, { s with
      myBankOffset := (bank <<< 12) % 65536
      mySystem := bankPages s.mySystem ((bank <<< 12) % 65536)
      myBankChanged := true })

/-- The active bank. -/
def getBank (s : CartridgeDPC) : Nat := s.myBankOffset >>> 12

/-- The number of banks. -/
def bankCount (_s : CartridgeDPC) : Nat := 2

/-- Power-on reset: clears the clock bookkeeping and selects the start bank. -/
def reset (s : CartridgeDPC) : CartridgeDPC :=
  let s1 := { s with myAudioCycles := 0, myFractionalClocks := 0 }
  let s2 := s1.initializeStartBank 1
  (s2.bank s2.startBank).2

/-- The loop of `install`: the DPC register pages are READWRITE with no direct
base. -/
def installPages (system : System) : System :=
  let access := PageAccess.new Device.cartridge PageAccessType.PA_READWRITE
  (pageAddrs 0x1000 0x1080).foldl (fun sys addr => sys.setPageAccess addr access) system

/-- Binds the cartridge to a bus, then installs the pages of the start bank. -/
def install (s : CartridgeDPC) (system : System) : CartridgeDPC :=
  let s1 := { s with mySystem := installPages system }
  (s1.bank s1.startBank).2

/-- The comparator step of `peek`: the flag of fetcher `index` follows the low
byte of its counter. -/
def updateFlag (s : CartridgeDPC) (index : Nat) : CartridgeDPC :=
  if (s.myCounters.getD index 0 &&& 0x00ff) = s.myTops.getD index 0 then
    { s with myFlags := s.myFlags.set index 0xff }
  else if (s.myCounters.getD index 0 &&& 0x00ff) = s.myBottoms.getD index 0 then
    { s with myFlags := s.myFlags.set index 0x00 }
  else s

/-- The index `i` into `musicAmplitudes` formed by the music read. -/
def musicIndex (s : CartridgeDPC) : Nat :=
  ((if s.myMusicMode.getD 0 false && s.myFlags.getD 5 0 ≠ 0 then 0x01 else 0) |||
   (if s.myMusicMode.getD 1 false && s.myFlags.getD 6 0 ≠ 0 then 0x02 else 0)) |||
   (if s.myMusicMode.getD 2 false && s.myFlags.getD 7 0 ≠ 0 then 0x04 else 0)

/-- The `switch(function)` of `peek`: the result and the state after it. -/
def readFunction (s : CartridgeDPC) (index function : Nat) : Nat × CartridgeDPC :=
  match function with
  | 0 =>
    if index < 4 then (s.myRandomNumber, s)
    else
      let s1 := s.updateMusicModeDataFetchers
      (musicAmplitudes.getD s1.musicIndex 0, s1)
  | 1 => (s.myDisplayImage (2047 - (s.myCounters.getD index 0 : Nat)), s)
  | 2 => (s.myDisplayImage (2047 - (s.myCounters.getD index 0 : Nat)) &&& s.myFlags.getD index 0, s)
  | 7 => (s.myFlags.getD index 0, s)
  | _ => (0, s)

/-- The counter step of `peek`.  `(c - 1) & 0x07ff` is computed on an `int`: on
two's complement it is the remainder of `c - 1` modulo 2048. -/
def clockCounter (s : CartridgeDPC) (index : Nat) : CartridgeDPC :=
  if index < 5 ∨ ¬ (s.myMusicMode.getD (index - 5) false = true) then
    { s with myCounters :=
        s.myCounters.set index ((((s.myCounters.getD index 0 : Nat) : Int) - 1) % 2048).toNat }
  else s

/-- The hot-spot `switch(address)` shared by `peek` and `poke`. -/
def switchBanks (s : CartridgeDPC) (address : Nat) : CartridgeDPC :=
  if address = 0x0FF8 then (s.bank 0).2
  else if address = 0x0FF9 then (s.bank 1).2
  else s

/-- The bus read. -/
def peek (s : CartridgeDPC) (address : Nat) : Nat × CartridgeDPC :=
  let address := address &&& 0x0FFF
  if s.bankLocked then (s.myProgramImage (s.myBankOffset + address), s)
  else
    let s1 := s.clockRandomNumberGenerator
    if address < 0x0040 then
      let index := address &&& 0x07
      let function := (address >>> 3) &&& 0x07
      let s2 := s1.updateFlag index
      let r := s2.readFunction index function
      (r.1, r.2.clockCounter index)
    else
      let s2 := s1.switchBanks address
      (s2.myProgramImage (s2.myBankOffset + address), s2)

/-- The `switch(function)` of `poke`. -/
def writeFunction (s : CartridgeDPC) (index function value : Nat) : CartridgeDPC :=
  match function with
  | 0 => { s with myTops := s.myTops.set index value, myFlags := s.myFlags.set index 0x00 }
  | 1 => { s with myBottoms := s.myBottoms.set index value }
  | 2 =>
    if 5 ≤ index ∧ s.myMusicMode.getD (index - 5) false = true then
      { s with myCounters :=
          s.myCounters.set index ((s.myCounters.getD index 0 &&& 0x0700) ||| s.myTops.getD index 0) }
    else
      { s with myCounters :=
          s.myCounters.set index ((s.myCounters.getD index 0 &&& 0x0700) ||| value) }
  | 3 =>
    let high := ((value &&& 0x07) <<< 8) % 65536
    let s1 : CartridgeDPC :=
      { s with myCounters := s.myCounters.set index (high ||| (s.myCounters.getD index 0 &&& 0x00ff)) }
    if 5 ≤ index then
      { s1 with myMusicMode := s1.myMusicMode.set (index - 5) (decide (value &&& 0x10 ≠ 0)) }
    else s1
  | 6 => { s with myRandomNumber := 1 }
  | _ => s

/-- The bus write; `value` is a byte.  It always returns false. -/
def poke (s : CartridgeDPC) (address value : Nat) : Bool × CartridgeDPC :=
  let address := address &&& 0x0FFF
  let s1 := s.clockRandomNumberGenerator
  if 0x0040 ≤ address ∧ address < 0x0080 then
    let index := address &&& 0x07
    let function := (address >>> 3) &&& 0x07
    (false, s1.writeFunction index function value)
  else
    (false, s1.switchBanks address)

/-- The debugger's write into the ROM image, refused in the DPC register region. -/
def patch (s : CartridgeDPC) (address value : Nat) : Bool × CartridgeDPC :=
  let address := address &&& 0x0FFF
  if 0x0080 ≤ address then
    (true, { s with
      myImage := s.myImage.set (s.myBankOffset + (address &&& 0x0FFF)) value
      myBankChanged := true })
  else (false, s)

/-! ## Snapshots -/

/-- Modelled from the spec: one typed item of a snapshot stream (Serializer.hxx
is not among the sources).  A double carries its exact value. -/
inductive Item where
  | byte (v : Nat)
  | short (v : Nat)
  | long (v : Nat)
  | double (v : ℚ)
  | bool (b : Bool)
  deriving DecidableEq

/-- Modelled from the spec: a `Serializer` is a typed, order-preserving stream;
`put` appends an item, `get` removes the first item and fails (the exception of
the source) when the stream is empty or the item has another type. -/
abbrev Serializer := List Item

namespace Serializer

/-- Modelled from the spec: `putByte`. -/
def putByte (out : Serializer) (v : Nat) : Serializer := out ++ [Item.byte v]

/-- Modelled from the spec: `putShort`. -/
def putShort (out : Serializer) (v : Nat) : Serializer := out ++ [Item.short v]

/-- Modelled from the spec: `putLong`. -/
def putLong (out : Serializer) (v : Nat) : Serializer := out ++ [Item.long v]

/-- Modelled from the spec: `putDouble`. -/
def putDouble (out : Serializer) (v : ℚ) : Serializer := out ++ [Item.double v]

/-- Modelled from the spec: `putBool`. -/
def putBool (out : Serializer) (b : Bool) : Serializer := out ++ [Item.bool b]

/-- Modelled from the spec: `putByteArray(array, size)` writes the first `size`
entries as bytes. -/
def putByteArray (out : Serializer) (array : List Nat) (size : Nat) : Serializer :=
  out ++ (array.take size).map Item.byte

/-- Modelled from the spec: `putShortArray(array, size)` writes the first `size`
entries as shorts. -/
def putShortArray (out : Serializer) (array : List Nat) (size : Nat) : Serializer :=
  out ++ (array.take size).map Item.short

/-- Modelled from the spec: `getByte`. -/
def getByte (inp : Serializer) : Option (Nat × Serializer) :=
  match inp with
  | Item.byte v :: rest => some (v, rest)
  | _ => none

/-- Modelled from the spec: `getShort`. -/
def getShort (inp : Serializer) : Option (Nat × Serializer) :=
  match inp with
  | Item.short v :: rest => some (v, rest)
  | _ => none

/-- Modelled from the spec: `getLong`. -/
def getLong (inp : Serializer) : Option (Nat × Serializer) :=
  match inp with
  | Item.long v :: rest => some (v, rest)
  | _ => none

/-- Modelled from the spec: `getDouble`. -/
def getDouble (inp : Serializer) : Option (ℚ × Serializer) :=
  match inp with
  | Item.double v :: rest => some (v, rest)
  | _ => none

/-- Modelled from the spec: `getBool`. -/
def getBool (inp : Serializer) : Option (Bool × Serializer) :=
  match inp with
  | Item.bool b :: rest => some (b, rest)
  | _ => none

/-- Modelled from the spec: `getByteArray(array, size)` reads `size` bytes; the
values read are returned, the caller stores them in `array[0 .. size-1]`. -/
def getByteArray (size : Nat) (inp : Serializer) : Option (List Nat × Serializer) :=
  match size with
  | 0 => some ([], inp)
  | n + 1 =>
    match getByte inp with
    | none => none
    | some (v, rest) =>
      match getByteArray n rest with
      | none => none
      | some (vs, rest2) => some (v :: vs, rest2)

/-- Modelled from the spec: `getShortArray(array, size)` reads `size` shorts. -/
def getShortArray (size : Nat) (inp : Serializer) : Option (List Nat × Serializer) :=
  match size with
  | 0 => some ([], inp)
  | n + 1 =>
    match getShort inp with
    | none => none
    | some (v, rest) =>
      match getShortArray n rest with
      | none => none
      | some (vs, rest2) => some (v :: vs, rest2)

end Serializer

/-- The body of the `try` block of `save`: the fields in the order written. -/
def save (s : CartridgeDPC) (out : Serializer) : Bool × Serializer :=
  let out := out.putShort s.myBankOffset
  let out := out.putByteArray s.myTops 8
  let out := out.putByteArray s.myBottoms 8
  let out := out.putShortArray s.myCounters 8
  let out := out.putByteArray s.myFlags 8
  let out := out.putBool (s.myMusicMode.getD 0 false)
  let out := out.putBool (s.myMusicMode.getD 1 false)
  let out := out.putBool (s.myMusicMode.getD 2 false)
  let out := out.putByte s.myRandomNumber
  let out := out.putLong s.myAudioCycles
  let out := out.putDouble s.myFractionalClocks
  (true, out)

/-- One statement of the `try` block of `load`: a read followed by the store of
the value read.  When the read throws, the `catch` block sees the state reached
so far. -/
def getInto {α : Type} (get : Serializer → Option (α × Serializer))
    (store : CartridgeDPC → α → CartridgeDPC) (p : CartridgeDPC × Serializer) :
    Except CartridgeDPC (CartridgeDPC × Serializer) :=
  match get p.2 with
  | none => Except.error p.1
  | some (v, rest) => Except.ok (store p.1 v, rest)

/-- The `try` block of `load`: the reads in the order of the source, each
stored in its field as soon as it is read. -/
def loadFields (s : CartridgeDPC) (inp : Serializer) :
    Except CartridgeDPC (CartridgeDPC × Serializer) :=
  getInto Serializer.getShort (fun s v => { s with myBankOffset := v }) (s, inp)
  >>= getInto (Serializer.getByteArray 8) (fun s vs => { s with myTops := vs ++ s.myTops.drop 8 })
  >>= getInto (Serializer.getByteArray 8) (fun s vs => { s with myBottoms := vs ++ s.myBottoms.drop 8 })
  >>= getInto (Serializer.getShortArray 8) (fun s vs => { s with myCounters := vs ++ s.myCounters.drop 8 })
  >>= getInto (Serializer.getByteArray 8) (fun s vs => { s with myFlags := vs ++ s.myFlags.drop 8 })
  >>= getInto Serializer.getBool (fun s b => { s with myMusicMode := s.myMusicMode.set 0 b })
  >>= getInto Serializer.getBool (fun s b => { s with myMusicMode := s.myMusicMode.set 1 b })
  >>= getInto Serializer.getBool (fun s b => { s with myMusicMode := s.myMusicMode.set 2 b })
  >>= getInto Serializer.getByte (fun s v => { s with myRandomNumber := v })
  >>= getInto Serializer.getLong (fun s v => { s with myAudioCycles := v })
  >>= getInto Serializer.getDouble (fun s v => { s with myFractionalClocks := v })

/-- Restores a snapshot: false with the state reached so far when a read
fails, else true after `bank(myBankOffset >> 12)`.  The third component is the
unread rest of the stream on success and the stream as given on failure. -/
def load (s : CartridgeDPC) (inp : Serializer) : Bool × CartridgeDPC × Serializer :=
  match loadFields s inp with
  | Except.error s1 => (false, s1, inp)
  | Except.ok (s1, rest) => (true, (s1.bank (s1.myBankOffset >>> 12)).2, rest)

/-! ## Runs of bus operations -/

/-- A bus operation on the cartridge, or the host advancing its cycle counter. -/
inductive Op where
  | peek (address : Nat)
  | poke (address value : Nat)
  | cycles (count : Nat)
  deriving DecidableEq, Repr

/-- The host's cycle counter moves to `count`. -/
def setCycles (s : CartridgeDPC) (count : Nat) : CartridgeDPC :=
  { s with mySystem := { s.mySystem with myCycles := count } }

/-- The debugger sets or clears the bank lock. -/
def lockBank (s : CartridgeDPC) (b : Bool) : CartridgeDPC :=
  { s with myBankLocked := b }

/-- One operation: the byte it returns (the result of `poke` as 0 or 1, and 0
for a cycle-counter move) and the state after it. -/
def step (s : CartridgeDPC) (op : Op) : Nat × CartridgeDPC :=
  match op with
  | Op.peek a => s.peek a
  | Op.poke a v => (if (s.poke a v).1 then 1 else 0, (s.poke a v).2)
  | Op.cycles n => (0, s.setCycles n)

/-- The bytes returned by a sequence of operations. -/
def run (s : CartridgeDPC) (ops : List Op) : List Nat :=
  match ops with
  | [] => []
  | op :: rest => (s.step op).1 :: run (s.step op).2 rest

/-- The states reachable from power-on (constructed, installed, reset) by
`reset`, `peek`, `poke` of a byte, moves of the host's cycle counter and the
debugger's lock. -/
inductive Reachable : CartridgeDPC → Prop where
  | powerOn (image : List Nat) (size : Nat) (system : System) :
      Reachable ((new image size).install system).reset
  | reset (s : CartridgeDPC) : Reachable s → Reachable s.reset
  | peek (s : CartridgeDPC) (a : Nat) : Reachable s → Reachable (s.peek a).2
  | poke (s : CartridgeDPC) (a v : Nat) : Reachable s → v < 256 → Reachable (s.poke a v).2
  | cycles (s : CartridgeDPC) (n : Nat) : Reachable s → Reachable (s.setCycles n)
  | lock (s : CartridgeDPC) (b : Bool) : Reachable s → Reachable (s.lockBank b)

/-- Two cartridges agree on the image, on every DPC register, on the clock
bookkeeping, on the bank, on the lock and on the host's cycle count. -/
def SameCart (s t : CartridgeDPC) : Prop :=
  s.myImage = t.myImage ∧ s.myTops = t.myTops ∧ s.myBottoms = t.myBottoms ∧
  s.myCounters = t.myCounters ∧ s.myFlags = t.myFlags ∧ s.myMusicMode = t.myMusicMode ∧
  s.myRandomNumber = t.myRandomNumber ∧ s.myAudioCycles = t.myAudioCycles ∧
  s.myFractionalClocks = t.myFractionalClocks ∧ s.myBankOffset = t.myBankOffset ∧
  s.myBankLocked = t.myBankLocked ∧ s.mySystem.myCycles = t.mySystem.myCycles

/-- The register arrays have their declared sizes: 8 fetchers, 3 music modes. -/
def Sized (s : CartridgeDPC) : Prop :=
  s.myTops.length = 8 ∧ s.myBottoms.length = 8 ∧ s.myCounters.length = 8 ∧
  s.myFlags.length = 8 ∧ s.myMusicMode.length = 3

instance (s : CartridgeDPC) : Decidable s.Sized := by
  unfold Sized
  infer_instance

/-- The register ranges of the data model: 11-bit counters, flags 0x00 or 0xFF,
bank offset 0 or 4096. -/
def RegisterRange (s : CartridgeDPC) : Prop :=
  (∀ c ∈ s.myCounters, c ≤ 2047) ∧ (∀ x ∈ s.myFlags, x = 0x00 ∨ x = 0xff) ∧
  (s.myBankOffset = 0 ∨ s.myBankOffset = 4096)

/-! ## Example states -/

/-- A 10496-byte image: bank 0 holds 0 everywhere, the upper bank and the display
ROM hold 1. -/
def exampleImage : List Nat := List.replicate 4096 0 ++ List.replicate 6400 1

/-- The power-on state over `exampleImage`: constructed, installed, reset. -/
def exampleCart : CartridgeDPC := ((new exampleImage 10496).install System.empty).reset

/-- The state `exampleCart` with the debugger's lock set. -/
def lockedCart : CartridgeDPC := { exampleCart with myBankLocked := true }

/-- The state `exampleCart` after `poke(0x1040, 0x21)`, which loads the top
register of fetcher 0. -/
def snapshotCart : CartridgeDPC := (exampleCart.poke 0x1040 0x21).2

/-- The state `exampleCart` with every counter at 4095, a value above 2047 that
`load` stores as read from a snapshot. -/
def unmaskedCart : CartridgeDPC := { exampleCart with myCounters := List.replicate 8 4095 }

/-- A stream that ends after the tops array: the short 0 and eight bytes 7. -/
def truncatedStream : Serializer := Item.short 0 :: (List.replicate 8 7).map Item.byte

/-- An unlocked state over `exampleImage` in which every fetcher has the given
top and bottom, its counter at the top, the flags of fetchers 5 to 7 at 0xFF,
the three music modes as given, and the host `cycles` cycles past the last
update. -/
def fetcherCart (top bottom : Nat) (music : Bool) (cycles : Nat) : CartridgeDPC :=
  { exampleCart with
    myTops := List.replicate 8 top
    myBottoms := List.replicate 8 bottom
    myCounters := List.replicate 8 top
    myFlags := [0, 0, 0, 0, 0, 0xff, 0xff, 0xff]
    myMusicMode := [music, music, music]
    myRandomNumber := 1
    myAudioCycles := 0
    myFractionalClocks := 0
    myBankLocked := false
    mySystem := { exampleCart.mySystem with myCycles := cycles } }

/-- The state of the flag scenario: tops 0x10, bottoms 0x05, counters 0x0010, no
music mode. -/
def comparatorCart : CartridgeDPC := fetcherCart 0x10 0x05 false 0

/-- The state of the amplitude scenario at power-on register values: all music
modes set, flags 5 to 7 forced to 0xFF, tops, bottoms and counters 0, the host
100000 cycles past the last update. -/
def musicCart : CartridgeDPC := fetcherCart 0 0 true 100000

/-- The state of the amplitude scenario with tops 0x10, bottoms 0 and counters
0x0010. -/
def windowCart : CartridgeDPC := fetcherCart 0x10 0 true 100000

/-! ## Auxiliary functions for the statements -/

/-- The value `clockRandomNumberGenerator` leaves in `myRandomNumber` when it
finds `r` there. -/
def nextRandom (r : Nat) : Nat :=
  (clockRandomNumberGenerator { new [] 0 with myRandomNumber := r }).myRandomNumber

/-- The value of `cycles` in `updateMusicModeDataFetchers`: the host cycles
since the last update, truncated to 32 bits. -/
def musicCycles (s : CartridgeDPC) : Nat :=
  ((((s.mySystem.cycles : Int) - (s.myAudioCycles : Int)) % 2 ^ 64) % 2 ^ 32).toNat

/-- The value of `clocks` in `updateMusicModeDataFetchers`. -/
def musicClocks (s : CartridgeDPC) : ℚ :=
  ((20000 * (s.musicCycles : ℚ)) / 1193191.66666667) + s.myFractionalClocks

/-- The value of `wholeClocks` in `updateMusicModeDataFetchers`. -/
def musicWholeClocks (s : CartridgeDPC) : Nat := (Int.toNat ⌊s.musicClocks⌋) % 2 ^ 32

/-- A sequence of oscillator updates, the host having advanced by the given
number of cycles before each: the sum of the whole clocks applied and the state
reached. -/
def musicRun (s : CartridgeDPC) (deltas : List Nat) : Nat × CartridgeDPC :=
  match deltas with
  | [] => (0, s)
  | d :: rest =>
    let t := s.setCycles (s.myAudioCycles + d)
    ((t.musicWholeClocks + (musicRun t.updateMusicModeDataFetchers rest).1),
      (musicRun t.updateMusicModeDataFetchers rest).2)

/-- Modelled from the spec: the type of a snapshot item. -/
inductive ItemType where
  | byte
  | short
  | long
  | double
  | bool
  deriving DecidableEq, Repr

/-- The type of an item. -/
def Item.type (i : Item) : ItemType :=
  match i with
  | Item.byte _ => ItemType.byte
  | Item.short _ => ItemType.short
  | Item.long _ => ItemType.long
  | Item.double _ => ItemType.double
  | Item.bool _ => ItemType.bool

/-- The snapshot layout in the words of the spec: a 16-bit `bankOffset`, 8 bytes
`tops`, 8 bytes `bottoms`, 8 shorts `counters`, 8 bytes `flags`, 3 booleans
`musicMode`, a byte `randomNumber`, a 64-bit `audioCycles`, a double
`fractionalClocks`. -/
def snapshotLayout : List ItemType :=
  [ItemType.short] ++ List.replicate 8 ItemType.byte ++ List.replicate 8 ItemType.byte ++
    List.replicate 8 ItemType.short ++ List.replicate 8 ItemType.byte ++
    List.replicate 3 ItemType.bool ++ [ItemType.byte, ItemType.long, ItemType.double]

/-- The items of the snapshot of a state, in the order of the spec's layout. -/
def snapshotItems (s : CartridgeDPC) : List Item :=
  Item.short s.myBankOffset :: (s.myTops.map Item.byte ++ (s.myBottoms.map Item.byte ++
    (s.myCounters.map Item.short ++ (s.myFlags.map Item.byte ++
      [Item.bool (s.myMusicMode.getD 0 false), Item.bool (s.myMusicMode.getD 1 false),
       Item.bool (s.myMusicMode.getD 2 false), Item.byte s.myRandomNumber,
       Item.long s.myAudioCycles, Item.double s.myFractionalClocks]))))

/-- The state `load` builds from the cartridge `t` when every read succeeds with
the values held by `s`, before the final `bank` call. -/
def restored (t s : CartridgeDPC) : CartridgeDPC :=
  { t with
    myBankOffset := s.myBankOffset
    myTops := s.myTops
    myBottoms := s.myBottoms
    myCounters := s.myCounters
    myFlags := s.myFlags
    myMusicMode := s.myMusicMode
    myRandomNumber := s.myRandomNumber
    myAudioCycles := s.myAudioCycles
    myFractionalClocks := s.myFractionalClocks }

/-- The items the first `k` reads of `load` consume when the values they read
are those held by `v`, in the order of the source: the bank offset, the tops,
the bottoms, the counters, the flags, the three music modes, the random number
and the audio cycles. -/
def itemsOfReads (k : Nat) (v : CartridgeDPC) : List Item :=
  (if 0 < k then [Item.short v.myBankOffset] else []) ++
  ((if 1 < k then v.myTops.map Item.byte else []) ++
  ((if 2 < k then v.myBottoms.map Item.byte else []) ++
  ((if 3 < k then v.myCounters.map Item.short else []) ++
  ((if 4 < k then v.myFlags.map Item.byte else []) ++
  ((if 5 < k then [Item.bool (v.myMusicMode.getD 0 false)] else []) ++
  ((if 6 < k then [Item.bool (v.myMusicMode.getD 1 false)] else []) ++
  ((if 7 < k then [Item.bool (v.myMusicMode.getD 2 false)] else []) ++
  ((if 8 < k then [Item.byte v.myRandomNumber] else []) ++
  (if 9 < k then [Item.long v.myAudioCycles] else [])))))))))

/-- The read number `k` of `load` succeeds on the stream `rest`; the reads are
numbered in the order of the source, from 0 for the bank offset to 10 for the
fractional clocks. -/
def readSucceeds (k : Nat) (rest : Serializer) : Bool :=
  match k with
  | 0 => (Serializer.getShort rest).isSome
  | 1 => (Serializer.getByteArray 8 rest).isSome
  | 2 => (Serializer.getByteArray 8 rest).isSome
  | 3 => (Serializer.getShortArray 8 rest).isSome
  | 4 => (Serializer.getByteArray 8 rest).isSome
  | 5 => (Serializer.getBool rest).isSome
  | 6 => (Serializer.getBool rest).isSome
  | 7 => (Serializer.getBool rest).isSome
  | 8 => (Serializer.getByte rest).isSome
  | 9 => (Serializer.getLong rest).isSome
  | _ => (Serializer.getDouble rest).isSome

/-- The state `s` with the fields of the first `k` reads of `load` overwritten
by the values held by `v`; every other field keeps the value it has in `s`. -/
def storedReads (k : Nat) (s v : CartridgeDPC) : CartridgeDPC :=
  let m0 := (if 5 < k then v else s).myMusicMode.getD 0 false
  let m1 := (if 6 < k then v else s).myMusicMode.getD 1 false
  let m2 := (if 7 < k then v else s).myMusicMode.getD 2 false
  { s with
    myBankOffset := if 0 < k then v.myBankOffset else s.myBankOffset
    myTops := if 1 < k then v.myTops else s.myTops
    myBottoms := if 2 < k then v.myBottoms else s.myBottoms
    myCounters := if 3 < k then v.myCounters else s.myCounters
    myFlags := if 4 < k then v.myFlags else s.myFlags
    myMusicMode := [m0, m1, m2]
    myRandomNumber := if 8 < k then v.myRandomNumber else s.myRandomNumber
    myAudioCycles := if 9 < k then v.myAudioCycles else s.myAudioCycles }

/-- Modelled from the spec: the feedback bit, the NOT of the XOR of bits 7, 5,
4 and 3 of `r`. -/
def feedbackBit (r : Nat) : Nat :=
  if Bool.xor (Bool.xor (Bool.xor (r.testBit 7) (r.testBit 5)) (r.testBit 4)) (r.testBit 3) then 0
  else 1

/-- Modelled from the spec: the step of the shift register,
`r <- (r << 1) | bit`, kept to 8 bits. -/
def shiftRegisterStep (r : Nat) : Nat := ((r <<< 1) ||| feedbackBit r) % 256

/-- Modelled from the spec: the parity of the four bits of a table index below
16. -/
def parity4 (k : Nat) : Bool :=
  Bool.xor (Bool.xor (Bool.xor (k.testBit 3) (k.testBit 2)) (k.testBit 1)) (k.testBit 0)

/-- The value of `newLow` at the end of the body of the music loop for fetcher
`x`, as the source computes it from `wholeClocks`. -/
def musicNewLow (wholeClocks : Nat) (s : CartridgeDPC) (x : Nat) : Int :=
  if s.myTops.getD x 0 ≠ 0 then
    if ((s.myCounters.getD x 0 &&& 0x00ff : Nat) : Int)
        - ((wholeClocks % (((s.myTops.getD x 0 : Nat) : Int) + 1).toNat : Nat) : Int) < 0 then
      ((s.myCounters.getD x 0 &&& 0x00ff : Nat) : Int)
        - ((wholeClocks % (((s.myTops.getD x 0 : Nat) : Int) + 1).toNat : Nat) : Int)
        + (((s.myTops.getD x 0 : Nat) : Int) + 1)
    else
      ((s.myCounters.getD x 0 &&& 0x00ff : Nat) : Int)
        - ((wholeClocks % (((s.myTops.getD x 0 : Nat) : Int) + 1).toNat : Nat) : Int)
  else 0

/-- The state after `k` consecutive reads of the address `a`. -/
def afterReads (s : CartridgeDPC) (a k : Nat) : CartridgeDPC :=
  (fun t => (t.peek a).2)^[k] s

/-- Modelled from the spec: the direct read of the bus.  On a page whose record
has `directPeekBase` the bus reads `directPeekBase[addr & PAGE_MASK]` without
calling the device; the base is an offset into `myImage`.  `none` when the
page has no direct base (the bus then calls `peek` of the device). -/
def directPeek (s : CartridgeDPC) (addr : Nat) : Option Nat :=
  match (s.mySystem.myPageAccessTable (addr >>> PAGE_SHIFT)).directPeekBase with
  | some base => some (s.myProgramImage (base + (addr &&& PAGE_MASK)))
  | none => none

/-! ## The array accesses of `peek` and `poke` -/

/-- An array access of `peek` or `poke`, with the index it uses. -/
inductive Access where
  /-- An access `myProgramImage[i]`; the program ROM has 8192 bytes. -/
  | program (i : Nat)
  /-- An access `myDisplayImage[i]` with the `int` index `i`; the display ROM has 2048 bytes. -/
  | display (i : Int)
  /-- An access to entry `i` of `myTops`, `myBottoms`, `myCounters` or `myFlags` (8 entries each). -/
  | fetcher (i : Nat)
  /-- An access `myMusicMode[i]` (3 entries). -/
  | musicMode (i : Int)
  /-- An access `f[i]` to the table of `clockRandomNumberGenerator` (16 entries). -/
  | table (i : Nat)
  /-- An access `musicAmplitudes[i]` (8 entries). -/
  | amplitude (i : Nat)
  deriving DecidableEq, Repr

/-- The index of an access is inside its array. -/
def Access.InBounds : Access → Prop
  | Access.program i => i < 8192
  | Access.display i => 0 ≤ i ∧ i ≤ 2047
  | Access.fetcher i => i < 8
  | Access.musicMode i => 0 ≤ i ∧ i ≤ 2
  | Access.table i => i < 16
  | Access.amplitude i => i < 8

instance (x : Access) : Decidable x.InBounds := by
  cases x <;> (unfold Access.InBounds; infer_instance)

/-- The array access of `clockRandomNumberGenerator`: the table `f`. -/
def clockRandomNumberGeneratorAccesses (s : CartridgeDPC) : List Access :=
  [Access.table (((s.myRandomNumber >>> 3) &&& 0x07) |||
    (if s.myRandomNumber &&& 0x80 ≠ 0 then 0x08 else 0x00))]

/-- The array accesses of the body of the music loop for `x`: `myMusicMode[x - 5]`
and, in music mode, the entries `x` of the four fetcher arrays. -/
def updateMusicModeDataFetcherAccesses (s : CartridgeDPC) (x : Nat) : List Access :=
  Access.musicMode ((x : Int) - 5) ::
    (if s.myMusicMode.getD (x - 5) false then [Access.fetcher x] else [])

/-- The array accesses of the iterations `xs` of the music loop, each made in
the state the iterations before it left. -/
def musicLoopAccesses (wholeClocks : Nat) (s : CartridgeDPC) : List Nat → List Access
  | [] => []
  | x :: rest =>
    updateMusicModeDataFetcherAccesses s x ++
      musicLoopAccesses wholeClocks (updateMusicModeDataFetcher wholeClocks s x) rest

/-- The array accesses of `updateMusicModeDataFetchers`: none when it returns
before the loop. -/
def updateMusicModeDataFetchersAccesses (s : CartridgeDPC) : List Access :=
  if s.musicWholeClocks ≤ 0 then []
  else musicLoopAccesses s.musicWholeClocks
    { s with myAudioCycles := s.mySystem.cycles, myFractionalClocks := s.musicClocks - (s.musicWholeClocks : ℚ) }
    [5, 6, 7]

/-- The array accesses of the music read after the update: the three tests
`myMusicMode[k] && myFlags[5 + k]` and `musicAmplitudes[i]`. -/
def musicIndexAccesses (s : CartridgeDPC) : List Access :=
  (Access.musicMode 0 :: (if s.myMusicMode.getD 0 false then [Access.fetcher 5] else [])) ++
  (Access.musicMode 1 :: (if s.myMusicMode.getD 1 false then [Access.fetcher 6] else [])) ++
  (Access.musicMode 2 :: (if s.myMusicMode.getD 2 false then [Access.fetcher 7] else [])) ++
  [Access.amplitude s.musicIndex]

/-- The array accesses of the `switch(function)` of `peek`. -/
def readFunctionAccesses (s : CartridgeDPC) (index function : Nat) : List Access :=
  match function with
  | 0 =>
    if index < 4 then []
    else updateMusicModeDataFetchersAccesses s ++ musicIndexAccesses s.updateMusicModeDataFetchers
  | 1 => [Access.fetcher index, Access.display (2047 - (s.myCounters.getD index 0 : Nat))]
  | 2 => [Access.fetcher index, Access.display (2047 - (s.myCounters.getD index 0 : Nat))]
  | 7 => [Access.fetcher index]
  | _ => []

/-- The array accesses of the counter step of `peek`: `myMusicMode[index - 5]`
is read only when `index < 5` fails. -/
def clockCounterAccesses (s : CartridgeDPC) (index : Nat) : List Access :=
  if index < 5 then [Access.fetcher index]
  else Access.musicMode ((index : Int) - 5) ::
    (if ¬ (s.myMusicMode.getD (index - 5) false = true) then [Access.fetcher index] else [])

/-- The array accesses of `peek`, in the order the source makes them. -/
def peekAccesses (s : CartridgeDPC) (address : Nat) : List Access :=
  let address := address &&& 0x0FFF
  if s.bankLocked then [Access.program (s.myBankOffset + address)]
  else
    let s1 := s.clockRandomNumberGenerator
    clockRandomNumberGeneratorAccesses s ++
    (if address < 0x0040 then
      let index := address &&& 0x07
      let function := (address >>> 3) &&& 0x07
      let s2 := s1.updateFlag index
      [Access.fetcher index] ++ readFunctionAccesses s2 index function ++
        clockCounterAccesses (s2.readFunction index function).2 index
    else
      let s2 := s1.switchBanks address
      [Access.program (s2.myBankOffset + address)])

/-- The array accesses of the `switch(function)` of `poke`. -/
def writeFunctionAccesses (index function : Nat) : List Access :=
  match function with
  | 0 => [Access.fetcher index]
  | 1 => [Access.fetcher index]
  | 2 => (if 5 ≤ index then [Access.musicMode ((index : Int) - 5)] else []) ++ [Access.fetcher index]
  | 3 => Access.fetcher index :: (if 5 ≤ index then [Access.musicMode ((index : Int) - 5)] else [])
  | _ => []

/-- The array accesses of `poke`, in the order the source makes them. -/
def pokeAccesses (s : CartridgeDPC) (address : Nat) : List Access :=
  let address := address &&& 0x0FFF
  clockRandomNumberGeneratorAccesses s ++
  (if 0x0040 ≤ address ∧ address < 0x0080 then
    writeFunctionAccesses (address &&& 0x07) ((address >>> 3) &&& 0x07)
  else [])

/-! ## Frame lemmas: the fields each step leaves alone -/

@[simp]
theorem clockRandomNumberGenerator_myImage (s : CartridgeDPC) :
    s.clockRandomNumberGenerator.myImage = s.myImage := rfl

@[simp]
theorem clockRandomNumberGenerator_mySize (s : CartridgeDPC) :
    s.clockRandomNumberGenerator.mySize = s.mySize := rfl

@[simp]
theorem clockRandomNumberGenerator_myTops (s : CartridgeDPC) :
    s.clockRandomNumberGenerator.myTops = s.myTops := rfl

@[simp]
theorem clockRandomNumberGenerator_myBottoms (s : CartridgeDPC) :
    s.clockRandomNumberGenerator.myBottoms = s.myBottoms := rfl

@[simp]
theorem clockRandomNumberGenerator_myCounters (s : CartridgeDPC) :
    s.clockRandomNumberGenerator.myCounters = s.myCounters := rfl

@[simp]
theorem clockRandomNumberGenerator_myFlags (s : CartridgeDPC) :
    s.clockRandomNumberGenerator.myFlags = s.myFlags := rfl

@[simp]
theorem clockRandomNumberGenerator_myMusicMode (s : CartridgeDPC) :
    s.clockRandomNumberGenerator.myMusicMode = s.myMusicMode := rfl

@[simp]
theorem clockRandomNumberGenerator_myAudioCycles (s : CartridgeDPC) :
    s.clockRandomNumberGenerator.myAudioCycles = s.myAudioCycles := rfl

@[simp]
theorem clockRandomNumberGenerator_myFractionalClocks (s : CartridgeDPC) :
    s.clockRandomNumberGenerator.myFractionalClocks = s.myFractionalClocks := rfl

@[simp]
theorem clockRandomNumberGenerator_myBankOffset (s : CartridgeDPC) :
    s.clockRandomNumberGenerator.myBankOffset = s.myBankOffset := rfl

@[simp]
theorem clockRandomNumberGenerator_myBankLocked (s : CartridgeDPC) :
    s.clockRandomNumberGenerator.myBankLocked = s.myBankLocked := rfl

@[simp]
theorem clockRandomNumberGenerator_myStartBank (s : CartridgeDPC) :
    s.clockRandomNumberGenerator.myStartBank = s.myStartBank := rfl

@[simp]
theorem clockRandomNumberGenerator_myBankChanged (s : CartridgeDPC) :
    s.clockRandomNumberGenerator.myBankChanged = s.myBankChanged := rfl

@[simp]
theorem clockRandomNumberGenerator_mySystem (s : CartridgeDPC) :
    s.clockRandomNumberGenerator.mySystem = s.mySystem := rfl

@[simp]
theorem bank_myImage (s : CartridgeDPC) (n : Nat) :
    (s.bank n).2.myImage = s.myImage := by
  unfold bank; split <;> rfl

@[simp]
theorem bank_mySize (s : CartridgeDPC) (n : Nat) :
    (s.bank n).2.mySize = s.mySize := by
  unfold bank; split <;> rfl

@[simp]
theorem bank_myTops (s : CartridgeDPC) (n : Nat) :
    (s.bank n).2.myTops = s.myTops := by
  unfold bank; split <;> rfl

@[simp]
theorem bank_myBottoms (s : CartridgeDPC) (n : Nat) :
    (s.bank n).2.myBottoms = s.myBottoms := by
  unfold bank; split <;> rfl

@[simp]
theorem bank_myCounters (s : CartridgeDPC) (n : Nat) :
    (s.bank n).2.myCounters = s.myCounters := by
  unfold bank; split <;> rfl

@[simp]
theorem bank_myFlags (s : CartridgeDPC) (n : Nat) :
    (s.bank n).2.myFlags = s.myFlags := by
  unfold bank; split <;> rfl

@[simp]
theorem bank_myMusicMode (s : CartridgeDPC) (n : Nat) :
    (s.bank n).2.myMusicMode = s.myMusicMode := by
  unfold bank; split <;> rfl

@[simp]
theorem bank_myRandomNumber (s : CartridgeDPC) (n : Nat) :
    (s.bank n).2.myRandomNumber = s.myRandomNumber := by
  unfold bank; split <;> rfl

@[simp]
theorem bank_myAudioCycles (s : CartridgeDPC) (n : Nat) :
    (s.bank n).2.myAudioCycles = s.myAudioCycles := by
  unfold bank; split <;> rfl

@[simp]
theorem bank_myFractionalClocks (s : CartridgeDPC) (n : Nat) :
    (s.bank n).2.myFractionalClocks = s.myFractionalClocks := by
  unfold bank; split <;> rfl

@[simp]
theorem bank_myBankLocked (s : CartridgeDPC) (n : Nat) :
    (s.bank n).2.myBankLocked = s.myBankLocked := by
  unfold bank; split <;> rfl

@[simp]
theorem bank_myStartBank (s : CartridgeDPC) (n : Nat) :
    (s.bank n).2.myStartBank = s.myStartBank := by
  unfold bank; split <;> rfl

@[simp]
theorem switchBanks_myImage (s : CartridgeDPC) (a : Nat) :
    (s.switchBanks a).myImage = s.myImage := by
  unfold switchBanks; split_ifs <;> simp

@[simp]
theorem switchBanks_mySize (s : CartridgeDPC) (a : Nat) :
    (s.switchBanks a).mySize = s.mySize := by
  unfold switchBanks; split_ifs <;> simp

@[simp]
theorem switchBanks_myTops (s : CartridgeDPC) (a : Nat) :
    (s.switchBanks a).myTops = s.myTops := by
  unfold switchBanks; split_ifs <;> simp

@[simp]
theorem switchBanks_myBottoms (s : CartridgeDPC) (a : Nat) :
    (s.switchBanks a).myBottoms = s.myBottoms := by
  unfold switchBanks; split_ifs <;> simp

@[simp]
theorem switchBanks_myCounters (s : CartridgeDPC) (a : Nat) :
    (s.switchBanks a).myCounters = s.myCounters := by
  unfold switchBanks; split_ifs <;> simp

@[simp]
theorem switchBanks_myFlags (s : CartridgeDPC) (a : Nat) :
    (s.switchBanks a).myFlags = s.myFlags := by
  unfold switchBanks; split_ifs <;> simp

@[simp]
theorem switchBanks_myMusicMode (s : CartridgeDPC) (a : Nat) :
    (s.switchBanks a).myMusicMode = s.myMusicMode := by
  unfold switchBanks; split_ifs <;> simp

@[simp]
theorem switchBanks_myRandomNumber (s : CartridgeDPC) (a : Nat) :
    (s.switchBanks a).myRandomNumber = s.myRandomNumber := by
  unfold switchBanks; split_ifs <;> simp

@[simp]
theorem switchBanks_myAudioCycles (s : CartridgeDPC) (a : Nat) :
    (s.switchBanks a).myAudioCycles = s.myAudioCycles := by
  unfold switchBanks; split_ifs <;> simp

@[simp]
theorem switchBanks_myFractionalClocks (s : CartridgeDPC) (a : Nat) :
    (s.switchBanks a).myFractionalClocks = s.myFractionalClocks := by
  unfold switchBanks; split_ifs <;> simp

@[simp]
theorem switchBanks_myBankLocked (s : CartridgeDPC) (a : Nat) :
    (s.switchBanks a).myBankLocked = s.myBankLocked := by
  unfold switchBanks; split_ifs <;> simp

@[simp]
theorem switchBanks_myStartBank (s : CartridgeDPC) (a : Nat) :
    (s.switchBanks a).myStartBank = s.myStartBank := by
  unfold switchBanks; split_ifs <;> simp

@[simp]
theorem updateFlag_myImage (s : CartridgeDPC) (i : Nat) :
    (s.updateFlag i).myImage = s.myImage := by
  unfold updateFlag; split_ifs <;> rfl

@[simp]
theorem updateFlag_mySize (s : CartridgeDPC) (i : Nat) :
    (s.updateFlag i).mySize = s.mySize := by
  unfold updateFlag; split_ifs <;> rfl

@[simp]
theorem updateFlag_myTops (s : CartridgeDPC) (i : Nat) :
    (s.updateFlag i).myTops = s.myTops := by
  unfold updateFlag; split_ifs <;> rfl

@[simp]
theorem updateFlag_myBottoms (s : CartridgeDPC) (i : Nat) :
    (s.updateFlag i).myBottoms = s.myBottoms := by
  unfold updateFlag; split_ifs <;> rfl

@[simp]
theorem updateFlag_myCounters (s : CartridgeDPC) (i : Nat) :
    (s.updateFlag i).myCounters = s.myCounters := by
  unfold updateFlag; split_ifs <;> rfl

@[simp]
theorem updateFlag_myMusicMode (s : CartridgeDPC) (i : Nat) :
    (s.updateFlag i).myMusicMode = s.myMusicMode := by
  unfold updateFlag; split_ifs <;> rfl

@[simp]
theorem updateFlag_myRandomNumber (s : CartridgeDPC) (i : Nat) :
    (s.updateFlag i).myRandomNumber = s.myRandomNumber := by
  unfold updateFlag; split_ifs <;> rfl

@[simp]
theorem updateFlag_myAudioCycles (s : CartridgeDPC) (i : Nat) :
    (s.updateFlag i).myAudioCycles = s.myAudioCycles := by
  unfold updateFlag; split_ifs <;> rfl

@[simp]
theorem updateFlag_myFractionalClocks (s : CartridgeDPC) (i : Nat) :
    (s.updateFlag i).myFractionalClocks = s.myFractionalClocks := by
  unfold updateFlag; split_ifs <;> rfl

@[simp]
theorem updateFlag_myBankOffset (s : CartridgeDPC) (i : Nat) :
    (s.updateFlag i).myBankOffset = s.myBankOffset := by
  unfold updateFlag; split_ifs <;> rfl

@[simp]
theorem updateFlag_myBankLocked (s : CartridgeDPC) (i : Nat) :
    (s.updateFlag i).myBankLocked = s.myBankLocked := by
  unfold updateFlag; split_ifs <;> rfl

@[simp]
theorem updateFlag_myStartBank (s : CartridgeDPC) (i : Nat) :
    (s.updateFlag i).myStartBank = s.myStartBank := by
  unfold updateFlag; split_ifs <;> rfl

@[simp]
theorem updateFlag_myBankChanged (s : CartridgeDPC) (i : Nat) :
    (s.updateFlag i).myBankChanged = s.myBankChanged := by
  unfold updateFlag; split_ifs <;> rfl

@[simp]
theorem updateFlag_mySystem (s : CartridgeDPC) (i : Nat) :
    (s.updateFlag i).mySystem = s.mySystem := by
  unfold updateFlag; split_ifs <;> rfl

@[simp]
theorem updateMusicModeDataFetcher_myImage (w : Nat) (s : CartridgeDPC) (x : Nat) :
    (updateMusicModeDataFetcher w s x).myImage = s.myImage := by
  unfold updateMusicModeDataFetcher; split <;> rfl

@[simp]
theorem updateMusicModeDataFetcher_mySize (w : Nat) (s : CartridgeDPC) (x : Nat) :
    (updateMusicModeDataFetcher w s x).mySize = s.mySize := by
  unfold updateMusicModeDataFetcher; split <;> rfl

@[simp]
theorem updateMusicModeDataFetcher_myTops (w : Nat) (s : CartridgeDPC) (x : Nat) :
    (updateMusicModeDataFetcher w s x).myTops = s.myTops := by
  unfold updateMusicModeDataFetcher; split <;> rfl

@[simp]
theorem updateMusicModeDataFetcher_myBottoms (w : Nat) (s : CartridgeDPC) (x : Nat) :
    (updateMusicModeDataFetcher w s x).myBottoms = s.myBottoms := by
  unfold updateMusicModeDataFetcher; split <;> rfl

@[simp]
theorem updateMusicModeDataFetcher_myMusicMode (w : Nat) (s : CartridgeDPC) (x : Nat) :
    (updateMusicModeDataFetcher w s x).myMusicMode = s.myMusicMode := by
  unfold updateMusicModeDataFetcher; split <;> rfl

@[simp]
theorem updateMusicModeDataFetcher_myRandomNumber (w : Nat) (s : CartridgeDPC) (x : Nat) :
    (updateMusicModeDataFetcher w s x).myRandomNumber = s.myRandomNumber := by
  unfold updateMusicModeDataFetcher; split <;> rfl

@[simp]
theorem updateMusicModeDataFetcher_myAudioCycles (w : Nat) (s : CartridgeDPC) (x : Nat) :
    (updateMusicModeDataFetcher w s x).myAudioCycles = s.myAudioCycles := by
  unfold updateMusicModeDataFetcher; split <;> rfl

@[simp]
theorem updateMusicModeDataFetcher_myFractionalClocks (w : Nat) (s : CartridgeDPC) (x : Nat) :
    (updateMusicModeDataFetcher w s x).myFractionalClocks = s.myFractionalClocks := by
  unfold updateMusicModeDataFetcher; split <;> rfl

@[simp]
theorem updateMusicModeDataFetcher_myBankOffset (w : Nat) (s : CartridgeDPC) (x : Nat) :
    (updateMusicModeDataFetcher w s x).myBankOffset = s.myBankOffset := by
  unfold updateMusicModeDataFetcher; split <;> rfl

@[simp]
theorem updateMusicModeDataFetcher_myBankLocked (w : Nat) (s : CartridgeDPC) (x : Nat) :
    (updateMusicModeDataFetcher w s x).myBankLocked = s.myBankLocked := by
  unfold updateMusicModeDataFetcher; split <;> rfl

@[simp]
theorem updateMusicModeDataFetcher_myStartBank (w : Nat) (s : CartridgeDPC) (x : Nat) :
    (updateMusicModeDataFetcher w s x).myStartBank = s.myStartBank := by
  unfold updateMusicModeDataFetcher; split <;> rfl

@[simp]
theorem updateMusicModeDataFetcher_myBankChanged (w : Nat) (s : CartridgeDPC) (x : Nat) :
    (updateMusicModeDataFetcher w s x).myBankChanged = s.myBankChanged := by
  unfold updateMusicModeDataFetcher; split <;> rfl

@[simp]
theorem updateMusicModeDataFetcher_mySystem (w : Nat) (s : CartridgeDPC) (x : Nat) :
    (updateMusicModeDataFetcher w s x).mySystem = s.mySystem := by
  unfold updateMusicModeDataFetcher; split <;> rfl

@[simp]
theorem updateMusicModeDataFetchers_myImage (s : CartridgeDPC) :
    s.updateMusicModeDataFetchers.myImage = s.myImage := by
  unfold updateMusicModeDataFetchers; simp only []; split <;> simp [List.foldl]

@[simp]
theorem updateMusicModeDataFetchers_mySize (s : CartridgeDPC) :
    s.updateMusicModeDataFetchers.mySize = s.mySize := by
  unfold updateMusicModeDataFetchers; simp only []; split <;> simp [List.foldl]

@[simp]
theorem updateMusicModeDataFetchers_myTops (s : CartridgeDPC) :
    s.updateMusicModeDataFetchers.myTops = s.myTops := by
  unfold updateMusicModeDataFetchers; simp only []; split <;> simp [List.foldl]

@[simp]
theorem updateMusicModeDataFetchers_myBottoms (s : CartridgeDPC) :
    s.updateMusicModeDataFetchers.myBottoms = s.myBottoms := by
  unfold updateMusicModeDataFetchers; simp only []; split <;> simp [List.foldl]

@[simp]
theorem updateMusicModeDataFetchers_myMusicMode (s : CartridgeDPC) :
    s.updateMusicModeDataFetchers.myMusicMode = s.myMusicMode := by
  unfold updateMusicModeDataFetchers; simp only []; split <;> simp [List.foldl]

@[simp]
theorem updateMusicModeDataFetchers_myRandomNumber (s : CartridgeDPC) :
    s.updateMusicModeDataFetchers.myRandomNumber = s.myRandomNumber := by
  unfold updateMusicModeDataFetchers; simp only []; split <;> simp [List.foldl]

@[simp]
theorem updateMusicModeDataFetchers_myBankOffset (s : CartridgeDPC) :
    s.updateMusicModeDataFetchers.myBankOffset = s.myBankOffset := by
  unfold updateMusicModeDataFetchers; simp only []; split <;> simp [List.foldl]

@[simp]
theorem updateMusicModeDataFetchers_myBankLocked (s : CartridgeDPC) :
    s.updateMusicModeDataFetchers.myBankLocked = s.myBankLocked := by
  unfold updateMusicModeDataFetchers; simp only []; split <;> simp [List.foldl]

@[simp]
theorem updateMusicModeDataFetchers_myStartBank (s : CartridgeDPC) :
    s.updateMusicModeDataFetchers.myStartBank = s.myStartBank := by
  unfold updateMusicModeDataFetchers; simp only []; split <;> simp [List.foldl]

@[simp]
theorem updateMusicModeDataFetchers_myBankChanged (s : CartridgeDPC) :
    s.updateMusicModeDataFetchers.myBankChanged = s.myBankChanged := by
  unfold updateMusicModeDataFetchers; simp only []; split <;> simp [List.foldl]

@[simp]
theorem updateMusicModeDataFetchers_mySystem (s : CartridgeDPC) :
    s.updateMusicModeDataFetchers.mySystem = s.mySystem := by
  unfold updateMusicModeDataFetchers; simp only []; split <;> simp [List.foldl]

@[simp]
theorem readFunction_myImage (s : CartridgeDPC) (i fn : Nat) :
    (s.readFunction i fn).2.myImage = s.myImage := by
  unfold readFunction; split <;> (try split) <;> simp

@[simp]
theorem readFunction_mySize (s : CartridgeDPC) (i fn : Nat) :
    (s.readFunction i fn).2.mySize = s.mySize := by
  unfold readFunction; split <;> (try split) <;> simp

@[simp]
theorem readFunction_myTops (s : CartridgeDPC) (i fn : Nat) :
    (s.readFunction i fn).2.myTops = s.myTops := by
  unfold readFunction; split <;> (try split) <;> simp

@[simp]
theorem readFunction_myBottoms (s : CartridgeDPC) (i fn : Nat) :
    (s.readFunction i fn).2.myBottoms = s.myBottoms := by
  unfold readFunction; split <;> (try split) <;> simp

@[simp]
theorem readFunction_myMusicMode (s : CartridgeDPC) (i fn : Nat) :
    (s.readFunction i fn).2.myMusicMode = s.myMusicMode := by
  unfold readFunction; split <;> (try split) <;> simp

@[simp]
theorem readFunction_myRandomNumber (s : CartridgeDPC) (i fn : Nat) :
    (s.readFunction i fn).2.myRandomNumber = s.myRandomNumber := by
  unfold readFunction; split <;> (try split) <;> simp

@[simp]
theorem readFunction_myBankOffset (s : CartridgeDPC) (i fn : Nat) :
    (s.readFunction i fn).2.myBankOffset = s.myBankOffset := by
  unfold readFunction; split <;> (try split) <;> simp

@[simp]
theorem readFunction_myBankLocked (s : CartridgeDPC) (i fn : Nat) :
    (s.readFunction i fn).2.myBankLocked = s.myBankLocked := by
  unfold readFunction; split <;> (try split) <;> simp

@[simp]
theorem readFunction_myStartBank (s : CartridgeDPC) (i fn : Nat) :
    (s.readFunction i fn).2.myStartBank = s.myStartBank := by
  unfold readFunction; split <;> (try split) <;> simp

@[simp]
theorem readFunction_myBankChanged (s : CartridgeDPC) (i fn : Nat) :
    (s.readFunction i fn).2.myBankChanged = s.myBankChanged := by
  unfold readFunction; split <;> (try split) <;> simp

@[simp]
theorem readFunction_mySystem (s : CartridgeDPC) (i fn : Nat) :
    (s.readFunction i fn).2.mySystem = s.mySystem := by
  unfold readFunction; split <;> (try split) <;> simp

@[simp]
theorem clockCounter_myImage (s : CartridgeDPC) (i : Nat) :
    (s.clockCounter i).myImage = s.myImage := by
  unfold clockCounter; split <;> rfl

@[simp]
theorem clockCounter_mySize (s : CartridgeDPC) (i : Nat) :
    (s.clockCounter i).mySize = s.mySize := by
  unfold clockCounter; split <;> rfl

@[simp]
theorem clockCounter_myTops (s : CartridgeDPC) (i : Nat) :
    (s.clockCounter i).myTops = s.myTops := by
  unfold clockCounter; split <;> rfl

@[simp]
theorem clockCounter_myBottoms (s : CartridgeDPC) (i : Nat) :
    (s.clockCounter i).myBottoms = s.myBottoms := by
  unfold clockCounter; split <;> rfl

@[simp]
theorem clockCounter_myFlags (s : CartridgeDPC) (i : Nat) :
    (s.clockCounter i).myFlags = s.myFlags := by
  unfold clockCounter; split <;> rfl

@[simp]
theorem clockCounter_myMusicMode (s : CartridgeDPC) (i : Nat) :
    (s.clockCounter i).myMusicMode = s.myMusicMode := by
  unfold clockCounter; split <;> rfl

@[simp]
theorem clockCounter_myRandomNumber (s : CartridgeDPC) (i : Nat) :
    (s.clockCounter i).myRandomNumber = s.myRandomNumber := by
  unfold clockCounter; split <;> rfl

@[simp]
theorem clockCounter_myAudioCycles (s : CartridgeDPC) (i : Nat) :
    (s.clockCounter i).myAudioCycles = s.myAudioCycles := by
  unfold clockCounter; split <;> rfl

@[simp]
theorem clockCounter_myFractionalClocks (s : CartridgeDPC) (i : Nat) :
    (s.clockCounter i).myFractionalClocks = s.myFractionalClocks := by
  unfold clockCounter; split <;> rfl

@[simp]
theorem clockCounter_myBankOffset (s : CartridgeDPC) (i : Nat) :
    (s.clockCounter i).myBankOffset = s.myBankOffset := by
  unfold clockCounter; split <;> rfl

@[simp]
theorem clockCounter_myBankLocked (s : CartridgeDPC) (i : Nat) :
    (s.clockCounter i).myBankLocked = s.myBankLocked := by
  unfold clockCounter; split <;> rfl

@[simp]
theorem clockCounter_myStartBank (s : CartridgeDPC) (i : Nat) :
    (s.clockCounter i).myStartBank = s.myStartBank := by
  unfold clockCounter; split <;> rfl

@[simp]
theorem clockCounter_myBankChanged (s : CartridgeDPC) (i : Nat) :
    (s.clockCounter i).myBankChanged = s.myBankChanged := by
  unfold clockCounter; split <;> rfl

@[simp]
theorem clockCounter_mySystem (s : CartridgeDPC) (i : Nat) :
    (s.clockCounter i).mySystem = s.mySystem := by
  unfold clockCounter; split <;> rfl

@[simp]
theorem writeFunction_myImage (s : CartridgeDPC) (i fn v : Nat) :
    (s.writeFunction i fn v).myImage = s.myImage := by
  unfold writeFunction; split <;> (try split) <;> rfl

@[simp]
theorem writeFunction_mySize (s : CartridgeDPC) (i fn v : Nat) :
    (s.writeFunction i fn v).mySize = s.mySize := by
  unfold writeFunction; split <;> (try split) <;> rfl

@[simp]
theorem writeFunction_myAudioCycles (s : CartridgeDPC) (i fn v : Nat) :
    (s.writeFunction i fn v).myAudioCycles = s.myAudioCycles := by
  unfold writeFunction; split <;> (try split) <;> rfl

@[simp]
theorem writeFunction_myFractionalClocks (s : CartridgeDPC) (i fn v : Nat) :
    (s.writeFunction i fn v).myFractionalClocks = s.myFractionalClocks := by
  unfold writeFunction; split <;> (try split) <;> rfl

@[simp]
theorem writeFunction_myBankOffset (s : CartridgeDPC) (i fn v : Nat) :
    (s.writeFunction i fn v).myBankOffset = s.myBankOffset := by
  unfold writeFunction; split <;> (try split) <;> rfl

@[simp]
theorem writeFunction_myBankLocked (s : CartridgeDPC) (i fn v : Nat) :
    (s.writeFunction i fn v).myBankLocked = s.myBankLocked := by
  unfold writeFunction; split <;> (try split) <;> rfl

@[simp]
theorem writeFunction_myStartBank (s : CartridgeDPC) (i fn v : Nat) :
    (s.writeFunction i fn v).myStartBank = s.myStartBank := by
  unfold writeFunction; split <;> (try split) <;> rfl

@[simp]
theorem writeFunction_myBankChanged (s : CartridgeDPC) (i fn v : Nat) :
    (s.writeFunction i fn v).myBankChanged = s.myBankChanged := by
  unfold writeFunction; split <;> (try split) <;> rfl

@[simp]
theorem writeFunction_mySystem (s : CartridgeDPC) (i fn v : Nat) :
    (s.writeFunction i fn v).mySystem = s.mySystem := by
  unfold writeFunction; split <;> (try split) <;> rfl

/-! ## Bank switching -/

theorem bank_myBankOffset_of_unlocked (s : CartridgeDPC) (n : Nat) (h : s.bankLocked = false) :
    (s.bank n).2.myBankOffset = (n <<< 12) % 65536 := by
  simp [bank, h]

theorem peek_of_locked (s : CartridgeDPC) (a : Nat) (h : s.bankLocked = true) :
    s.peek a = (s.myProgramImage (s.myBankOffset + (a &&& 0x0FFF)), s) := by
  simp [peek, h]

theorem peek_rom_of_unlocked (s : CartridgeDPC) (a : Nat) (h : s.bankLocked = false)
    (ha : ¬ (a &&& 0x0FFF) < 0x0040) :
    s.peek a =
      ((s.clockRandomNumberGenerator.switchBanks (a &&& 0x0FFF)).myProgramImage
          ((s.clockRandomNumberGenerator.switchBanks (a &&& 0x0FFF)).myBankOffset + (a &&& 0x0FFF)),
        s.clockRandomNumberGenerator.switchBanks (a &&& 0x0FFF)) := by
  simp [peek, h, ha]

theorem peek_dpc_of_unlocked (s : CartridgeDPC) (a : Nat) (h : s.bankLocked = false)
    (ha : (a &&& 0x0FFF) < 0x0040) :
    s.peek a =
      (((s.clockRandomNumberGenerator.updateFlag ((a &&& 0x0FFF) &&& 0x07)).readFunction
          ((a &&& 0x0FFF) &&& 0x07) (((a &&& 0x0FFF) >>> 3) &&& 0x07)).1,
        ((s.clockRandomNumberGenerator.updateFlag ((a &&& 0x0FFF) &&& 0x07)).readFunction
          ((a &&& 0x0FFF) &&& 0x07) (((a &&& 0x0FFF) >>> 3) &&& 0x07)).2.clockCounter
            ((a &&& 0x0FFF) &&& 0x07)) := by
  simp [peek, h, ha]

theorem switchBanks_myBankOffset (s : CartridgeDPC) (a : Nat) (h : s.bankLocked = false) :
    (s.switchBanks a).myBankOffset =
      if a = 0x0FF8 then 0 else if a = 0x0FF9 then 4096 else s.myBankOffset := by
  unfold switchBanks
  split_ifs <;> simp [bank, h]

theorem myProgramImage_congr (s t : CartridgeDPC) (h : s.myImage = t.myImage) (i : Nat) :
    s.myProgramImage i = t.myProgramImage i := by
  simp [myProgramImage, h]

theorem peek_hotspot_value (s : CartridgeDPC) (a : Nat) (h : s.bankLocked = false)
    (ha : a &&& 0x0FFF = 0x0FF8 ∨ a &&& 0x0FFF = 0x0FF9) :
    (s.peek a).1 = s.myProgramImage ((if a &&& 0x0FFF = 0x0FF8 then 0 else 4096) + (a &&& 0x0FFF)) := by
  have hlt : ¬ (a &&& 0x0FFF) < 0x0040 := by omega
  rw [peek_rom_of_unlocked s a h hlt]
  simp only []
  rw [switchBanks_myBankOffset _ _ (by simpa [bankLocked] using h)]
  rw [myProgramImage_congr _ s (by simp)]
  rcases ha with ha | ha <;> simp [ha]

theorem poke_eq (s : CartridgeDPC) (a v : Nat) :
    s.poke a v =
      (false,
        if 0x0040 ≤ (a &&& 0x0FFF) ∧ (a &&& 0x0FFF) < 0x0080 then
          s.clockRandomNumberGenerator.writeFunction ((a &&& 0x0FFF) &&& 0x07)
            (((a &&& 0x0FFF) >>> 3) &&& 0x07) v
        else s.clockRandomNumberGenerator.switchBanks (a &&& 0x0FFF)) := by
  unfold poke
  simp only []
  split <;> rfl

/-! ## The example states -/

theorem getD_replicate_append (n m a b i : Nat) :
    (List.replicate n a ++ List.replicate m b).getD i 0 =
      if i < n then a else if i < n + m then b else 0 := by
  rw [List.getD_eq_getElem?_getD]
  by_cases h : i < n
  · rw [List.getElem?_append_left (by simpa using h)]
    simp [List.getElem?_replicate, h]
  · rw [List.getElem?_append_right (by simpa using h)]
    simp only [List.getElem?_replicate, List.length_replicate, h, if_false]
    by_cases h2 : i < n + m
    · have : i - n < m := by omega
      simp [this, h2]
    · have : ¬ (i - n < m) := by omega
      simp [this, h2]

theorem exampleImage_length : exampleImage.length = 10496 := by
  have : ∀ n m : Nat, (List.replicate n 0 ++ List.replicate m 1).length = n + m := by
    intro n m; simp
  exact this 4096 6400

theorem exampleImage_getD (i : Nat) :
    exampleImage.getD i 0 = if i < 4096 then 0 else if i < 4096 + 6400 then 1 else 0 :=
  getD_replicate_append 4096 6400 0 1 i

theorem new_myImage_of_length (image : List Nat) (h : image.length = 10496) :
    (new image 10496).myImage = image := by
  simp [new, List.take_of_length_le, h]

theorem exampleCart_myImage : exampleCart.myImage = exampleImage := by
  simp [exampleCart, reset, install, initializeStartBank,
    new_myImage_of_length exampleImage exampleImage_length]

theorem exampleCart_bankLocked : exampleCart.bankLocked = false := by
  simp [exampleCart, reset, install, initializeStartBank, bankLocked, new]

theorem exampleCart_myBankOffset : exampleCart.myBankOffset = 4096 := by
  simp [exampleCart, reset, install, initializeStartBank, startBank, bank, bankLocked, new]

/-! ## Claims C1, C3, C4 -/

/-- C1 (bank-lock purity): with `bankLocked` set, `peek a` returns
`myProgramImage[myBankOffset + (a & 0x0FFF)]` and the state it leaves is the
state it found, every field included; hence any sequence of locked peeks leaves
the state unchanged. -/
theorem peek_bankLocked_pure (s : CartridgeDPC) (h : s.bankLocked = true) :
    (∀ a : Nat, s.peek a = (s.myProgramImage (s.myBankOffset + (a &&& 0x0FFF)), s)) ∧
    (∀ l : List Nat, l.foldl (fun t a => (t.peek a).2) s = s) := by
  refine ⟨fun a => peek_of_locked s a h, ?_⟩
  intro l
  induction l with
  | nil => rfl
  | cons a l ih => simpa [List.foldl, peek_of_locked s a h] using ih

/-- Witness of C1 at the locked example state. -/
theorem peek_bankLocked_pure_witness :
    lockedCart.bankLocked = true ∧
    ((∀ a : Nat, lockedCart.peek a =
        (lockedCart.myProgramImage (lockedCart.myBankOffset + (a &&& 0x0FFF)), lockedCart)) ∧
     (∀ l : List Nat, l.foldl (fun t a => (t.peek a).2) lockedCart = lockedCart)) :=
  ⟨rfl, peek_bankLocked_pure lockedCart rfl⟩

/-- C3 as stated fails: after reset into bank 1, `peek(0x1FF8)` does not return
the byte of the bank that was active before the access (which is 1 in the
example image) but the byte 0 of the bank it switches to. -/
theorem peek_hotspot_previous_bank_counterexample :
    exampleCart.bankLocked = false ∧ exampleCart.getBank = 1 ∧
    exampleCart.myProgramImage (exampleCart.myBankOffset + 0x0FF8) = 1 ∧
    (exampleCart.peek 0x1FF8).1 = 0 ∧
    (exampleCart.peek 0x1FF8).1 ≠ exampleCart.myProgramImage (exampleCart.myBankOffset + 0x0FF8) := by
  have hv : (exampleCart.peek 0x1FF8).1 = 0 := by
    rw [peek_hotspot_value exampleCart 0x1FF8 exampleCart_bankLocked (Or.inl (by decide))]
    rw [myProgramImage, exampleCart_myImage, exampleImage_getD]
    decide
  have hp : exampleCart.myProgramImage (exampleCart.myBankOffset + 0x0FF8) = 1 := by
    rw [myProgramImage, exampleCart_myImage, exampleImage_getD, exampleCart_myBankOffset]
    decide
  refine ⟨exampleCart_bankLocked, ?_, hp, hv, ?_⟩
  · simp [getBank, exampleCart_myBankOffset]
  · rw [hv, hp]; decide

/-- C3 (amended): on an unlocked cartridge `peek(0x1FF8)` returns the byte at
offset 0x0FF8 of bank 0 and leaves bank 0 active, and `peek(0x1FF9)` returns the
byte at offset 0x0FF9 of bank 1 and leaves bank 1 active: the value is fetched
after `bank()` has run, from the bank the access selects. -/
theorem peek_hotspot_reads_selected_bank (s : CartridgeDPC) (h : s.bankLocked = false) :
    (s.peek 0x1FF8).1 = s.myProgramImage 0x0FF8 ∧ (s.peek 0x1FF8).2.getBank = 0 ∧
    (s.peek 0x1FF9).1 = s.myProgramImage (4096 + 0x0FF9) ∧ (s.peek 0x1FF9).2.getBank = 1 := by
  have h8 : (0x1FF8 &&& 0x0FFF) = 0x0FF8 := by decide
  have h9 : (0x1FF9 &&& 0x0FFF) = 0x0FF9 := by decide
  have hl : s.clockRandomNumberGenerator.bankLocked = false := by simpa [bankLocked] using h
  refine ⟨?_, ?_, ?_, ?_⟩
  · rw [peek_hotspot_value s 0x1FF8 h (Or.inl h8)]; simp [h8]
  · rw [peek_rom_of_unlocked s 0x1FF8 h (by decide)]
    simp [getBank, switchBanks_myBankOffset _ _ hl, h8]
  · rw [peek_hotspot_value s 0x1FF9 h (Or.inr h9)]; simp [h9]
  · rw [peek_rom_of_unlocked s 0x1FF9 h (by decide)]
    simp [getBank, switchBanks_myBankOffset _ _ hl, h9]

/-- Witness of the amended C3 at the power-on example state. -/
theorem peek_hotspot_reads_selected_bank_witness :
    exampleCart.bankLocked = false ∧
    ((exampleCart.peek 0x1FF8).1 = exampleCart.myProgramImage 0x0FF8 ∧
     (exampleCart.peek 0x1FF8).2.getBank = 0 ∧
     (exampleCart.peek 0x1FF9).1 = exampleCart.myProgramImage (4096 + 0x0FF9) ∧
     (exampleCart.peek 0x1FF9).2.getBank = 1) :=
  ⟨exampleCart_bankLocked, peek_hotspot_reads_selected_bank exampleCart exampleCart_bankLocked⟩

/-- C4 (hot-spot bank switching): on an unlocked cartridge, after `peek a` and
after `poke a v` the active bank is 0 if `a & 0x0FFF` is 0x0FF8, 1 if it is
0x0FF9, and the bank it was for every other address. -/
theorem hotspot_bank_switching (s : CartridgeDPC) (h : s.bankLocked = false) (a v : Nat) :
    (s.peek a).2.getBank =
      (if a &&& 0x0FFF = 0x0FF8 then 0 else if a &&& 0x0FFF = 0x0FF9 then 1 else s.getBank) ∧
    (s.poke a v).2.getBank =
      (if a &&& 0x0FFF = 0x0FF8 then 0 else if a &&& 0x0FFF = 0x0FF9 then 1 else s.getBank) := by
  have hl : s.clockRandomNumberGenerator.bankLocked = false := by simpa [bankLocked] using h
  have hsw : (s.clockRandomNumberGenerator.switchBanks (a &&& 0x0FFF)).getBank =
      (if a &&& 0x0FFF = 0x0FF8 then 0 else if a &&& 0x0FFF = 0x0FF9 then 1 else s.getBank) := by
    unfold getBank
    rw [switchBanks_myBankOffset _ _ hl]
    split_ifs <;> simp
  constructor
  · by_cases ha : (a &&& 0x0FFF) < 0x0040
    · rw [peek_dpc_of_unlocked s a h ha]
      have h8 : ¬ (a &&& 0x0FFF = 0x0FF8) := by omega
      have h9 : ¬ (a &&& 0x0FFF = 0x0FF9) := by omega
      simp [getBank, h8, h9]
    · rw [peek_rom_of_unlocked s a h ha]
      exact hsw
  · rw [poke_eq]
    by_cases hb : 0x0040 ≤ (a &&& 0x0FFF) ∧ (a &&& 0x0FFF) < 0x0080
    · have h8 : ¬ (a &&& 0x0FFF = 0x0FF8) := by omega
      have h9 : ¬ (a &&& 0x0FFF = 0x0FF9) := by omega
      simp [hb, getBank, h8, h9]
    · simp only [hb, if_false]
      exact hsw

/-- Witness of C4 at the power-on example state and the lower hot spot. -/
theorem hotspot_bank_switching_witness :
    exampleCart.bankLocked = false ∧
    ((exampleCart.peek 0x1FF8).2.getBank =
      (if 0x1FF8 &&& 0x0FFF = 0x0FF8 then 0
        else if 0x1FF8 &&& 0x0FFF = 0x0FF9 then 1 else exampleCart.getBank) ∧
     (exampleCart.poke 0x1FF8 0).2.getBank =
      (if 0x1FF8 &&& 0x0FFF = 0x0FF8 then 0
        else if 0x1FF8 &&& 0x0FFF = 0x0FF9 then 1 else exampleCart.getBank)) :=
  ⟨exampleCart_bankLocked, hotspot_bank_switching exampleCart exampleCart_bankLocked 0x1FF8 0⟩

/-! ## Claims C5, C6: the read functions -/

theorem readFunction_fst (s : CartridgeDPC) (i fn : Nat) (hfn : fn < 8) :
    (s.readFunction i fn).1 =
      if fn = 0 then
        (if i < 4 then s.myRandomNumber
         else musicAmplitudes.getD s.updateMusicModeDataFetchers.musicIndex 0)
      else if fn = 1 then s.myDisplayImage (2047 - (s.myCounters.getD i 0 : Nat))
      else if fn = 2 then
        s.myDisplayImage (2047 - (s.myCounters.getD i 0 : Nat)) &&& s.myFlags.getD i 0
      else if fn = 7 then s.myFlags.getD i 0
      else 0 := by
  interval_cases fn <;> simp [readFunction]
  split <;> rfl

theorem myDisplayImage_congr (s t : CartridgeDPC) (h : s.myImage = t.myImage) (i : Int) :
    s.myDisplayImage i = t.myDisplayImage i := by
  unfold myDisplayImage
  rw [h]

theorem and7_lt (n : Nat) : n &&& 0x07 < 8 := by
  have := Nat.and_pow_two_sub_one_eq_mod n 3
  norm_num at this
  omega

theorem myDisplayImage_eq (s : CartridgeDPC) (c : Nat) (hc : c ≤ 8192 + 2047) :
    s.myDisplayImage (2047 - (c : Nat)) = s.myImage.getD (8192 + 2047 - c) 0 := by
  have e : (8192 : Int) + (2047 - (c : Nat)) = Int.ofNat (8192 + 2047 - c) := by
    simp only [Int.ofNat_eq_coe]
    omega
  unfold myDisplayImage
  rw [e]

/-- C5 (read-function table): an unlocked read of an offset below 0x40, with
`i = a & 7` and `fn = (a >> 3) & 7`, returns: for function 0 and `i < 4` the
shift register after this access's clocking (for `i >= 4` the music amplitude);
for function 1 `myDisplayImage[2047 - myCounters[i]]`, which is the byte
`myImage[8192 + 2047 - myCounters[i]]`; for function 2 that byte ANDed with
`myFlags[i]`; for function 7 `myFlags[i]`; for functions 3 to 6 the value 0.
Here `myCounters[i]` is the value before this access's decrement and
`myFlags[i]` the value after this access's comparator update.  For the two
display reads the counter is at most 8192 + 2047, so that the read is inside
`myImage`; with a counter of at most 2047 it is inside the display ROM. -/
theorem peek_read_function_table (s : CartridgeDPC) (a : Nat) (h : s.bankLocked = false)
    (ha : (a &&& 0x0FFF) < 0x0040)
    (hc : (((a &&& 0x0FFF) >>> 3) &&& 0x07 ≠ 1 ∧ ((a &&& 0x0FFF) >>> 3) &&& 0x07 ≠ 2) ∨
      s.myCounters.getD ((a &&& 0x0FFF) &&& 0x07) 0 ≤ 8192 + 2047) :
    (s.peek a).1 =
      (if ((a &&& 0x0FFF) >>> 3) &&& 0x07 = 0 then
        (if (a &&& 0x0FFF) &&& 0x07 < 4 then s.clockRandomNumberGenerator.myRandomNumber
         else [0x00, 0x04, 0x05, 0x09, 0x06, 0x0a, 0x0b, 0x0f].getD
          (s.clockRandomNumberGenerator.updateFlag
            ((a &&& 0x0FFF) &&& 0x07)).updateMusicModeDataFetchers.musicIndex 0)
      else if ((a &&& 0x0FFF) >>> 3) &&& 0x07 = 1 then
        s.myImage.getD (8192 + 2047 - s.myCounters.getD ((a &&& 0x0FFF) &&& 0x07) 0) 0
      else if ((a &&& 0x0FFF) >>> 3) &&& 0x07 = 2 then
        s.myImage.getD (8192 + 2047 - s.myCounters.getD ((a &&& 0x0FFF) &&& 0x07) 0) 0 &&&
          (s.updateFlag ((a &&& 0x0FFF) &&& 0x07)).myFlags.getD ((a &&& 0x0FFF) &&& 0x07) 0
      else if ((a &&& 0x0FFF) >>> 3) &&& 0x07 = 7 then
        (s.updateFlag ((a &&& 0x0FFF) &&& 0x07)).myFlags.getD ((a &&& 0x0FFF) &&& 0x07) 0
      else 0) ∧
    s.clockRandomNumberGenerator.myRandomNumber = nextRandom s.myRandomNumber ∧
    (8192 + 2047 < s.myCounters.getD ((a &&& 0x0FFF) &&& 0x07) 0 ∨
      s.myDisplayImage (2047 - (s.myCounters.getD ((a &&& 0x0FFF) &&& 0x07) 0 : Nat)) =
        s.myImage.getD (8192 + 2047 - s.myCounters.getD ((a &&& 0x0FFF) &&& 0x07) 0) 0) ∧
    (2047 < s.myCounters.getD ((a &&& 0x0FFF) &&& 0x07) 0 ∨
      (8192 ≤ 8192 + 2047 - s.myCounters.getD ((a &&& 0x0FFF) &&& 0x07) 0 ∧
       8192 + 2047 - s.myCounters.getD ((a &&& 0x0FFF) &&& 0x07) 0 < 8192 + 2048)) := by
  have base : (s.peek a).1 =
      if ((a &&& 0x0FFF) >>> 3) &&& 0x07 = 0 then
        (if (a &&& 0x0FFF) &&& 0x07 < 4 then s.clockRandomNumberGenerator.myRandomNumber
         else musicAmplitudes.getD
          (s.clockRandomNumberGenerator.updateFlag
            ((a &&& 0x0FFF) &&& 0x07)).updateMusicModeDataFetchers.musicIndex 0)
      else if ((a &&& 0x0FFF) >>> 3) &&& 0x07 = 1 then
        s.myDisplayImage (2047 - (s.myCounters.getD ((a &&& 0x0FFF) &&& 0x07) 0 : Nat))
      else if ((a &&& 0x0FFF) >>> 3) &&& 0x07 = 2 then
        s.myDisplayImage (2047 - (s.myCounters.getD ((a &&& 0x0FFF) &&& 0x07) 0 : Nat)) &&&
          (s.updateFlag ((a &&& 0x0FFF) &&& 0x07)).myFlags.getD ((a &&& 0x0FFF) &&& 0x07) 0
      else if ((a &&& 0x0FFF) >>> 3) &&& 0x07 = 7 then
        (s.updateFlag ((a &&& 0x0FFF) &&& 0x07)).myFlags.getD ((a &&& 0x0FFF) &&& 0x07) 0
      else 0 := by
    rw [peek_dpc_of_unlocked s a h ha]
    simp only []
    rw [readFunction_fst _ _ _ (and7_lt _)]
    have hflags : ∀ i, (s.clockRandomNumberGenerator.updateFlag i).myFlags =
        (s.updateFlag i).myFlags := by
      intro i
      unfold updateFlag
      simp only [clockRandomNumberGenerator_myCounters, clockRandomNumberGenerator_myTops,
        clockRandomNumberGenerator_myBottoms, clockRandomNumberGenerator_myFlags]
      split_ifs <;> simp
    have hdisp : ∀ i (k : Int), (s.clockRandomNumberGenerator.updateFlag i).myDisplayImage k =
        s.myDisplayImage k := fun i k => myDisplayImage_congr _ _ (by simp) k
    simp only [hflags, hdisp, updateFlag_myRandomNumber, updateFlag_myCounters,
      clockRandomNumberGenerator_myCounters]
  unfold musicAmplitudes at base
  refine ⟨?_, rfl, ?_, by omega⟩
  · rw [base]
    rcases hc with ⟨h1, h2⟩ | hc
    · by_cases h0 : ((a &&& 0x0FFF) >>> 3) &&& 0x07 = 0
      · rw [if_pos h0, if_pos h0]
      · rw [if_neg h0, if_neg h1, if_neg h2, if_neg h0, if_neg h1, if_neg h2]
    · rw [myDisplayImage_eq s _ hc]
  · by_cases hle : s.myCounters.getD ((a &&& 0x0FFF) &&& 0x07) 0 ≤ 8192 + 2047
    · exact Or.inr (myDisplayImage_eq s _ hle)
    · exact Or.inl (by omega)

theorem unmaskedCart_myImage_getD (i : Nat) :
    unmaskedCart.myImage.getD i 0 = if i < 4096 then 0 else if i < 4096 + 6400 then 1 else 0 := by
  have e : unmaskedCart.myImage = exampleImage := exampleCart_myImage
  rw [e]
  exact exampleImage_getD i

/-- Witness of C5: a function-1 read of fetcher 0 with the counter at 4095, a
value `load` can store.  The index `2047 - 4095` is negative and the read
returns `myImage[6144]`, a byte of the program ROM, here 1. -/
theorem peek_read_function_table_witness :
    unmaskedCart.bankLocked = false ∧ (0x1008 &&& 0x0FFF) < 0x0040 ∧
    unmaskedCart.myCounters.getD ((0x1008 &&& 0x0FFF) &&& 0x07) 0 = 4095 ∧
    (unmaskedCart.peek 0x1008).1 = unmaskedCart.myImage.getD 6144 0 ∧
    (unmaskedCart.peek 0x1008).1 = 1 := by
  have hl : unmaskedCart.bankLocked = false := exampleCart_bankLocked
  have hcnt : unmaskedCart.myCounters.getD ((0x1008 &&& 0x0FFF) &&& 0x07) 0 = 4095 := by decide
  have hv := (peek_read_function_table unmaskedCart 0x1008 hl (by decide)
    (Or.inr (by rw [hcnt]; decide))).1
  rw [if_neg (by decide), if_pos (by decide), hcnt] at hv
  have hidx : (8192 + 2047 - 4095 : Nat) = 6144 := by decide
  rw [hidx] at hv
  refine ⟨hl, by decide, hcnt, hv, ?_⟩
  rw [hv, unmaskedCart_myImage_getD]
  decide

theorem musicIndex_bits (s : CartridgeDPC) :
    s.musicIndex < 8 ∧
    s.musicIndex.testBit 0 = (s.myMusicMode.getD 0 false && decide (s.myFlags.getD 5 0 ≠ 0)) ∧
    s.musicIndex.testBit 1 = (s.myMusicMode.getD 1 false && decide (s.myFlags.getD 6 0 ≠ 0)) ∧
    s.musicIndex.testBit 2 = (s.myMusicMode.getD 2 false && decide (s.myFlags.getD 7 0 ≠ 0)) := by
  unfold musicIndex
  cases h0 : (s.myMusicMode.getD 0 false && decide (s.myFlags.getD 5 0 ≠ 0)) <;>
  cases h1 : (s.myMusicMode.getD 1 false && decide (s.myFlags.getD 6 0 ≠ 0)) <;>
  cases h2 : (s.myMusicMode.getD 2 false && decide (s.myFlags.getD 7 0 ≠ 0)) <;>
  simp only [Bool.false_eq_true, if_false, if_true] <;> decide

theorem musicAmplitudes_getD_mem (k : Nat) (hk : k < 8) :
    musicAmplitudes.getD k 0 ∈ [0, 4, 5, 9, 6, 10, 11, 15] ∧ musicAmplitudes.getD k 0 ≤ 15 := by
  interval_cases k <;> decide

theorem musicIndex_sum (s : CartridgeDPC) :
    s.musicIndex =
      (if s.myMusicMode.getD 0 false = true ∧ s.myFlags.getD 5 0 ≠ 0 then 1 else 0) +
      (if s.myMusicMode.getD 1 false = true ∧ s.myFlags.getD 6 0 ≠ 0 then 2 else 0) +
      (if s.myMusicMode.getD 2 false = true ∧ s.myFlags.getD 7 0 ≠ 0 then 4 else 0) := by
  have c : ∀ (m : Bool) (f : Nat), ((m && decide (f ≠ 0)) = true) ↔ (m = true ∧ f ≠ 0) := by
    intro m f
    simp
  unfold musicIndex
  simp only [c]
  split_ifs <;> rfl

/-- C6 (music amplitude read): an unlocked function-0 read of a fetcher
`i >= 4` (offsets 0x04 to 0x07) returns entry `k` of the table
`{0x00, 0x04, 0x05, 0x09, 0x06, 0x0a, 0x0b, 0x0f}`, which is the table
`musicAmplitudes` of the source, where bit `j` of `k` is set iff `myMusicMode[j]`
holds and `myFlags[5 + j]` is non-zero in the state left by
`updateMusicModeDataFetchers` for this access; the result is one of the eight
table values and at most 15. -/
theorem peek_music_amplitude (s : CartridgeDPC) (a : Nat) (h : s.bankLocked = false)
    (h4 : 4 ≤ (a &&& 0x0FFF)) (h8 : (a &&& 0x0FFF) < 8) :
    (s.peek a).1 = [0x00, 0x04, 0x05, 0x09, 0x06, 0x0a, 0x0b, 0x0f].getD
      (s.clockRandomNumberGenerator.updateFlag (a &&& 0x0FFF)).updateMusicModeDataFetchers.musicIndex 0 ∧
    musicAmplitudes = [0x00, 0x04, 0x05, 0x09, 0x06, 0x0a, 0x0b, 0x0f] ∧
    (s.clockRandomNumberGenerator.updateFlag (a &&& 0x0FFF)).updateMusicModeDataFetchers.musicIndex =
      (if (s.clockRandomNumberGenerator.updateFlag (a &&& 0x0FFF)).updateMusicModeDataFetchers.myMusicMode.getD 0 false = true ∧
          (s.clockRandomNumberGenerator.updateFlag (a &&& 0x0FFF)).updateMusicModeDataFetchers.myFlags.getD 5 0 ≠ 0 then 1 else 0) +
      (if (s.clockRandomNumberGenerator.updateFlag (a &&& 0x0FFF)).updateMusicModeDataFetchers.myMusicMode.getD 1 false = true ∧
          (s.clockRandomNumberGenerator.updateFlag (a &&& 0x0FFF)).updateMusicModeDataFetchers.myFlags.getD 6 0 ≠ 0 then 2 else 0) +
      (if (s.clockRandomNumberGenerator.updateFlag (a &&& 0x0FFF)).updateMusicModeDataFetchers.myMusicMode.getD 2 false = true ∧
          (s.clockRandomNumberGenerator.updateFlag (a &&& 0x0FFF)).updateMusicModeDataFetchers.myFlags.getD 7 0 ≠ 0 then 4 else 0) ∧
    (s.clockRandomNumberGenerator.updateFlag (a &&& 0x0FFF)).updateMusicModeDataFetchers.musicIndex < 8 ∧
    (s.clockRandomNumberGenerator.updateFlag (a &&& 0x0FFF)).updateMusicModeDataFetchers.musicIndex.testBit 0 =
      ((s.clockRandomNumberGenerator.updateFlag (a &&& 0x0FFF)).updateMusicModeDataFetchers.myMusicMode.getD 0 false &&
        decide ((s.clockRandomNumberGenerator.updateFlag (a &&& 0x0FFF)).updateMusicModeDataFetchers.myFlags.getD 5 0 ≠ 0)) ∧
    (s.clockRandomNumberGenerator.updateFlag (a &&& 0x0FFF)).updateMusicModeDataFetchers.musicIndex.testBit 1 =
      ((s.clockRandomNumberGenerator.updateFlag (a &&& 0x0FFF)).updateMusicModeDataFetchers.myMusicMode.getD 1 false &&
        decide ((s.clockRandomNumberGenerator.updateFlag (a &&& 0x0FFF)).updateMusicModeDataFetchers.myFlags.getD 6 0 ≠ 0)) ∧
    (s.clockRandomNumberGenerator.updateFlag (a &&& 0x0FFF)).updateMusicModeDataFetchers.musicIndex.testBit 2 =
      ((s.clockRandomNumberGenerator.updateFlag (a &&& 0x0FFF)).updateMusicModeDataFetchers.myMusicMode.getD 2 false &&
        decide ((s.clockRandomNumberGenerator.updateFlag (a &&& 0x0FFF)).updateMusicModeDataFetchers.myFlags.getD 7 0 ≠ 0)) ∧
    (s.peek a).1 ∈ [0, 4, 5, 9, 6, 10, 11, 15] ∧ (s.peek a).1 ≤ 15 := by
  have hv : (s.peek a).1 = musicAmplitudes.getD
      (s.clockRandomNumberGenerator.updateFlag (a &&& 0x0FFF)).updateMusicModeDataFetchers.musicIndex 0 := by
    rw [peek_dpc_of_unlocked s a h (by omega)]
    simp only []
    generalize a &&& 0x0FFF = o at h4 h8
    have e4 : (4 &&& 7 : Nat) = 4 := by decide
    have e5 : (5 &&& 7 : Nat) = 5 := by decide
    have e6 : (6 &&& 7 : Nat) = 6 := by decide
    have e7 : (7 &&& 7 : Nat) = 7 := by decide
    interval_cases o <;> simp [readFunction, e4, e5, e6, e7]
  obtain ⟨hlt, hb0, hb1, hb2⟩ := musicIndex_bits
    (s.clockRandomNumberGenerator.updateFlag (a &&& 0x0FFF)).updateMusicModeDataFetchers
  refine ⟨hv, rfl, musicIndex_sum _, hlt, hb0, hb1, hb2, ?_, ?_⟩
  · rw [hv]; exact (musicAmplitudes_getD_mem _ hlt).1
  · rw [hv]; exact (musicAmplitudes_getD_mem _ hlt).2

/-! ## Claims C7, C8, C9: the write functions -/

theorem getD_set_self {α : Type} (l : List α) (i : Nat) (v d : α) (h : i < l.length) :
    (l.set i v).getD i d = v := by
  simp [List.getD_eq_getElem?_getD, List.getElem?_set, h]

theorem getD_set_other {α : Type} (l : List α) (i j : Nat) (v d : α) (h : i ≠ j) :
    (l.set i v).getD j d = l.getD j d := by
  simp [List.getD_eq_getElem?_getD, List.getElem?_set, h]

theorem exampleCart_sized : exampleCart.Sized := by
  simp [exampleCart, reset, install, initializeStartBank, new, Sized]

theorem write_decode (i k : Nat) (hi : i < 8) (hk : k < 8) :
    (0x40 + 8 * k + i) &&& 0x07 = i ∧ ((0x40 + 8 * k + i) >>> 3) &&& 0x07 = k := by
  interval_cases i <;> interval_cases k <;> decide

theorem poke_write (s : CartridgeDPC) (a v i k : Nat) (hi : i < 8) (hk : k < 8)
    (ha : a &&& 0x0FFF = 0x40 + 8 * k + i) :
    (s.poke a v).2 = s.clockRandomNumberGenerator.writeFunction i k v := by
  rw [poke_eq, ha]
  have hr : 0x0040 ≤ 0x40 + 8 * k + i ∧ 0x40 + 8 * k + i < 0x0080 := by omega
  simp only [hr, and_self, if_true]
  rw [(write_decode i k hi hk).1, (write_decode i k hi hk).2]

/-- C7 (write functions 0 and 1): a poke at offset `0x40 + i` sets `myTops[i]`
to `v` and `myFlags[i]` to 0, a poke at offset `0x48 + i` sets `myBottoms[i]` to
`v`; in both cases every other entry of the tops, bottoms, counters, flags and
music modes, and the bank offset, are unchanged (locked or not). -/
theorem poke_top_bottom (s : CartridgeDPC) (i v a b : Nat) (hs : s.Sized) (hi : i < 8)
    (ha : a &&& 0x0FFF = 0x40 + i) (hb : b &&& 0x0FFF = 0x48 + i) :
    ((s.poke a v).2.myTops = s.myTops.set i v ∧ (s.poke a v).2.myTops.getD i 0 = v ∧
     (s.poke a v).2.myFlags = s.myFlags.set i 0 ∧ (s.poke a v).2.myFlags.getD i 0 = 0 ∧
     (s.poke a v).2.myBottoms = s.myBottoms ∧ (s.poke a v).2.myCounters = s.myCounters ∧
     (s.poke a v).2.myMusicMode = s.myMusicMode ∧ (s.poke a v).2.myBankOffset = s.myBankOffset) ∧
    ((s.poke b v).2.myBottoms = s.myBottoms.set i v ∧ (s.poke b v).2.myBottoms.getD i 0 = v ∧
     (s.poke b v).2.myTops = s.myTops ∧ (s.poke b v).2.myFlags = s.myFlags ∧
     (s.poke b v).2.myCounters = s.myCounters ∧
     (s.poke b v).2.myMusicMode = s.myMusicMode ∧ (s.poke b v).2.myBankOffset = s.myBankOffset) := by
  obtain ⟨ht, hbt, -, hf, -⟩ := hs
  rw [poke_write s a v i 0 hi (by norm_num) (by omega),
    poke_write s b v i 1 hi (by norm_num) (by omega)]
  refine ⟨⟨rfl, ?_, rfl, ?_, rfl, rfl, rfl, rfl⟩, ⟨rfl, ?_, rfl, rfl, rfl, rfl, rfl⟩⟩
  · exact getD_set_self _ _ _ _ (by simpa [ht] using hi)
  · exact getD_set_self _ _ _ _ (by simpa [hf] using hi)
  · exact getD_set_self _ _ _ _ (by simpa [hbt] using hi)

/-- Witness of C7: fetcher 3 and the value 0x21 at power-on. -/
theorem poke_top_bottom_witness :
    exampleCart.Sized ∧ 3 < 8 ∧ 0x1043 &&& 0x0FFF = 0x40 + 3 ∧ 0x104B &&& 0x0FFF = 0x48 + 3 ∧
    (exampleCart.poke 0x1043 0x21).2.myTops.getD 3 0 = 0x21 ∧
    (exampleCart.poke 0x104B 0x21).2.myBottoms.getD 3 0 = 0x21 :=
  ⟨exampleCart_sized, by decide, by decide, by decide,
    (poke_top_bottom exampleCart 3 0x21 0x1043 0x104B exampleCart_sized (by decide)
      (by decide) (by decide)).1.2.1,
    (poke_top_bottom exampleCart 3 0x21 0x1043 0x104B exampleCart_sized (by decide)
      (by decide) (by decide)).2.2.1⟩

/-- C9 (LFSR reset via write): whatever `myRandomNumber` was, and although
`poke` clocks the shift register first, after a poke at offset `0x70 + i`
`myRandomNumber` is 1 and no entry of the tops, bottoms, counters, flags or
music modes has changed. -/
theorem poke_resets_random_number (s : CartridgeDPC) (i v a : Nat) (hi : i < 8)
    (ha : a &&& 0x0FFF = 0x70 + i) :
    (s.poke a v).2.myRandomNumber = 1 ∧
    (s.poke a v).2.myTops = s.myTops ∧ (s.poke a v).2.myBottoms = s.myBottoms ∧
    (s.poke a v).2.myCounters = s.myCounters ∧ (s.poke a v).2.myFlags = s.myFlags ∧
    (s.poke a v).2.myMusicMode = s.myMusicMode := by
  rw [poke_write s a v i 6 hi (by norm_num) (by omega)]
  exact ⟨rfl, rfl, rfl, rfl, rfl, rfl⟩

/-- Witness of C9: the poke of the literal scenario, `poke(0x1070, 0)`. -/
theorem poke_resets_random_number_witness :
    0 < 8 ∧ 0x1070 &&& 0x0FFF = 0x70 + 0 ∧
    ((exampleCart.poke 0x1070 0).2.myRandomNumber = 1 ∧
     (exampleCart.poke 0x1070 0).2.myTops = exampleCart.myTops ∧
     (exampleCart.poke 0x1070 0).2.myBottoms = exampleCart.myBottoms ∧
     (exampleCart.poke 0x1070 0).2.myCounters = exampleCart.myCounters ∧
     (exampleCart.poke 0x1070 0).2.myFlags = exampleCart.myFlags ∧
     (exampleCart.poke 0x1070 0).2.myMusicMode = exampleCart.myMusicMode) :=
  ⟨by decide, by decide, poke_resets_random_number exampleCart 0 0 0x1070 (by decide) (by decide)⟩

/-! ## Bit masks -/

theorem lt_256_testBit (x j : Nat) (hx : x < 256) (hj : 8 ≤ j) : x.testBit j = false := by
  apply Nat.testBit_lt_two_pow
  calc x < 2 ^ 8 := hx
    _ ≤ 2 ^ j := Nat.pow_le_pow_right (by norm_num) hj

theorem testBit_0xff (j : Nat) : (0x00ff : Nat).testBit j = decide (j < 8) :=
  Nat.testBit_two_pow_sub_one 8 j

theorem testBit_0x0700 (j : Nat) : (0x0700 : Nat).testBit j = (decide (8 ≤ j) && decide (j < 11)) := by
  have h : (0x0700 : Nat) = (2 ^ 3 - 1) <<< 8 := by decide
  rw [h, Nat.testBit_shiftLeft, Nat.testBit_two_pow_sub_one]
  by_cases h8 : 8 ≤ j <;> simp [h8]
  omega

theorem or_low_and_0xff (c x : Nat) (hx : x < 256) : ((c &&& 0x0700) ||| x) &&& 0x00ff = x := by
  apply Nat.eq_of_testBit_eq
  intro j
  rw [Nat.testBit_and, Nat.testBit_or, Nat.testBit_and, testBit_0xff, testBit_0x0700]
  by_cases h8 : j < 8
  · have : ¬ 8 ≤ j := by omega
    simp [h8, this]
  · simp [h8, lt_256_testBit x j hx (by omega)]

theorem or_low_and_0x0700 (c x : Nat) (hx : x < 256) :
    ((c &&& 0x0700) ||| x) &&& 0x0700 = c &&& 0x0700 := by
  apply Nat.eq_of_testBit_eq
  intro j
  rw [Nat.testBit_and, Nat.testBit_or, Nat.testBit_and, testBit_0x0700]
  by_cases h8 : 8 ≤ j
  · simp [h8, lt_256_testBit x j hx h8]
  · simp [h8]

theorem high_eq (v : Nat) : ((v &&& 0x07) <<< 8) % 65536 = (v &&& 0x07) <<< 8 := by
  have := Nat.and_pow_two_sub_one_eq_mod v 3
  norm_num at this
  rw [this, Nat.shiftLeft_eq]
  omega

theorem testBit_high (v j : Nat) :
    ((v &&& 0x07) <<< 8).testBit j = (decide (8 ≤ j) && (decide (j < 11) && v.testBit (j - 8))) := by
  have h7 : (0x07 : Nat) = 2 ^ 3 - 1 := by decide
  rw [Nat.testBit_shiftLeft, Nat.testBit_and, h7, Nat.testBit_two_pow_sub_one]
  by_cases h8 : 8 ≤ j <;> by_cases h11 : j < 11 <;> simp [h8, h11]
  · omega
  · omega

theorem high_or_and_0x0700 (v c : Nat) :
    (((v &&& 0x07) <<< 8) ||| (c &&& 0x00ff)) &&& 0x0700 = (v &&& 0x07) <<< 8 := by
  apply Nat.eq_of_testBit_eq
  intro j
  rw [Nat.testBit_and, Nat.testBit_or, Nat.testBit_and, testBit_0x0700, testBit_0xff, testBit_high]
  by_cases h8 : 8 ≤ j <;> by_cases h11 : j < 11 <;> simp [h8, h11]

theorem high_or_and_0xff (v c : Nat) :
    (((v &&& 0x07) <<< 8) ||| (c &&& 0x00ff)) &&& 0x00ff = c &&& 0x00ff := by
  apply Nat.eq_of_testBit_eq
  intro j
  rw [Nat.testBit_and, Nat.testBit_or, Nat.testBit_and, testBit_0xff, testBit_high]
  by_cases h8 : 8 ≤ j
  · have h7 : ¬ j < 8 := by omega
    simp [h8, h7]
  · simp [h8]

/-- C8 (counter load): a poke at offset `0x50 + i` replaces the low 8 bits of
`myCounters[i]` with `v`, or with `myTops[i]` when `i >= 5` and
`myMusicMode[i - 5]` is set, keeping bits 8 to 10; a poke at offset `0x58 + i`
replaces bits 8 to 10 with the low 3 bits of `v`, keeping the low 8 bits, and
for `i >= 5` sets `myMusicMode[i - 5]` to `(v & 0x10) != 0`, while for `i < 5`
no music mode changes. -/
theorem poke_counter_load (s : CartridgeDPC) (i v a b : Nat) (hs : s.Sized) (hi : i < 8)
    (hv : v < 256) (ht : s.myTops.getD i 0 < 256)
    (ha : a &&& 0x0FFF = 0x50 + i) (hb : b &&& 0x0FFF = 0x58 + i) :
    ((s.poke a v).2.myCounters = s.myCounters.set i ((s.myCounters.getD i 0 &&& 0x0700) |||
        (if 5 ≤ i ∧ s.myMusicMode.getD (i - 5) false = true then s.myTops.getD i 0 else v)) ∧
     (s.poke a v).2.myCounters.getD i 0 &&& 0x00ff =
        (if 5 ≤ i ∧ s.myMusicMode.getD (i - 5) false = true then s.myTops.getD i 0 else v) ∧
     (s.poke a v).2.myCounters.getD i 0 &&& 0x0700 = s.myCounters.getD i 0 &&& 0x0700 ∧
     (s.poke a v).2.myMusicMode = s.myMusicMode) ∧
    ((s.poke b v).2.myCounters = s.myCounters.set i
        (((v &&& 0x07) <<< 8) ||| (s.myCounters.getD i 0 &&& 0x00ff)) ∧
     (s.poke b v).2.myCounters.getD i 0 &&& 0x0700 = (v &&& 0x07) <<< 8 ∧
     (s.poke b v).2.myCounters.getD i 0 &&& 0x00ff = s.myCounters.getD i 0 &&& 0x00ff ∧
     (s.poke b v).2.myMusicMode =
        (if 5 ≤ i then s.myMusicMode.set (i - 5) (decide (v &&& 0x10 ≠ 0)) else s.myMusicMode) ∧
     (if 5 ≤ i then (s.poke b v).2.myMusicMode.getD (i - 5) false = decide (v &&& 0x10 ≠ 0)
      else (s.poke b v).2.myMusicMode = s.myMusicMode)) := by
  obtain ⟨-, -, hc, -, hm⟩ := hs
  have hic : i < s.myCounters.length := by omega
  have hx : (if 5 ≤ i ∧ s.myMusicMode.getD (i - 5) false = true then s.myTops.getD i 0 else v)
      < 256 := by
    split_ifs
    · exact ht
    · exact hv
  have e2 : (s.poke a v).2.myCounters = s.myCounters.set i ((s.myCounters.getD i 0 &&& 0x0700) |||
        (if 5 ≤ i ∧ s.myMusicMode.getD (i - 5) false = true then s.myTops.getD i 0 else v)) := by
    rw [poke_write s a v i 2 hi (by norm_num) (by omega)]
    simp only [writeFunction, clockRandomNumberGenerator_myMusicMode,
      clockRandomNumberGenerator_myCounters, clockRandomNumberGenerator_myTops]
    split_ifs <;> rfl
  have m2 : (s.poke a v).2.myMusicMode = s.myMusicMode := by
    rw [poke_write s a v i 2 hi (by norm_num) (by omega)]
    simp only [writeFunction]
    split_ifs <;> rfl
  have e3 : (s.poke b v).2.myCounters = s.myCounters.set i
        (((v &&& 0x07) <<< 8) ||| (s.myCounters.getD i 0 &&& 0x00ff)) := by
    rw [poke_write s b v i 3 hi (by norm_num) (by omega)]
    simp only [writeFunction, clockRandomNumberGenerator_myCounters, high_eq]
    split_ifs <;> rfl
  have m3 : (s.poke b v).2.myMusicMode =
        (if 5 ≤ i then s.myMusicMode.set (i - 5) (decide (v &&& 0x10 ≠ 0)) else s.myMusicMode) := by
    rw [poke_write s b v i 3 hi (by norm_num) (by omega)]
    simp only [writeFunction, clockRandomNumberGenerator_myMusicMode]
    split_ifs <;> rfl
  refine ⟨⟨e2, ?_, ?_, m2⟩, ⟨e3, ?_, ?_, m3, ?_⟩⟩
  · rw [e2, getD_set_self _ _ _ _ hic]
    exact or_low_and_0xff _ _ hx
  · rw [e2, getD_set_self _ _ _ _ hic]
    exact or_low_and_0x0700 _ _ hx
  · rw [e3, getD_set_self _ _ _ _ hic]
    exact high_or_and_0x0700 _ _
  · rw [e3, getD_set_self _ _ _ _ hic]
    exact high_or_and_0xff _ _
  · rw [m3]
    split_ifs with h5
    · exact getD_set_self _ _ _ _ (by omega)
    · rfl

/-- Witness of C8: fetcher 5 and the value 0x13 at power-on. -/
theorem poke_counter_load_witness :
    exampleCart.Sized ∧ 5 < 8 ∧ 0x13 < 256 ∧ exampleCart.myTops.getD 5 0 < 256 ∧
    0x1055 &&& 0x0FFF = 0x50 + 5 ∧ 0x105D &&& 0x0FFF = 0x58 + 5 ∧
    (exampleCart.poke 0x1055 0x13).2.myMusicMode = exampleCart.myMusicMode ∧
    (exampleCart.poke 0x105D 0x13).2.myCounters.getD 5 0 &&& 0x0700 = (0x13 &&& 0x07) <<< 8 :=
  ⟨exampleCart_sized, by decide, by decide,
    by simp [exampleCart, reset, install, initializeStartBank, new],
    by decide, by decide,
    (poke_counter_load exampleCart 5 0x13 0x1055 0x105D exampleCart_sized (by decide) (by decide)
      (by simp [exampleCart, reset, install, initializeStartBank, new])
      (by decide) (by decide)).1.2.2.2,
    (poke_counter_load exampleCart 5 0x13 0x1055 0x105D exampleCart_sized (by decide) (by decide)
      (by simp [exampleCart, reset, install, initializeStartBank, new])
      (by decide) (by decide)).2.2.1⟩

/-! ## Claim C10: the counter decrement -/

theorem updateMusicModeDataFetcher_myCounters_length (w : Nat) (s : CartridgeDPC) (x : Nat) :
    (updateMusicModeDataFetcher w s x).myCounters.length = s.myCounters.length := by
  unfold updateMusicModeDataFetcher
  split <;> simp

theorem updateMusicModeDataFetchers_myCounters_length (s : CartridgeDPC) :
    s.updateMusicModeDataFetchers.myCounters.length = s.myCounters.length := by
  unfold updateMusicModeDataFetchers
  simp only []
  split <;> simp [List.foldl, updateMusicModeDataFetcher_myCounters_length]

theorem updateMusicModeDataFetcher_myCounters_getD (w : Nat) (s : CartridgeDPC) (x j : Nat)
    (h : j ≠ x ∨ s.myMusicMode.getD (x - 5) false = false) :
    (updateMusicModeDataFetcher w s x).myCounters.getD j 0 = s.myCounters.getD j 0 := by
  unfold updateMusicModeDataFetcher
  split
  · rename_i hm
    rcases h with h | h
    · exact getD_set_other _ _ _ _ _ (Ne.symm h)
    · rw [h] at hm; exact absurd hm (by decide)
  · rfl

theorem updateMusicModeDataFetchers_myCounters_getD (s : CartridgeDPC) (j : Nat)
    (h : j < 5 ∨ s.myMusicMode.getD (j - 5) false = false) :
    s.updateMusicModeDataFetchers.myCounters.getD j 0 = s.myCounters.getD j 0 := by
  have step : ∀ (w : Nat) (t : CartridgeDPC) (x : Nat), 5 ≤ x → t.myMusicMode = s.myMusicMode →
      (updateMusicModeDataFetcher w t x).myCounters.getD j 0 = t.myCounters.getD j 0 := by
    intro w t x hx ht
    apply updateMusicModeDataFetcher_myCounters_getD
    by_cases hjx : j = x
    · right
      rcases h with h | h
      · omega
      · rw [ht, ← hjx]; exact h
    · left; exact hjx
  unfold updateMusicModeDataFetchers
  simp only []
  split
  · rfl
  · simp only [List.foldl]
    rw [step _ _ 7 (by norm_num) (by simp), step _ _ 6 (by norm_num) (by simp),
      step _ _ 5 (by norm_num) (by simp)]

theorem readFunction_snd_myCounters (s : CartridgeDPC) (i fn : Nat) (hfn : fn < 8) :
    (s.readFunction i fn).2.myCounters =
      if fn = 0 ∧ 4 ≤ i then s.updateMusicModeDataFetchers.myCounters else s.myCounters := by
  interval_cases fn <;> simp [readFunction]
  split
  · rename_i h4
    simp [Nat.not_le.mpr h4]
  · rename_i h4
    simp [Nat.not_lt.mp h4]

theorem clockCounter_myCounters (s : CartridgeDPC) (i : Nat) :
    (s.clockCounter i).myCounters =
      if i < 5 ∨ s.myMusicMode.getD (i - 5) false = false then
        s.myCounters.set i ((s.myCounters.getD i 0 + 2047) % 2048)
      else s.myCounters := by
  unfold clockCounter
  have e : ((((s.myCounters.getD i 0 : Nat) : Int) - 1) % 2048).toNat =
      (s.myCounters.getD i 0 + 2047) % 2048 := by omega
  rw [e]
  have c : (i < 5 ∨ ¬ (s.myMusicMode.getD (i - 5) false = true)) ↔
      (i < 5 ∨ s.myMusicMode.getD (i - 5) false = false) := by simp
  simp only [c]
  split <;> rfl

/-- C10 (counter decrement): after an unlocked read of an offset below 0x40,
with `i = a & 7`, `myCounters[i]` is the old value minus 1 modulo 2048 (0 wraps
to 2047), unless `i >= 5` and `myMusicMode[i - 5]` is set, in which case the
read does not decrement it; no other counter is decremented: apart from entry
`i` the counters are the old ones, or, for a music read (function 0, `i >= 4`),
the ones left by `updateMusicModeDataFetchers`. -/
theorem peek_counter_decrement (s : CartridgeDPC) (a i fn : Nat) (h : s.bankLocked = false)
    (hs : s.Sized) (ha : (a &&& 0x0FFF) < 0x0040)
    (hidx : (a &&& 0x0FFF) &&& 0x07 = i) (hfn : ((a &&& 0x0FFF) >>> 3) &&& 0x07 = fn) :
    (s.peek a).2.myCounters =
      (if i < 5 ∨ s.myMusicMode.getD (i - 5) false = false then
        (if fn = 0 ∧ 4 ≤ i then
            (s.clockRandomNumberGenerator.updateFlag i).updateMusicModeDataFetchers.myCounters
          else s.myCounters).set i ((s.myCounters.getD i 0 + 2047) % 2048)
       else
        (if fn = 0 ∧ 4 ≤ i then
            (s.clockRandomNumberGenerator.updateFlag i).updateMusicModeDataFetchers.myCounters
          else s.myCounters)) ∧
    (s.peek a).2.myCounters.getD i 0 =
      (if i < 5 ∨ s.myMusicMode.getD (i - 5) false = false then
        (s.myCounters.getD i 0 + 2047) % 2048
       else
        (if fn = 0 ∧ 4 ≤ i then
            (s.clockRandomNumberGenerator.updateFlag i).updateMusicModeDataFetchers.myCounters
          else s.myCounters).getD i 0) := by
  have hfn8 : fn < 8 := by rw [← hfn]; exact and7_lt _
  have hi8 : i < 8 := by rw [← hidx]; exact and7_lt _
  obtain ⟨-, -, hc, -, -⟩ := hs
  have hmid : ((s.clockRandomNumberGenerator.updateFlag i).readFunction i fn).2.myCounters =
      (if fn = 0 ∧ 4 ≤ i then
        (s.clockRandomNumberGenerator.updateFlag i).updateMusicModeDataFetchers.myCounters
       else s.myCounters) := by
    rw [readFunction_snd_myCounters _ _ _ hfn8]
    simp
  have hlen : (if fn = 0 ∧ 4 ≤ i then
        (s.clockRandomNumberGenerator.updateFlag i).updateMusicModeDataFetchers.myCounters
       else s.myCounters).length = 8 := by
    split
    · rw [updateMusicModeDataFetchers_myCounters_length]; simpa using hc
    · exact hc
  have hsame : (i < 5 ∨ s.myMusicMode.getD (i - 5) false = false) →
      (if fn = 0 ∧ 4 ≤ i then
        (s.clockRandomNumberGenerator.updateFlag i).updateMusicModeDataFetchers.myCounters
       else s.myCounters).getD i 0 = s.myCounters.getD i 0 := by
    intro hd
    split
    · rw [updateMusicModeDataFetchers_myCounters_getD _ i (by simpa using hd)]
      simp
    · rfl
  have e1 : (s.peek a).2.myCounters =
      (if i < 5 ∨ s.myMusicMode.getD (i - 5) false = false then
        (if fn = 0 ∧ 4 ≤ i then
            (s.clockRandomNumberGenerator.updateFlag i).updateMusicModeDataFetchers.myCounters
          else s.myCounters).set i ((s.myCounters.getD i 0 + 2047) % 2048)
       else
        (if fn = 0 ∧ 4 ≤ i then
            (s.clockRandomNumberGenerator.updateFlag i).updateMusicModeDataFetchers.myCounters
          else s.myCounters)) := by
    rw [peek_dpc_of_unlocked s a h ha]
    simp only [hidx, hfn]
    rw [clockCounter_myCounters, hmid]
    simp only [readFunction_myMusicMode, updateFlag_myMusicMode,
      clockRandomNumberGenerator_myMusicMode]
    split
    · rename_i hd
      rw [hsame hd]
    · rfl
  refine ⟨e1, ?_⟩
  rw [e1]
  split
  · exact getD_set_self _ _ _ _ (by rw [hlen]; exact hi8)
  · rfl

/-- Witness of C10: a function-7 read of fetcher 0 at power-on. -/
theorem peek_counter_decrement_witness :
    exampleCart.bankLocked = false ∧ exampleCart.Sized ∧ (0x1038 &&& 0x0FFF) < 0x0040 ∧
    (0x1038 &&& 0x0FFF) &&& 0x07 = 0 ∧ ((0x1038 &&& 0x0FFF) >>> 3) &&& 0x07 = 7 ∧
    (exampleCart.peek 0x1038).2.myCounters.getD 0 0 =
      (if 0 < 5 ∨ exampleCart.myMusicMode.getD (0 - 5) false = false then
        (exampleCart.myCounters.getD 0 0 + 2047) % 2048
       else
        (if 7 = 0 ∧ 4 ≤ 0 then
            (exampleCart.clockRandomNumberGenerator.updateFlag 0).updateMusicModeDataFetchers.myCounters
          else exampleCart.myCounters).getD 0 0) :=
  ⟨exampleCart_bankLocked, exampleCart_sized, by decide, by decide, by decide,
    (peek_counter_decrement exampleCart 0x1038 0 7 exampleCart_bankLocked exampleCart_sized
      (by decide) (by decide) (by decide)).2⟩

/-! ## Invariants of reachable states -/

theorem updateFlag_myFlags_length (s : CartridgeDPC) (i : Nat) :
    (s.updateFlag i).myFlags.length = s.myFlags.length := by
  unfold updateFlag; split_ifs <;> simp

theorem updateMusicModeDataFetcher_myFlags_length (w : Nat) (s : CartridgeDPC) (x : Nat) :
    (updateMusicModeDataFetcher w s x).myFlags.length = s.myFlags.length := by
  unfold updateMusicModeDataFetcher
  split
  · simp only []
    split_ifs <;> simp
  · rfl

theorem updateMusicModeDataFetchers_myFlags_length (s : CartridgeDPC) :
    s.updateMusicModeDataFetchers.myFlags.length = s.myFlags.length := by
  unfold updateMusicModeDataFetchers
  simp only []
  split <;> simp [List.foldl, updateMusicModeDataFetcher_myFlags_length]

theorem readFunction_myFlags_length (s : CartridgeDPC) (i fn : Nat) :
    (s.readFunction i fn).2.myFlags.length = s.myFlags.length := by
  unfold readFunction
  split <;> (try split) <;> simp [updateMusicModeDataFetchers_myFlags_length]

theorem readFunction_myCounters_length (s : CartridgeDPC) (i fn : Nat) :
    (s.readFunction i fn).2.myCounters.length = s.myCounters.length := by
  unfold readFunction
  split <;> (try split) <;> simp [updateMusicModeDataFetchers_myCounters_length]

theorem clockCounter_myCounters_length (s : CartridgeDPC) (i : Nat) :
    (s.clockCounter i).myCounters.length = s.myCounters.length := by
  unfold clockCounter; split <;> simp

theorem writeFunction_lengths (s : CartridgeDPC) (i fn v : Nat) :
    (s.writeFunction i fn v).myTops.length = s.myTops.length ∧
    (s.writeFunction i fn v).myBottoms.length = s.myBottoms.length ∧
    (s.writeFunction i fn v).myCounters.length = s.myCounters.length ∧
    (s.writeFunction i fn v).myFlags.length = s.myFlags.length ∧
    (s.writeFunction i fn v).myMusicMode.length = s.myMusicMode.length := by
  unfold writeFunction
  split <;> (try split) <;> simp

theorem peek_lengths (s : CartridgeDPC) (a : Nat) :
    (s.peek a).2.myTops = s.myTops ∧ (s.peek a).2.myBottoms = s.myBottoms ∧
    (s.peek a).2.myCounters.length = s.myCounters.length ∧
    (s.peek a).2.myFlags.length = s.myFlags.length ∧
    (s.peek a).2.myMusicMode = s.myMusicMode ∧ (s.peek a).2.myImage = s.myImage ∧
    (s.peek a).2.myBankLocked = s.myBankLocked := by
  cases h : s.bankLocked
  · by_cases ha : (a &&& 0x0FFF) < 0x0040
    · rw [peek_dpc_of_unlocked s a h ha]
      simp [clockCounter_myCounters_length, readFunction_myCounters_length,
        readFunction_myFlags_length, updateFlag_myFlags_length]
    · rw [peek_rom_of_unlocked s a h ha]
      simp
  · rw [peek_of_locked s a h]
    simp

theorem poke_lengths (s : CartridgeDPC) (a v : Nat) :
    (s.poke a v).2.myTops.length = s.myTops.length ∧
    (s.poke a v).2.myBottoms.length = s.myBottoms.length ∧
    (s.poke a v).2.myCounters.length = s.myCounters.length ∧
    (s.poke a v).2.myFlags.length = s.myFlags.length ∧
    (s.poke a v).2.myMusicMode.length = s.myMusicMode.length ∧
    (s.poke a v).2.myImage = s.myImage ∧ (s.poke a v).2.myBankLocked = s.myBankLocked := by
  rw [poke_eq]
  simp only []
  split
  · obtain ⟨h1, h2, h3, h4, h5⟩ := writeFunction_lengths s.clockRandomNumberGenerator
      ((a &&& 0x0FFF) &&& 0x07) (((a &&& 0x0FFF) >>> 3) &&& 0x07) v
    simp only [clockRandomNumberGenerator_myTops, clockRandomNumberGenerator_myBottoms,
      clockRandomNumberGenerator_myCounters, clockRandomNumberGenerator_myFlags,
      clockRandomNumberGenerator_myMusicMode] at h1 h2 h3 h4 h5
    exact ⟨h1, h2, h3, h4, h5, by simp, by simp⟩
  · simp

theorem bank_myBankOffset_aligned (s : CartridgeDPC) (n : Nat)
    (h : s.myBankOffset % 4096 = 0 ∧ s.myBankOffset < 65536) :
    (s.bank n).2.myBankOffset % 4096 = 0 ∧ (s.bank n).2.myBankOffset < 65536 := by
  unfold bank
  split
  · exact h
  · simp only [Nat.shiftLeft_eq]
    omega

theorem switchBanks_myBankOffset_aligned (s : CartridgeDPC) (a : Nat)
    (h : s.myBankOffset % 4096 = 0 ∧ s.myBankOffset < 65536) :
    (s.switchBanks a).myBankOffset % 4096 = 0 ∧ (s.switchBanks a).myBankOffset < 65536 := by
  unfold switchBanks
  split_ifs
  · exact bank_myBankOffset_aligned s 0 h
  · exact bank_myBankOffset_aligned s 1 h
  · exact h

theorem peek_myBankOffset_aligned (s : CartridgeDPC) (a : Nat)
    (h : s.myBankOffset % 4096 = 0 ∧ s.myBankOffset < 65536) :
    (s.peek a).2.myBankOffset % 4096 = 0 ∧ (s.peek a).2.myBankOffset < 65536 := by
  cases hl : s.bankLocked
  · by_cases ha : (a &&& 0x0FFF) < 0x0040
    · rw [peek_dpc_of_unlocked s a hl ha]
      simpa using h
    · rw [peek_rom_of_unlocked s a hl ha]
      exact switchBanks_myBankOffset_aligned _ _ (by simpa using h)
  · rw [peek_of_locked s a hl]
    exact h

theorem poke_myBankOffset_aligned (s : CartridgeDPC) (a v : Nat)
    (h : s.myBankOffset % 4096 = 0 ∧ s.myBankOffset < 65536) :
    (s.poke a v).2.myBankOffset % 4096 = 0 ∧ (s.poke a v).2.myBankOffset < 65536 := by
  rw [poke_eq]
  simp only []
  split
  · simpa using h
  · exact switchBanks_myBankOffset_aligned _ _ (by simpa using h)

theorem reset_invariant (s : CartridgeDPC)
    (h : s.Sized ∧ s.myBankOffset % 4096 = 0 ∧ s.myBankOffset < 65536) :
    s.reset.Sized ∧ s.reset.myBankOffset % 4096 = 0 ∧ s.reset.myBankOffset < 65536 := by
  refine ⟨by simpa [reset, initializeStartBank, Sized] using h.1, ?_⟩
  unfold reset
  apply bank_myBankOffset_aligned
  simpa [initializeStartBank] using h.2

theorem install_invariant (s : CartridgeDPC) (system : System)
    (h : s.Sized ∧ s.myBankOffset % 4096 = 0 ∧ s.myBankOffset < 65536) :
    (s.install system).Sized ∧ (s.install system).myBankOffset % 4096 = 0 ∧
      (s.install system).myBankOffset < 65536 := by
  refine ⟨by simpa [install, Sized] using h.1, ?_⟩
  unfold install
  apply bank_myBankOffset_aligned
  simpa using h.2

theorem new_invariant (image : List Nat) (size : Nat) :
    (new image size).Sized ∧ (new image size).myBankOffset % 4096 = 0 ∧
      (new image size).myBankOffset < 65536 := by
  simp [new, Sized]

theorem reachable_invariant (s : CartridgeDPC) (h : Reachable s) :
    s.Sized ∧ s.myBankOffset % 4096 = 0 ∧ s.myBankOffset < 65536 := by
  induction h with
  | powerOn image size system =>
    exact reset_invariant _ (install_invariant _ _ (new_invariant image size))
  | reset s _ ih => exact reset_invariant s ih
  | peek s a _ ih =>
    obtain ⟨h1, h2, h3, h4, h5, -, -⟩ := peek_lengths s a
    refine ⟨?_, peek_myBankOffset_aligned s a ih.2⟩
    unfold Sized
    rw [h1, h2, h3, h4, h5]
    exact ih.1
  | poke s a v _ _ ih =>
    obtain ⟨h1, h2, h3, h4, h5, -, -⟩ := poke_lengths s a v
    refine ⟨?_, poke_myBankOffset_aligned s a v ih.2⟩
    unfold Sized
    rw [h1, h2, h3, h4, h5]
    exact ih.1
  | cycles s n _ ih => exact ih
  | lock s b _ ih => exact ih

/-! ## Save followed by load -/

theorem getByteArray_map (l : List Nat) (rest : Serializer) :
    Serializer.getByteArray l.length (l.map Item.byte ++ rest) = some (l, rest) := by
  induction l with
  | nil => rfl
  | cons a l ih =>
    simp only [List.length_cons, List.map_cons, List.cons_append, Serializer.getByteArray,
      Serializer.getByte, ih]

theorem getShortArray_map (l : List Nat) (rest : Serializer) :
    Serializer.getShortArray l.length (l.map Item.short ++ rest) = some (l, rest) := by
  induction l with
  | nil => rfl
  | cons a l ih =>
    simp only [List.length_cons, List.map_cons, List.cons_append, Serializer.getShortArray,
      Serializer.getShort, ih]

theorem save_eq (s : CartridgeDPC) (hs : s.Sized) (out : Serializer) :
    s.save out = (true,
      out ++ (Item.short s.myBankOffset :: (s.myTops.map Item.byte ++ (s.myBottoms.map Item.byte ++
        (s.myCounters.map Item.short ++ (s.myFlags.map Item.byte ++
          [Item.bool (s.myMusicMode.getD 0 false), Item.bool (s.myMusicMode.getD 1 false),
           Item.bool (s.myMusicMode.getD 2 false), Item.byte s.myRandomNumber,
           Item.long s.myAudioCycles, Item.double s.myFractionalClocks])))))) := by
  obtain ⟨h1, h2, h3, h4, -⟩ := hs
  simp only [save, Serializer.putShort, Serializer.putByteArray, Serializer.putShortArray,
    Serializer.putBool, Serializer.putByte, Serializer.putLong, Serializer.putDouble,
    List.take_of_length_le (le_of_eq h1), List.take_of_length_le (le_of_eq h2),
    List.take_of_length_le (le_of_eq h3), List.take_of_length_le (le_of_eq h4),
    List.append_assoc, List.singleton_append, List.cons_append, List.nil_append]

theorem set_musicMode (m n : List Bool) (hm : m.length = 3) (hn : n.length = 3) :
    ((n.set 0 (m.getD 0 false)).set 1 (m.getD 1 false)).set 2 (m.getD 2 false) = m := by
  obtain ⟨a, b, c, rfl⟩ := List.length_eq_three.mp hm
  obtain ⟨d, e, g, rfl⟩ := List.length_eq_three.mp hn
  rfl

theorem loadFields_save (S T : CartridgeDPC) (hS : S.Sized) (hT : T.Sized) :
    T.loadFields (S.save []).2 = Except.ok
      ({ T with
          myBankOffset := S.myBankOffset
          myTops := S.myTops
          myBottoms := S.myBottoms
          myCounters := S.myCounters
          myFlags := S.myFlags
          myMusicMode := S.myMusicMode
          myRandomNumber := S.myRandomNumber
          myAudioCycles := S.myAudioCycles
          myFractionalClocks := S.myFractionalClocks }, []) := by
  rw [save_eq S hS]
  obtain ⟨s1, s2, s3, s4, s5⟩ := hS
  obtain ⟨t1, t2, t3, t4, t5⟩ := hT
  have g1 := getByteArray_map S.myTops
  have g2 := getByteArray_map S.myBottoms
  have g3 := getShortArray_map S.myCounters
  have g4 := getByteArray_map S.myFlags
  rw [s1] at g1
  rw [s2] at g2
  rw [s3] at g3
  rw [s4] at g4
  simp only [loadFields, getInto, bind, Except.bind, List.nil_append, Serializer.getShort, g1, g2,
    g3, g4, Serializer.getBool, Serializer.getByte, Serializer.getLong, Serializer.getDouble,
    List.drop_of_length_le (le_of_eq t1), List.drop_of_length_le (le_of_eq t2),
    List.drop_of_length_le (le_of_eq t3), List.drop_of_length_le (le_of_eq t4),
    List.append_nil, set_musicMode S.myMusicMode T.myMusicMode s5 t5]

/-! ## Cartridges that agree on their registers behave alike -/

theorem sameCart_refl (s : CartridgeDPC) : SameCart s s :=
  ⟨rfl, rfl, rfl, rfl, rfl, rfl, rfl, rfl, rfl, rfl, rfl, rfl⟩

theorem sameCart_clockRandomNumberGenerator (s t : CartridgeDPC) (h : SameCart s t) :
    SameCart s.clockRandomNumberGenerator t.clockRandomNumberGenerator := by
  obtain ⟨h1, h2, h3, h4, h5, h6, h7, h8, h9, h10, h11, h12⟩ := h
  refine ⟨?_, ?_, ?_, ?_, ?_, ?_, ?_, ?_, ?_, ?_, ?_, ?_⟩ <;>
    simp [clockRandomNumberGenerator, *]

theorem sameCart_updateFlag (s t : CartridgeDPC) (i : Nat) (h : SameCart s t) :
    SameCart (s.updateFlag i) (t.updateFlag i) := by
  obtain ⟨h1, h2, h3, h4, h5, h6, h7, h8, h9, h10, h11, h12⟩ := h
  refine ⟨?_, ?_, ?_, ?_, ?_, ?_, ?_, ?_, ?_, ?_, ?_, ?_⟩ <;> try (simp; assumption)
  simp only [updateFlag, h2, h3, h4, h5]
  split_ifs <;> first | rfl | assumption

theorem sameCart_clockCounter (s t : CartridgeDPC) (i : Nat) (h : SameCart s t) :
    SameCart (s.clockCounter i) (t.clockCounter i) := by
  obtain ⟨h1, h2, h3, h4, h5, h6, h7, h8, h9, h10, h11, h12⟩ := h
  refine ⟨?_, ?_, ?_, ?_, ?_, ?_, ?_, ?_, ?_, ?_, ?_, ?_⟩ <;> try (simp; assumption)
  simp only [clockCounter, h4, h6]
  split_ifs <;> first | rfl | assumption

theorem sameCart_updateMusicModeDataFetcher (w : Nat) (s t : CartridgeDPC) (x : Nat)
    (h : SameCart s t) :
    SameCart (updateMusicModeDataFetcher w s x) (updateMusicModeDataFetcher w t x) := by
  obtain ⟨h1, h2, h3, h4, h5, h6, h7, h8, h9, h10, h11, h12⟩ := h
  refine ⟨?_, ?_, ?_, ?_, ?_, ?_, ?_, ?_, ?_, ?_, ?_, ?_⟩ <;> try (simp; assumption)
  · simp only [updateMusicModeDataFetcher, h2, h3, h4, h5, h6]
    split <;> first | rfl | assumption
  · simp only [updateMusicModeDataFetcher, h2, h3, h4, h5, h6]
    split <;> first | rfl | assumption

theorem sameCart_updateMusicModeDataFetchers (s t : CartridgeDPC) (h : SameCart s t) :
    SameCart s.updateMusicModeDataFetchers t.updateMusicModeDataFetchers := by
  obtain ⟨h1, h2, h3, h4, h5, h6, h7, h8, h9, h10, h11, h12⟩ := h
  simp only [updateMusicModeDataFetchers, System.cycles, h8, h9, h12]
  have hb : ∀ q : ℚ, SameCart
      { s with myAudioCycles := t.mySystem.myCycles, myFractionalClocks := q }
      { t with myAudioCycles := t.mySystem.myCycles, myFractionalClocks := q } :=
    fun q => ⟨h1, h2, h3, h4, h5, h6, h7, rfl, rfl, h10, h11, h12⟩
  split
  · exact hb _
  · simp only [List.foldl]
    exact sameCart_updateMusicModeDataFetcher _ _ _ 7
      (sameCart_updateMusicModeDataFetcher _ _ _ 6
        (sameCart_updateMusicModeDataFetcher _ _ _ 5 (hb _)))

theorem sameCart_musicIndex (s t : CartridgeDPC) (h : SameCart s t) :
    s.musicIndex = t.musicIndex := by
  obtain ⟨h1, h2, h3, h4, h5, h6, h7, h8, h9, h10, h11, h12⟩ := h
  simp only [musicIndex, h5, h6]

theorem sameCart_readFunction (s t : CartridgeDPC) (i fn : Nat) (h : SameCart s t) :
    (s.readFunction i fn).1 = (t.readFunction i fn).1 ∧
    SameCart (s.readFunction i fn).2 (t.readFunction i fn).2 := by
  have hm := sameCart_updateMusicModeDataFetchers s t h
  have hi := sameCart_musicIndex _ _ hm
  have h0 := h
  obtain ⟨h1, h2, h3, h4, h5, h6, h7, h8, h9, h10, h11, h12⟩ := h
  unfold readFunction
  split
  · split
    · exact ⟨h7, h0⟩
    · exact ⟨by simp only [hi], hm⟩
  · exact ⟨by simp only [myDisplayImage_congr s t h1, h4], h0⟩
  · exact ⟨by simp only [myDisplayImage_congr s t h1, h4, h5], h0⟩
  · exact ⟨by simp only [h5], h0⟩
  · exact ⟨rfl, h0⟩

theorem foldl_myCycles (l : List Nat) (g : PageAccess × System → Nat → PageAccess × System)
    (hg : ∀ p a, (g p a).2.myCycles = p.2.myCycles) (p : PageAccess × System) :
    (l.foldl g p).2.myCycles = p.2.myCycles := by
  induction l generalizing p with
  | nil => rfl
  | cons a l ih => rw [List.foldl_cons, ih, hg]

theorem bankPages_myCycles (sys : System) (offset : Nat) :
    (bankPages sys offset).myCycles = sys.myCycles := by
  unfold bankPages
  simp only []
  refine (foldl_myCycles _ _ ?_ _).trans ((foldl_myCycles _ _ ?_ _).trans rfl)
  · intro p a; rfl
  · intro p a; rfl

theorem sameCart_bank (s t : CartridgeDPC) (n : Nat) (h : SameCart s t) :
    SameCart (s.bank n).2 (t.bank n).2 := by
  have h0 := h
  obtain ⟨h1, h2, h3, h4, h5, h6, h7, h8, h9, h10, h11, h12⟩ := h
  unfold bank bankLocked
  rw [h11]
  split
  · exact h0
  · refine ⟨h1, h2, h3, h4, h5, h6, h7, h8, h9, rfl, rfl, ?_⟩
    simp only [bankPages_myCycles, h12]

theorem sameCart_switchBanks (s t : CartridgeDPC) (a : Nat) (h : SameCart s t) :
    SameCart (s.switchBanks a) (t.switchBanks a) := by
  unfold switchBanks
  split_ifs
  · exact sameCart_bank s t 0 h
  · exact sameCart_bank s t 1 h
  · exact h

theorem sameCart_writeFunction (s t : CartridgeDPC) (i fn v : Nat) (h : SameCart s t) :
    SameCart (s.writeFunction i fn v) (t.writeFunction i fn v) := by
  obtain ⟨h1, h2, h3, h4, h5, h6, h7, h8, h9, h10, h11, h12⟩ := h
  unfold writeFunction
  split
  · exact ⟨h1, by simp only [h2], h3, h4, by simp only [h5], h6, h7, h8, h9, h10, h11, h12⟩
  · exact ⟨h1, h2, by simp only [h3], h4, h5, h6, h7, h8, h9, h10, h11, h12⟩
  · rw [h6]
    split
    · exact ⟨h1, h2, h3, by simp only [h2, h4], h5, rfl, h7, h8, h9, h10, h11, h12⟩
    · exact ⟨h1, h2, h3, by simp only [h4], h5, rfl, h7, h8, h9, h10, h11, h12⟩
  · simp only []
    split
    · exact ⟨h1, h2, h3, by simp only [h4], h5, by simp only [h6], h7, h8, h9, h10, h11, h12⟩
    · exact ⟨h1, h2, h3, by simp only [h4], h5, h6, h7, h8, h9, h10, h11, h12⟩
  · exact ⟨h1, h2, h3, h4, h5, h6, rfl, h8, h9, h10, h11, h12⟩
  · exact ⟨h1, h2, h3, h4, h5, h6, h7, h8, h9, h10, h11, h12⟩

theorem sameCart_peek (s t : CartridgeDPC) (a : Nat) (h : SameCart s t) :
    (s.peek a).1 = (t.peek a).1 ∧ SameCart (s.peek a).2 (t.peek a).2 := by
  have hl : s.bankLocked = t.bankLocked := h.2.2.2.2.2.2.2.2.2.2.1
  cases ht : t.bankLocked
  · rw [ht] at hl
    by_cases ha : (a &&& 0x0FFF) < 0x0040
    · rw [peek_dpc_of_unlocked s a hl ha, peek_dpc_of_unlocked t a ht ha]
      have hr := sameCart_readFunction _ _ ((a &&& 0x0FFF) &&& 0x07)
        (((a &&& 0x0FFF) >>> 3) &&& 0x07)
        (sameCart_updateFlag _ _ ((a &&& 0x0FFF) &&& 0x07)
          (sameCart_clockRandomNumberGenerator s t h))
      exact ⟨hr.1, sameCart_clockCounter _ _ _ hr.2⟩
    · rw [peek_rom_of_unlocked s a hl ha, peek_rom_of_unlocked t a ht ha]
      have hsw := sameCart_switchBanks _ _ (a &&& 0x0FFF)
        (sameCart_clockRandomNumberGenerator s t h)
      refine ⟨?_, hsw⟩
      simp only [myProgramImage, hsw.1, hsw.2.2.2.2.2.2.2.2.2.1]
  · rw [ht] at hl
    rw [peek_of_locked s a hl, peek_of_locked t a ht]
    refine ⟨?_, h⟩
    simp only [myProgramImage, h.1, h.2.2.2.2.2.2.2.2.2.1]

theorem sameCart_poke (s t : CartridgeDPC) (a v : Nat) (h : SameCart s t) :
    (s.poke a v).1 = (t.poke a v).1 ∧ SameCart (s.poke a v).2 (t.poke a v).2 := by
  rw [poke_eq, poke_eq]
  refine ⟨rfl, ?_⟩
  simp only []
  split
  · exact sameCart_writeFunction _ _ _ _ _ (sameCart_clockRandomNumberGenerator s t h)
  · exact sameCart_switchBanks _ _ _ (sameCart_clockRandomNumberGenerator s t h)

theorem sameCart_step (s t : CartridgeDPC) (op : Op) (h : SameCart s t) :
    (s.step op).1 = (t.step op).1 ∧ SameCart (s.step op).2 (t.step op).2 := by
  cases op with
  | peek a => exact sameCart_peek s t a h
  | poke a v =>
    have hp := sameCart_poke s t a v h
    exact ⟨by simp only [step, hp.1], hp.2⟩
  | cycles n =>
    obtain ⟨h1, h2, h3, h4, h5, h6, h7, h8, h9, h10, h11, h12⟩ := h
    exact ⟨rfl, h1, h2, h3, h4, h5, h6, h7, h8, h9, h10, h11, rfl⟩

theorem sameCart_run (ops : List Op) (s t : CartridgeDPC) (h : SameCart s t) :
    s.run ops = t.run ops := by
  induction ops generalizing s t with
  | nil => rfl
  | cons op rest ih =>
    have hs := sameCart_step s t op h
    simp only [run]
    rw [hs.1, ih _ _ hs.2]

theorem bank_myCycles (s : CartridgeDPC) (n : Nat) :
    (s.bank n).2.mySystem.myCycles = s.mySystem.myCycles := by
  unfold bank
  split
  · rfl
  · exact bankPages_myCycles _ _

theorem poke_myCycles (s : CartridgeDPC) (a v : Nat) :
    (s.poke a v).2.mySystem.myCycles = s.mySystem.myCycles := by
  rw [poke_eq]
  simp only []
  split
  · simp
  · unfold switchBanks
    split_ifs
    · rw [bank_myCycles]; rfl
    · rw [bank_myCycles]; rfl
    · rfl

theorem shift_aligned (off : Nat) (h : off % 4096 = 0 ∧ off < 65536) :
    ((off >>> 12) <<< 12) % 65536 = off := by
  rw [Nat.shiftRight_eq_div_pow, Nat.shiftLeft_eq]
  omega

theorem bank_getBank_myBankOffset (s : CartridgeDPC)
    (h : s.myBankOffset % 4096 = 0 ∧ s.myBankOffset < 65536) :
    (s.bank (s.myBankOffset >>> 12)).2.myBankOffset = s.myBankOffset := by
  unfold bank
  split
  · rfl
  · exact shift_aligned _ h

/-- C2 (snapshot round-trip): for reachable states `S` and `T`, `save` on `S`
succeeds, `load` on `T` of the stream written by `save(S)` returns true, and the
loaded state equals `S` field for field (bank offset, tops, bottoms, counters,
flags, music modes, random number, audio cycles, fractional clocks); so, when
`T` was built from the same image and sits under the same lock and host cycle
count, every later sequence of peeks and pokes returns the same bytes as on
`S`. -/
theorem snapshot_round_trip (S T : CartridgeDPC) (hS : Reachable S) (hT : Reachable T) :
    (S.save []).1 = true ∧ (T.load (S.save []).2).1 = true ∧
    (T.load (S.save []).2).2.1.myBankOffset = S.myBankOffset ∧
    (T.load (S.save []).2).2.1.myTops = S.myTops ∧
    (T.load (S.save []).2).2.1.myBottoms = S.myBottoms ∧
    (T.load (S.save []).2).2.1.myCounters = S.myCounters ∧
    (T.load (S.save []).2).2.1.myFlags = S.myFlags ∧
    (T.load (S.save []).2).2.1.myMusicMode = S.myMusicMode ∧
    (T.load (S.save []).2).2.1.myRandomNumber = S.myRandomNumber ∧
    (T.load (S.save []).2).2.1.myAudioCycles = S.myAudioCycles ∧
    (T.load (S.save []).2).2.1.myFractionalClocks = S.myFractionalClocks ∧
    (∀ ops : List Op, T.myImage = S.myImage → T.myBankLocked = S.myBankLocked →
      T.mySystem.myCycles = S.mySystem.myCycles →
      (T.load (S.save []).2).2.1.run ops = S.run ops) := by
  obtain ⟨hSs, hSa⟩ := reachable_invariant S hS
  obtain ⟨hTs, -⟩ := reachable_invariant T hT
  have hload := loadFields_save S T hSs hTs
  have hoff : (T.load (S.save []).2).2.1.myBankOffset = S.myBankOffset := by
    simp only [load, hload]
    exact bank_getBank_myBankOffset _ hSa
  have hf : (T.load (S.save []).2).1 = true ∧
      (T.load (S.save []).2).2.1.myTops = S.myTops ∧
      (T.load (S.save []).2).2.1.myBottoms = S.myBottoms ∧
      (T.load (S.save []).2).2.1.myCounters = S.myCounters ∧
      (T.load (S.save []).2).2.1.myFlags = S.myFlags ∧
      (T.load (S.save []).2).2.1.myMusicMode = S.myMusicMode ∧
      (T.load (S.save []).2).2.1.myRandomNumber = S.myRandomNumber ∧
      (T.load (S.save []).2).2.1.myAudioCycles = S.myAudioCycles ∧
      (T.load (S.save []).2).2.1.myFractionalClocks = S.myFractionalClocks ∧
      (T.load (S.save []).2).2.1.myImage = T.myImage ∧
      (T.load (S.save []).2).2.1.myBankLocked = T.myBankLocked ∧
      (T.load (S.save []).2).2.1.mySystem.myCycles = T.mySystem.myCycles := by
    simp only [load, hload, bank_myTops, bank_myBottoms, bank_myCounters, bank_myFlags,
      bank_myMusicMode, bank_myRandomNumber, bank_myAudioCycles, bank_myFractionalClocks,
      bank_myImage, bank_myBankLocked, bank_myCycles, and_self]
  obtain ⟨h0, h1, h2, h3, h4, h5, h6, h7, h8, h9, h10, h11⟩ := hf
  refine ⟨rfl, h0, hoff, h1, h2, h3, h4, h5, h6, h7, h8, ?_⟩
  intro ops himg hlock hcyc
  exact sameCart_run ops _ _
    ⟨h9.trans himg, h1, h2, h3, h4, h5, h6, h7, h8, hoff, h10.trans hlock, h11.trans hcyc⟩

/-- Witness of C2: the snapshot of `snapshotCart` loaded into a fresh cartridge
over the same image. -/
theorem snapshot_round_trip_witness :
    Reachable snapshotCart ∧ Reachable exampleCart ∧
    (exampleCart.load (snapshotCart.save []).2).1 = true ∧
    (exampleCart.load (snapshotCart.save []).2).2.1.myTops = snapshotCart.myTops ∧
    (∀ ops : List Op,
      (exampleCart.load (snapshotCart.save []).2).2.1.run ops = snapshotCart.run ops) :=
  ⟨Reachable.poke _ _ _ (Reachable.powerOn exampleImage 10496 System.empty) (by decide),
    Reachable.powerOn exampleImage 10496 System.empty,
    (snapshot_round_trip snapshotCart exampleCart
      (Reachable.poke _ _ _ (Reachable.powerOn exampleImage 10496 System.empty) (by decide))
      (Reachable.powerOn exampleImage 10496 System.empty)).2.1,
    (snapshot_round_trip snapshotCart exampleCart
      (Reachable.poke _ _ _ (Reachable.powerOn exampleImage 10496 System.empty) (by decide))
      (Reachable.powerOn exampleImage 10496 System.empty)).2.2.2.1,
    fun ops => (snapshot_round_trip snapshotCart exampleCart
      (Reachable.poke _ _ _ (Reachable.powerOn exampleImage 10496 System.empty) (by decide))
      (Reachable.powerOn exampleImage 10496 System.empty)).2.2.2.2.2.2.2.2.2.2.2 ops
      (poke_lengths exampleCart 0x1040 0x21).2.2.2.2.2.1.symm
      (poke_lengths exampleCart 0x1040 0x21).2.2.2.2.2.2.symm
      (poke_myCycles exampleCart 0x1040 0x21).symm⟩

/-! ## Claims C11, C12: the orbit of the shift register -/

theorem clockRandomNumberGenerator_myRandomNumber (s : CartridgeDPC) :
    s.clockRandomNumberGenerator.myRandomNumber = nextRandom s.myRandomNumber := rfl

theorem iterate_clockRandomNumberGenerator (n : Nat) (s : CartridgeDPC) :
    (clockRandomNumberGenerator^[n] s).myRandomNumber = nextRandom^[n] s.myRandomNumber := by
  induction n generalizing s with
  | zero => rfl
  | succ n ih =>
    rw [Function.iterate_succ_apply, Function.iterate_succ_apply, ih,
      clockRandomNumberGenerator_myRandomNumber]

set_option maxRecDepth 100000 in
theorem nextRandom_iterate_255 : nextRandom^[255] 1 = 1 := by decide

set_option maxRecDepth 100000 in
theorem nextRandom_orbit_table :
    ∀ k < 255, nextRandom^[k] 1 ≠ 255 ∧ (nextRandom^[k] 1 = 0 ↔ k = 254) ∧
      (nextRandom^[k] 1 = 1 ↔ k = 0) := by decide

set_option maxRecDepth 100000 in
theorem nextRandom_orbit_nodup : (List.iterate nextRandom 1 255).Nodup := by decide

theorem iterate_mod_of_return {α : Type} (g : α → α) (a : α) (p : Nat) (hp : 0 < p)
    (h : g^[p] a = a) (n : Nat) : g^[n] a = g^[n % p] a := by
  induction n using Nat.strong_induction_on with
  | _ n ih =>
    by_cases hn : n < p
    · rw [Nat.mod_eq_of_lt hn]
    · have e : n = (n - p) + p := by omega
      have e2 : n % p = (n - p) % p := by
        conv_lhs => rw [e]
        exact Nat.add_mod_right _ _
      rw [e2, ← ih (n - p) (by omega)]
      conv_lhs => rw [e]
      rw [Function.iterate_add_apply, h]

theorem nextRandom_iterate_mod (n : Nat) : nextRandom^[n] 1 = nextRandom^[n % 255] 1 :=
  iterate_mod_of_return nextRandom 1 255 (by norm_num) nextRandom_iterate_255 n

theorem nextRandom_iterate_injective (i j : Nat) (hi : i < 255) (hj : j < 255)
    (h : nextRandom^[i] 1 = nextRandom^[j] 1) : i = j := by
  have hl : (List.iterate nextRandom 1 255).length = 255 := List.length_iterate _ _ _
  have hi2 : i < (List.iterate nextRandom 1 255).length := by rw [hl]; exact hi
  have hj2 : j < (List.iterate nextRandom 1 255).length := by rw [hl]; exact hj
  have e : (List.iterate nextRandom 1 255)[i] = (List.iterate nextRandom 1 255)[j] := by
    rw [List.getElem_iterate, List.getElem_iterate]
    exact h
  exact (nextRandom_orbit_nodup.getElem_inj_iff).mp e

/-- C11 as stated fails: starting from 1, the shift register holds 0 after 254
clockings. -/
theorem lfsr_never_zero_counterexample :
    (new exampleImage 10496).myRandomNumber = 1 ∧
    (clockRandomNumberGenerator^[254] (new exampleImage 10496)).myRandomNumber = 0 := by
  refine ⟨rfl, ?_⟩
  rw [iterate_clockRandomNumberGenerator]
  exact ((nextRandom_orbit_table 254 (by norm_num)).2.1).mpr rfl

/-- C11 (amended): starting from `myRandomNumber = 1`, the value after `n`
applications of `clockRandomNumberGenerator` is 0 exactly when `n mod 255` is
254, so it is non-zero for every other `n`; the value it never takes is 0xFF. -/
theorem lfsr_zero_only_before_return (s : CartridgeDPC) (h : s.myRandomNumber = 1) (n : Nat) :
    ((clockRandomNumberGenerator^[n] s).myRandomNumber = 0 ↔ n % 255 = 254) ∧
    (clockRandomNumberGenerator^[n] s).myRandomNumber ≠ 0xFF := by
  rw [iterate_clockRandomNumberGenerator, h, nextRandom_iterate_mod]
  have ht := nextRandom_orbit_table (n % 255) (Nat.mod_lt _ (by norm_num))
  exact ⟨ht.2.1, ht.1⟩

/-- Witness of the amended C11: the constructed cartridge after 254 clockings. -/
theorem lfsr_zero_only_before_return_witness :
    (new exampleImage 10496).myRandomNumber = 1 ∧
    (((clockRandomNumberGenerator^[254] (new exampleImage 10496)).myRandomNumber = 0 ↔
        254 % 255 = 254) ∧
     (clockRandomNumberGenerator^[254] (new exampleImage 10496)).myRandomNumber ≠ 0xFF) :=
  ⟨rfl, lfsr_zero_only_before_return (new exampleImage 10496) rfl 254⟩

/-- C12 (LFSR period): starting from `myRandomNumber = 1`, repeated
`clockRandomNumberGenerator` returns to 1 after 255 clockings and after no
smaller positive number of clockings, and the 255 values visited before the
return are pairwise distinct. -/
theorem lfsr_period (s : CartridgeDPC) (h : s.myRandomNumber = 1) :
    (clockRandomNumberGenerator^[255] s).myRandomNumber = 1 ∧
    (∀ n, 0 < n → n < 255 → (clockRandomNumberGenerator^[n] s).myRandomNumber ≠ 1) ∧
    (∀ i j, i < 255 → j < 255 → i ≠ j →
      (clockRandomNumberGenerator^[i] s).myRandomNumber ≠
        (clockRandomNumberGenerator^[j] s).myRandomNumber) := by
  refine ⟨?_, ?_, ?_⟩
  · rw [iterate_clockRandomNumberGenerator, h]
    exact nextRandom_iterate_255
  · intro n h0 hn
    rw [iterate_clockRandomNumberGenerator, h]
    intro e
    have := ((nextRandom_orbit_table n hn).2.2).mp e
    omega
  · intro i j hi hj hij
    rw [iterate_clockRandomNumberGenerator, iterate_clockRandomNumberGenerator, h]
    intro e
    exact hij (nextRandom_iterate_injective i j hi hj e)

/-- Witness of C12 at the constructed cartridge. -/
theorem lfsr_period_witness :
    (new exampleImage 10496).myRandomNumber = 1 ∧
    (clockRandomNumberGenerator^[255] (new exampleImage 10496)).myRandomNumber = 1 :=
  ⟨rfl, (lfsr_period (new exampleImage 10496) rfl).1⟩

/-! ## Claim C13: the register ranges -/

theorem forall_mem_set {p : Nat → Prop} (l : List Nat) (i v : Nat) (hl : ∀ x ∈ l, p x)
    (hv : p v) : ∀ x ∈ l.set i v, p x := by
  intro x hx
  rcases List.mem_or_eq_of_mem_set hx with h | h
  · exact hl x h
  · rw [h]; exact hv

theorem getD_of_forall_mem {p : Nat → Prop} (l : List Nat) (i : Nat) (hl : ∀ x ∈ l, p x)
    (h0 : p 0) : p (l.getD i 0) := by
  rw [List.getD_eq_getElem?_getD]
  by_cases h : i < l.length
  · rw [List.getElem?_eq_getElem h]
    exact hl _ (List.getElem_mem h)
  · rw [List.getElem?_eq_none (by omega)]
    exact h0

theorem counter_low_or_le (c y : Nat) (hy : y < 256) : (c &&& 0x0700) ||| y ≤ 2047 := by
  have h1 : c &&& 0x0700 < 2 ^ 11 := lt_of_le_of_lt Nat.and_le_right (by norm_num)
  have h2 : y < 2 ^ 11 := lt_trans hy (by norm_num)
  have := Nat.or_lt_two_pow h1 h2
  omega

theorem counter_high_or_le (v c : Nat) :
    (((v &&& 0x07) <<< 8) % 65536) ||| (c &&& 0x00ff) ≤ 2047 := by
  have h7 : v &&& 0x07 ≤ 7 := Nat.and_le_right
  have h1 : ((v &&& 0x07) <<< 8) % 65536 < 2 ^ 11 := by
    rw [Nat.shiftLeft_eq]
    omega
  have h2 : c &&& 0x00ff < 2 ^ 11 := lt_of_le_of_lt Nat.and_le_right (by norm_num)
  have := Nat.or_lt_two_pow h1 h2
  omega

theorem registerRange_updateFlag (s : CartridgeDPC) (i : Nat) (h : s.RegisterRange) :
    (s.updateFlag i).RegisterRange := by
  obtain ⟨hc, hf, hb⟩ := h
  unfold updateFlag
  split_ifs
  · exact ⟨hc, forall_mem_set _ _ _ hf (Or.inr rfl), hb⟩
  · exact ⟨hc, forall_mem_set _ _ _ hf (Or.inl rfl), hb⟩
  · exact ⟨hc, hf, hb⟩

theorem registerRange_clockCounter (s : CartridgeDPC) (i : Nat) (h : s.RegisterRange) :
    (s.clockCounter i).RegisterRange := by
  obtain ⟨hc, hf, hb⟩ := h
  unfold clockCounter
  split
  · exact ⟨forall_mem_set _ _ _ hc (by omega), hf, hb⟩
  · exact ⟨hc, hf, hb⟩

theorem registerRange_updateMusicModeDataFetcher (w : Nat) (s : CartridgeDPC) (x : Nat)
    (ht : ∀ t ∈ s.myTops, t < 256) (h : s.RegisterRange) :
    (updateMusicModeDataFetcher w s x).RegisterRange := by
  obtain ⟨hc, hf, hb⟩ := h
  have htop : s.myTops.getD x 0 < 256 := getD_of_forall_mem _ _ ht (by norm_num)
  have hlow : s.myCounters.getD x 0 &&& 0x00ff ≤ 255 := Nat.and_le_right
  have hmod : w % ((s.myTops.getD x 0 : Nat) + 1 : Int).toNat < s.myTops.getD x 0 + 1 := by
    have e : ((s.myTops.getD x 0 : Nat) + 1 : Int).toNat = s.myTops.getD x 0 + 1 := by omega
    rw [e]
    exact Nat.mod_lt _ (by omega)
  unfold updateMusicModeDataFetcher
  split
  · refine ⟨?_, ?_, hb⟩
    · apply forall_mem_set _ _ _ hc
      apply counter_low_or_le
      simp only []
      generalize w % ((s.myTops.getD x 0 : Nat) + 1 : Int).toNat = r at hmod
      generalize s.myCounters.getD x 0 &&& 0x00ff = low at hlow
      generalize s.myTops.getD x 0 = top at htop hmod
      split_ifs <;> omega
    · simp only []
      split_ifs <;>
        first
        | exact forall_mem_set _ _ _ hf (Or.inl rfl)
        | exact forall_mem_set _ _ _ hf (Or.inr rfl)
        | exact hf
  · exact ⟨hc, hf, hb⟩

theorem registerRange_updateMusicModeDataFetchers (s : CartridgeDPC)
    (ht : ∀ t ∈ s.myTops, t < 256) (h : s.RegisterRange) :
    s.updateMusicModeDataFetchers.RegisterRange := by
  unfold updateMusicModeDataFetchers
  simp only []
  split
  · exact h
  · simp only [List.foldl]
    apply registerRange_updateMusicModeDataFetcher _ _ _ (by simpa using ht)
    apply registerRange_updateMusicModeDataFetcher _ _ _ (by simpa using ht)
    apply registerRange_updateMusicModeDataFetcher _ _ _ (by simpa using ht)
    exact h

theorem registerRange_readFunction (s : CartridgeDPC) (i fn : Nat)
    (ht : ∀ t ∈ s.myTops, t < 256) (h : s.RegisterRange) :
    (s.readFunction i fn).2.RegisterRange := by
  unfold readFunction
  split
  · split
    · exact h
    · exact registerRange_updateMusicModeDataFetchers s ht h
  all_goals exact h

theorem registerRange_clockRandomNumberGenerator (s : CartridgeDPC) (h : s.RegisterRange) :
    s.clockRandomNumberGenerator.RegisterRange := h

theorem registerRange_bank (s : CartridgeDPC) (n : Nat) (hn : n < 2) (h : s.RegisterRange) :
    (s.bank n).2.RegisterRange := by
  obtain ⟨hc, hf, hb⟩ := h
  unfold bank
  split
  · exact ⟨hc, hf, hb⟩
  · refine ⟨hc, hf, ?_⟩
    interval_cases n
    · left; rfl
    · right; rfl

theorem registerRange_switchBanks (s : CartridgeDPC) (a : Nat) (h : s.RegisterRange) :
    (s.switchBanks a).RegisterRange := by
  unfold switchBanks
  split_ifs
  · exact registerRange_bank s 0 (by norm_num) h
  · exact registerRange_bank s 1 (by norm_num) h
  · exact h

theorem registerRange_writeFunction (s : CartridgeDPC) (i fn v : Nat) (hv : v < 256)
    (ht : ∀ t ∈ s.myTops, t < 256) (h : s.RegisterRange) :
    (s.writeFunction i fn v).RegisterRange ∧ ∀ t ∈ (s.writeFunction i fn v).myTops, t < 256 := by
  obtain ⟨hc, hf, hb⟩ := h
  have htop : s.myTops.getD i 0 < 256 := getD_of_forall_mem _ _ ht (by norm_num)
  unfold writeFunction
  split
  · exact ⟨⟨hc, forall_mem_set _ _ _ hf (Or.inl rfl), hb⟩, forall_mem_set _ _ _ ht hv⟩
  · exact ⟨⟨hc, hf, hb⟩, ht⟩
  · split
    · exact ⟨⟨forall_mem_set _ _ _ hc (counter_low_or_le _ _ htop), hf, hb⟩, ht⟩
    · exact ⟨⟨forall_mem_set _ _ _ hc (counter_low_or_le _ _ hv), hf, hb⟩, ht⟩
  · simp only []
    split
    · exact ⟨⟨forall_mem_set _ _ _ hc (counter_high_or_le _ _), hf, hb⟩, ht⟩
    · exact ⟨⟨forall_mem_set _ _ _ hc (counter_high_or_le _ _), hf, hb⟩, ht⟩
  · exact ⟨⟨hc, hf, hb⟩, ht⟩
  · exact ⟨⟨hc, hf, hb⟩, ht⟩

theorem registerRange_peek (s : CartridgeDPC) (a : Nat) (ht : ∀ t ∈ s.myTops, t < 256)
    (h : s.RegisterRange) : (s.peek a).2.RegisterRange := by
  cases hl : s.bankLocked
  · by_cases ha : (a &&& 0x0FFF) < 0x0040
    · rw [peek_dpc_of_unlocked s a hl ha]
      apply registerRange_clockCounter
      apply registerRange_readFunction _ _ _ (by simpa using ht)
      apply registerRange_updateFlag
      exact h
    · rw [peek_rom_of_unlocked s a hl ha]
      exact registerRange_switchBanks _ _ h
  · rw [peek_of_locked s a hl]
    exact h

theorem registerRange_poke (s : CartridgeDPC) (a v : Nat) (hv : v < 256)
    (ht : ∀ t ∈ s.myTops, t < 256) (h : s.RegisterRange) :
    (s.poke a v).2.RegisterRange ∧ ∀ t ∈ (s.poke a v).2.myTops, t < 256 := by
  rw [poke_eq]
  simp only []
  split
  · exact registerRange_writeFunction _ _ _ _ hv (by simpa using ht) h
  · exact ⟨registerRange_switchBanks _ _ h, by simpa using ht⟩

theorem registerRange_new (image : List Nat) (size : Nat) : (new image size).RegisterRange := by
  simp [new, RegisterRange]

theorem registerRange_install (s : CartridgeDPC) (system : System) (hn : s.myStartBank < 2)
    (h : s.RegisterRange) : (s.install system).RegisterRange := by
  unfold install
  exact registerRange_bank _ _ hn h

theorem registerRange_reset (s : CartridgeDPC) (h : s.RegisterRange) :
    s.reset.RegisterRange := by
  unfold reset
  exact registerRange_bank _ _ (by simp [initializeStartBank, startBank]) h

/-- C13 (register-range invariant): the predicate "every counter is at most
2047, every flag is 0x00 or 0xFF, the bank offset is 0 or 4096" holds after
construction, after construction followed by `reset` (start bank 1) and after
`bank(0)` or `bank(1)` on the constructed cartridge (start bank 0 or 1), and is
preserved by every `peek`, every `poke` of a byte and every
`updateMusicModeDataFetchers`, locked or unlocked; the tops stay bytes. -/
theorem register_range_invariant (s : CartridgeDPC) (a v : Nat) (image : List Nat) (size : Nat)
    (system : System) (hv : v < 256) (ht : ∀ t ∈ s.myTops, t < 256) (h : s.RegisterRange) :
    (new image size).RegisterRange ∧ (new image size).reset.RegisterRange ∧
    ((new image size).install system).reset.RegisterRange ∧
    ((new image size).bank 0).2.RegisterRange ∧ ((new image size).bank 1).2.RegisterRange ∧
    (s.peek a).2.RegisterRange ∧ (s.poke a v).2.RegisterRange ∧
    s.updateMusicModeDataFetchers.RegisterRange ∧
    (∀ t ∈ (s.peek a).2.myTops, t < 256) ∧ (∀ t ∈ (s.poke a v).2.myTops, t < 256) ∧
    (∀ t ∈ s.updateMusicModeDataFetchers.myTops, t < 256) := by
  have hn := registerRange_new image size
  refine ⟨hn, registerRange_reset _ hn,
    registerRange_reset _ (registerRange_install _ _ (by simp [new]) hn),
    registerRange_bank _ 0 (by norm_num) hn, registerRange_bank _ 1 (by norm_num) hn,
    registerRange_peek s a ht h, (registerRange_poke s a v hv ht h).1,
    registerRange_updateMusicModeDataFetchers s ht h, ?_, (registerRange_poke s a v hv ht h).2, ?_⟩
  · rw [(peek_lengths s a).1]; exact ht
  · simpa using ht

theorem exampleCart_myTops : exampleCart.myTops = List.replicate 8 0 := by
  simp [exampleCart, reset, install, initializeStartBank, new]

/-- Witness of C13 at the power-on example state. -/
theorem register_range_invariant_witness :
    0x21 < 256 ∧ (∀ t ∈ exampleCart.myTops, t < 256) ∧ exampleCart.RegisterRange ∧
    (exampleCart.peek 0x1008).2.RegisterRange ∧ (exampleCart.poke 0x1058 0x21).2.RegisterRange ∧
    exampleCart.updateMusicModeDataFetchers.RegisterRange :=
  ⟨by decide, by rw [exampleCart_myTops]; decide,
    registerRange_reset _ (registerRange_install _ _ (by simp [new]) (registerRange_new _ _)),
    (register_range_invariant exampleCart 0x1008 0x21 exampleImage 10496 System.empty (by decide)
      (by rw [exampleCart_myTops]; decide)
      (registerRange_reset _ (registerRange_install _ _ (by simp [new])
        (registerRange_new _ _)))).2.2.2.2.2.1,
    (register_range_invariant exampleCart 0x1058 0x21 exampleImage 10496 System.empty (by decide)
      (by rw [exampleCart_myTops]; decide)
      (registerRange_reset _ (registerRange_install _ _ (by simp [new])
        (registerRange_new _ _)))).2.2.2.2.2.2.1,
    (register_range_invariant exampleCart 0x1058 0x21 exampleImage 10496 System.empty (by decide)
      (by rw [exampleCart_myTops]; decide)
      (registerRange_reset _ (registerRange_install _ _ (by simp [new])
        (registerRange_new _ _)))).2.2.2.2.2.2.2.1⟩

/-! ## Claim C14: the fractional clock -/

theorem updateMusicModeDataFetchers_eq (s : CartridgeDPC) :
    s.updateMusicModeDataFetchers =
      if s.musicWholeClocks ≤ 0 then
        { s with
          myAudioCycles := s.mySystem.cycles
          myFractionalClocks := s.musicClocks - (s.musicWholeClocks : ℚ) }
      else
        [5, 6, 7].foldl (updateMusicModeDataFetcher s.musicWholeClocks)
          { s with
            myAudioCycles := s.mySystem.cycles
            myFractionalClocks := s.musicClocks - (s.musicWholeClocks : ℚ) } := rfl

theorem updateMusicModeDataFetchers_myFractionalClocks (s : CartridgeDPC) :
    s.updateMusicModeDataFetchers.myFractionalClocks =
      s.musicClocks - (s.musicWholeClocks : ℚ) := by
  unfold updateMusicModeDataFetchers
  simp only []
  split
  · rfl
  · simp only [List.foldl, updateMusicModeDataFetcher_myFractionalClocks]
    rfl

theorem updateMusicModeDataFetchers_myAudioCycles (s : CartridgeDPC) :
    s.updateMusicModeDataFetchers.myAudioCycles = s.mySystem.cycles := by
  unfold updateMusicModeDataFetchers
  simp only []
  split
  · rfl
  · simp only [List.foldl, updateMusicModeDataFetcher_myAudioCycles]

theorem musicCycles_of_delta (s : CartridgeDPC) (d : Nat) (hd : d < 2 ^ 32)
    (hc : s.mySystem.cycles = s.myAudioCycles + d) : s.musicCycles = d := by
  unfold musicCycles
  rw [hc]
  omega

theorem clocks_floor (d : Nat) (q : ℚ) (hd : d < 2 ^ 32) (h0 : 0 ≤ q) (h1 : q < 1) :
    (((Int.toNat ⌊20000 * (d : ℚ) / 1193191.66666667 + q⌋ % 2 ^ 32 : Nat) : ℚ) : ℚ) =
      ((⌊20000 * (d : ℚ) / 1193191.66666667 + q⌋ : Int) : ℚ) := by
  have hd0 : (0 : ℚ) ≤ d := Nat.cast_nonneg d
  have hdq : (d : ℚ) ≤ 2 ^ 32 - 1 := by
    have h2 : d + 1 ≤ 2 ^ 32 := by omega
    have h3 : ((d + 1 : Nat) : ℚ) ≤ ((2 ^ 32 : Nat) : ℚ) := Nat.cast_le.mpr h2
    push_cast at h3
    linarith
  have hle : 20000 * (d : ℚ) / 1193191.66666667 ≤ d := by
    rw [div_le_iff₀ (by norm_num)]
    nlinarith
  have hnn : 0 ≤ 20000 * (d : ℚ) / 1193191.66666667 + q := by positivity
  have hlt : 20000 * (d : ℚ) / 1193191.66666667 + q < 2 ^ 32 := by linarith
  have hf0 : 0 ≤ ⌊20000 * (d : ℚ) / 1193191.66666667 + q⌋ := Int.floor_nonneg.mpr hnn
  have hf1 : ⌊20000 * (d : ℚ) / 1193191.66666667 + q⌋ < 2 ^ 32 := by
    rw [Int.floor_lt]
    exact_mod_cast hlt
  have e : (Int.toNat ⌊20000 * (d : ℚ) / 1193191.66666667 + q⌋ % 2 ^ 32 : Nat) =
      Int.toNat ⌊20000 * (d : ℚ) / 1193191.66666667 + q⌋ := by
    apply Nat.mod_eq_of_lt
    omega
  rw [e]
  have := Int.toNat_of_nonneg hf0
  exact_mod_cast this

theorem updateMusicModeDataFetchers_clocks (s : CartridgeDPC) (d : Nat) (hd : d < 2 ^ 32)
    (hc : s.mySystem.cycles = s.myAudioCycles + d)
    (h0 : 0 ≤ s.myFractionalClocks) (h1 : s.myFractionalClocks < 1) :
    0 ≤ s.updateMusicModeDataFetchers.myFractionalClocks ∧
    s.updateMusicModeDataFetchers.myFractionalClocks < 1 ∧
    (s.musicWholeClocks : ℚ) + s.updateMusicModeDataFetchers.myFractionalClocks =
      20000 * (d : ℚ) / 1193191.66666667 + s.myFractionalClocks := by
  have hw : (s.musicWholeClocks : ℚ) =
      ((⌊20000 * (d : ℚ) / 1193191.66666667 + s.myFractionalClocks⌋ : Int) : ℚ) := by
    unfold musicWholeClocks musicClocks
    rw [musicCycles_of_delta s d hd hc]
    exact clocks_floor d _ hd h0 h1
  have hq : s.musicClocks = 20000 * (d : ℚ) / 1193191.66666667 + s.myFractionalClocks := by
    unfold musicClocks
    rw [musicCycles_of_delta s d hd hc]
  rw [updateMusicModeDataFetchers_myFractionalClocks, hw, hq]
  refine ⟨?_, ?_, by ring⟩
  · exact Int.fract_nonneg _
  · exact Int.fract_lt_one _

theorem musicRun_clocks (deltas : List Nat) (s : CartridgeDPC) (hd : ∀ d ∈ deltas, d < 2 ^ 32)
    (h0 : 0 ≤ s.myFractionalClocks) (h1 : s.myFractionalClocks < 1) :
    0 ≤ (s.musicRun deltas).2.myFractionalClocks ∧
    (s.musicRun deltas).2.myFractionalClocks < 1 ∧
    ((s.musicRun deltas).1 : ℚ) + (s.musicRun deltas).2.myFractionalClocks =
      20000 * (deltas.sum : ℚ) / 1193191.66666667 + s.myFractionalClocks := by
  induction deltas generalizing s with
  | nil => simp [musicRun, h0, h1]
  | cons d rest ih =>
    have hstep := updateMusicModeDataFetchers_clocks (s.setCycles (s.myAudioCycles + d)) d
      (hd d (List.mem_cons_self _ _)) rfl h0 h1
    obtain ⟨g0, g1, g2⟩ := hstep
    obtain ⟨k0, k1, k2⟩ := ih (s.setCycles (s.myAudioCycles + d)).updateMusicModeDataFetchers
      (fun x hx => hd x (List.mem_cons_of_mem _ hx)) g0 g1
    have hs : (s.setCycles (s.myAudioCycles + d)).myFractionalClocks = s.myFractionalClocks := rfl
    rw [hs] at g2
    simp only [musicRun, List.sum_cons]
    refine ⟨k0, k1, ?_⟩
    simp only [Nat.cast_add]
    have e : 20000 * ((d : ℚ) + (rest.sum : ℚ)) / 1193191.66666667 =
        20000 * (d : ℚ) / 1193191.66666667 + 20000 * (rest.sum : ℚ) / 1193191.66666667 := by
      ring
    rw [e]
    linarith

/-- C14 (drift-free fractional clocking, in exact rational arithmetic): when
the host has advanced by `d < 2^32` cycles since the last update and
`0 <= myFractionalClocks < 1`, then after `updateMusicModeDataFetchers`
`0 <= myFractionalClocks < 1` and `wholeClocks` plus the new fraction equals
`20000 * d / 1193191.66666667` plus the old fraction; consequently, over any
sequence of updates, the sum of the whole clocks applied differs from
`20000 * (total cycles) / 1193191.66666667` by less than 1. -/
theorem fractional_clocks_drift_free (s : CartridgeDPC) (d : Nat) (deltas : List Nat)
    (hd : d < 2 ^ 32) (hc : s.mySystem.cycles = s.myAudioCycles + d)
    (hds : ∀ x ∈ deltas, x < 2 ^ 32)
    (h0 : 0 ≤ s.myFractionalClocks) (h1 : s.myFractionalClocks < 1) :
    s.musicCycles = d ∧
    0 ≤ s.updateMusicModeDataFetchers.myFractionalClocks ∧
    s.updateMusicModeDataFetchers.myFractionalClocks < 1 ∧
    (s.musicWholeClocks : ℚ) + s.updateMusicModeDataFetchers.myFractionalClocks =
      20000 * (d : ℚ) / 1193191.66666667 + s.myFractionalClocks ∧
    |((s.musicRun deltas).1 : ℚ) - 20000 * (deltas.sum : ℚ) / 1193191.66666667| < 1 := by
  obtain ⟨g0, g1, g2⟩ := updateMusicModeDataFetchers_clocks s d hd hc h0 h1
  obtain ⟨k0, k1, k2⟩ := musicRun_clocks deltas s hds h0 h1
  refine ⟨musicCycles_of_delta s d hd hc, g0, g1, g2, ?_⟩
  rw [abs_lt]
  constructor <;> linarith

/-- Clock bookkeeping of `exampleCart` after the host has run for 1000 cycles. -/
theorem exampleCart_clock_facts :
    (exampleCart.setCycles 1000).mySystem.cycles = (exampleCart.setCycles 1000).myAudioCycles + 1000 ∧
    (exampleCart.setCycles 1000).myFractionalClocks = 0 := by
  simp [exampleCart, setCycles, System.cycles, reset, install, initializeStartBank, new]

/-- Witness of C14: the power-on example state after 1000 host cycles, then
updates 100 and 250 cycles apart. -/
theorem fractional_clocks_drift_free_witness :
    1000 < 2 ^ 32 ∧
    (exampleCart.setCycles 1000).mySystem.cycles =
      (exampleCart.setCycles 1000).myAudioCycles + 1000 ∧
    (∀ x ∈ [100, 250], x < 2 ^ 32) ∧
    0 ≤ (exampleCart.setCycles 1000).myFractionalClocks ∧
    (exampleCart.setCycles 1000).myFractionalClocks < 1 ∧
    (exampleCart.setCycles 1000).updateMusicModeDataFetchers.myFractionalClocks < 1 ∧
    |(((exampleCart.setCycles 1000).musicRun [100, 250]).1 : ℚ) -
      20000 * (([100, 250] : List Nat).sum : ℚ) / 1193191.66666667| < 1 :=
  ⟨by norm_num, exampleCart_clock_facts.1, by decide,
    by rw [exampleCart_clock_facts.2], by rw [exampleCart_clock_facts.2]; norm_num,
    (fractional_clocks_drift_free (exampleCart.setCycles 1000) 1000 [100, 250] (by norm_num)
      exampleCart_clock_facts.1 (by decide) (by rw [exampleCart_clock_facts.2])
      (by rw [exampleCart_clock_facts.2]; norm_num)).2.2.1,
    (fractional_clocks_drift_free (exampleCart.setCycles 1000) 1000 [100, 250] (by norm_num)
      exampleCart_clock_facts.1 (by decide) (by rw [exampleCart_clock_facts.2])
      (by rw [exampleCart_clock_facts.2]; norm_num)).2.2.2.2⟩

/-! ## Claims C15, C16, C17: `bank` and `patch` -/

/-- C15 (`bank` refuses when locked): with `bankLocked` set, `bank(n)` returns
false and leaves the whole state as it was, so the bank offset, `getBank()` and
the page table of the bus are unchanged. -/
theorem bank_locked_refuses (s : CartridgeDPC) (n : Nat) (h : s.bankLocked = true) :
    s.bank n = (false, s) ∧ (s.bank n).2.myBankOffset = s.myBankOffset ∧
    (s.bank n).2.getBank = s.getBank ∧
    (s.bank n).2.mySystem.myPageAccessTable = s.mySystem.myPageAccessTable := by
  have e : s.bank n = (false, s) := by simp [bank, h]
  rw [e]
  exact ⟨rfl, rfl, rfl, rfl⟩

/-- Witness of C15 at the locked example state. -/
theorem bank_locked_refuses_witness :
    lockedCart.bankLocked = true ∧
    (lockedCart.bank 0 = (false, lockedCart) ∧
     (lockedCart.bank 0).2.myBankOffset = lockedCart.myBankOffset ∧
     (lockedCart.bank 0).2.getBank = lockedCart.getBank ∧
     (lockedCart.bank 0).2.mySystem.myPageAccessTable = lockedCart.mySystem.myPageAccessTable) :=
  ⟨rfl, bank_locked_refuses lockedCart 0 rfl⟩

theorem exampleCart_getBank : exampleCart.getBank = 1 := by
  simp [getBank, exampleCart_myBankOffset]

theorem bank_of_unlocked (s : CartridgeDPC) (n : Nat) (h : s.bankLocked = false) :
    (s.bank n).1 = true ∧ (s.bank n).2.myBankOffset = (n <<< 12) % 65536 ∧
    (s.bank n).2.myBankChanged = true := by
  simp [bank, h]

/-- C16 as stated fails: at power-on bank 1 is active, and `bank(1)` on the
unlocked cartridge returns true although the active bank stays 1. -/
theorem bank_result_counterexample :
    exampleCart.bankLocked = false ∧ exampleCart.getBank = 1 ∧
    (exampleCart.bank 1).1 = true ∧ (exampleCart.bank 1).2.getBank = exampleCart.getBank := by
  have hl : exampleCart.bankLocked = false := exampleCart_bankLocked
  have hb := bank_of_unlocked exampleCart 1 hl
  refine ⟨hl, exampleCart_getBank, hb.1, ?_⟩
  rw [exampleCart_getBank, getBank, hb.2.1]
  decide

/-- C16 (amended): on an unlocked cartridge `bank(n)` returns true for every
`n`, whether or not the active bank changes; it records the offset `n << 12`
and sets `myBankChanged`, and for `n` in {0, 1} the active bank afterwards is
`n`. -/
theorem bank_unlocked_returns_true (s : CartridgeDPC) (n : Nat) (h : s.bankLocked = false) :
    (s.bank n).1 = true ∧ (s.bank n).2.myBankOffset = (n <<< 12) % 65536 ∧
    (s.bank n).2.myBankChanged = true ∧ (s.bank 0).2.getBank = 0 ∧ (s.bank 1).2.getBank = 1 := by
  obtain ⟨h1, h2, h3⟩ := bank_of_unlocked s n h
  refine ⟨h1, h2, h3, ?_, ?_⟩
  · rw [getBank, (bank_of_unlocked s 0 h).2.1]
    decide
  · rw [getBank, (bank_of_unlocked s 1 h).2.1]
    decide

/-- Witness of the amended C16 at the power-on example state. -/
theorem bank_unlocked_returns_true_witness :
    exampleCart.bankLocked = false ∧
    ((exampleCart.bank 1).1 = true ∧ (exampleCart.bank 1).2.myBankOffset = (1 <<< 12) % 65536 ∧
     (exampleCart.bank 1).2.myBankChanged = true ∧ (exampleCart.bank 0).2.getBank = 0 ∧
     (exampleCart.bank 1).2.getBank = 1) :=
  ⟨exampleCart_bankLocked, bank_unlocked_returns_true exampleCart 1 exampleCart_bankLocked⟩

theorem getD_set_eq_ite (l : List Nat) (i j v : Nat) (h : i < l.length) :
    (l.set i v).getD j 0 = if j = i then v else l.getD j 0 := by
  by_cases hj : j = i
  · rw [hj, if_pos rfl]
    exact getD_set_self l i v 0 h
  · rw [if_neg hj]
    exact getD_set_other l i j v 0 (Ne.symm hj)

/-- C17 (`patch` accepts iff outside the DPC register region): with
`o = a & 0x0FFF`, `patch(a, v)` returns true exactly when `o >= 0x0080`; if
`o < 0x0080` the image is unchanged; if `o >= 0x0080` then afterwards
`myProgramImage[myBankOffset + o]` is `v` and every other image byte is
unchanged; in both cases every DPC register is unchanged (locked or not). -/
theorem patch_outside_registers (s : CartridgeDPC) (a v : Nat)
    (hlen : s.myBankOffset + (a &&& 0x0FFF) < s.myImage.length) :
    (s.patch a v).1 = decide (0x0080 ≤ (a &&& 0x0FFF)) ∧
    (s.patch a v).2.myImage =
      (if 0x0080 ≤ (a &&& 0x0FFF) then s.myImage.set (s.myBankOffset + (a &&& 0x0FFF)) v
       else s.myImage) ∧
    (∀ j, (s.patch a v).2.myProgramImage j =
      if 0x0080 ≤ (a &&& 0x0FFF) ∧ j = s.myBankOffset + (a &&& 0x0FFF) then v
      else s.myProgramImage j) ∧
    (s.patch a v).2.myTops = s.myTops ∧ (s.patch a v).2.myBottoms = s.myBottoms ∧
    (s.patch a v).2.myCounters = s.myCounters ∧ (s.patch a v).2.myFlags = s.myFlags ∧
    (s.patch a v).2.myMusicMode = s.myMusicMode ∧
    (s.patch a v).2.myRandomNumber = s.myRandomNumber ∧
    (s.patch a v).2.myAudioCycles = s.myAudioCycles ∧
    (s.patch a v).2.myFractionalClocks = s.myFractionalClocks ∧
    (s.patch a v).2.myBankOffset = s.myBankOffset := by
  have hm : (a &&& 0x0FFF) &&& 0x0FFF = a &&& 0x0FFF := by
    rw [Nat.and_assoc, Nat.and_self]
  by_cases h : 0x0080 ≤ (a &&& 0x0FFF)
  · have e : s.patch a v = (true, { s with
        myImage := s.myImage.set (s.myBankOffset + (a &&& 0x0FFF)) v, myBankChanged := true }) := by
      simp only [patch, h, if_true, hm]
    rw [e]
    refine ⟨by simp [h], by simp [h], ?_, rfl, rfl, rfl, rfl, rfl, rfl, rfl, rfl, rfl⟩
    intro j
    simp only [myProgramImage, h, true_and]
    exact getD_set_eq_ite _ _ _ _ hlen
  · have e : s.patch a v = (false, s) := by
      simp only [patch, h, if_false]
    rw [e]
    refine ⟨by simp [h], by simp [h], ?_, rfl, rfl, rfl, rfl, rfl, rfl, rfl, rfl, rfl⟩
    intro j
    simp [h]

theorem exampleCart_myImage_length : exampleCart.myImage.length = 10496 := by
  rw [exampleCart_myImage, exampleImage_length]

/-- Witness of C17: a patch of offset 0x0200 in the active bank at power-on. -/
theorem patch_outside_registers_witness :
    exampleCart.myBankOffset + (0x1200 &&& 0x0FFF) < exampleCart.myImage.length ∧
    (exampleCart.patch 0x1200 0x5A).1 = decide (0x0080 ≤ (0x1200 &&& 0x0FFF)) ∧
    (exampleCart.patch 0x1200 0x5A).2.myTops = exampleCart.myTops :=
  ⟨by rw [exampleCart_myBankOffset, exampleCart_myImage_length]; decide,
    (patch_outside_registers exampleCart 0x1200 0x5A
      (by rw [exampleCart_myBankOffset, exampleCart_myImage_length]; decide)).1,
    (patch_outside_registers exampleCart 0x1200 0x5A
      (by rw [exampleCart_myBankOffset, exampleCart_myImage_length]; decide)).2.2.2.1⟩

/-! ## Claim C18: the order of the snapshot fields -/

theorem save_snapshotItems (s : CartridgeDPC) (hs : s.Sized) (out : Serializer) :
    s.save out = (true, out ++ s.snapshotItems) :=
  save_eq s hs out

theorem map_type_byte (l : List Nat) :
    (l.map Item.byte).map Item.type = List.replicate l.length ItemType.byte := by
  induction l with
  | nil => rfl
  | cons a l ih => simp only [List.map_cons, List.length_cons, List.replicate_succ, ih, Item.type]

theorem map_type_short (l : List Nat) :
    (l.map Item.short).map Item.type = List.replicate l.length ItemType.short := by
  induction l with
  | nil => rfl
  | cons a l ih => simp only [List.map_cons, List.length_cons, List.replicate_succ, ih, Item.type]

theorem snapshotItems_layout (s : CartridgeDPC) (hs : s.Sized) :
    s.snapshotItems.map Item.type = snapshotLayout := by
  obtain ⟨h1, h2, h3, h4, -⟩ := hs
  simp only [snapshotItems, List.map_cons, List.map_append, map_type_byte, map_type_short,
    h1, h2, h3, h4, Item.type, List.map_nil]
  rfl

theorem snapshotItems_length (s : CartridgeDPC) (hs : s.Sized) :
    s.snapshotItems.length = 39 := by
  have h := congrArg List.length (snapshotItems_layout s hs)
  rw [List.length_map] at h
  rw [h]
  rfl

theorem loadFields_snapshotItems (S T : CartridgeDPC) (hS : S.Sized) (hT : T.Sized)
    (rest : Serializer) :
    T.loadFields (S.snapshotItems ++ rest) = Except.ok (T.restored S, rest) := by
  obtain ⟨s1, s2, s3, s4, s5⟩ := hS
  obtain ⟨t1, t2, t3, t4, t5⟩ := hT
  have g1 := getByteArray_map S.myTops
  have g2 := getByteArray_map S.myBottoms
  have g3 := getShortArray_map S.myCounters
  have g4 := getByteArray_map S.myFlags
  rw [s1] at g1
  rw [s2] at g2
  rw [s3] at g3
  rw [s4] at g4
  simp only [loadFields, snapshotItems, restored, getInto, bind, Except.bind, List.cons_append,
    List.append_assoc, List.nil_append, Serializer.getShort, g1, g2,
    g3, g4, Serializer.getBool, Serializer.getByte, Serializer.getLong, Serializer.getDouble,
    List.drop_of_length_le (le_of_eq t1), List.drop_of_length_le (le_of_eq t2),
    List.drop_of_length_le (le_of_eq t3), List.drop_of_length_le (le_of_eq t4),
    List.append_nil, set_musicMode S.myMusicMode T.myMusicMode s5 t5]

theorem getByte_some (inp rest : Serializer) (v : Nat)
    (h : Serializer.getByte inp = some (v, rest)) : inp = Item.byte v :: rest := by
  unfold Serializer.getByte at h
  split at h
  · simp only [Option.some.injEq, Prod.mk.injEq] at h
    rw [h.1, h.2]
  · exact absurd h (by simp)

theorem getShort_some (inp rest : Serializer) (v : Nat)
    (h : Serializer.getShort inp = some (v, rest)) : inp = Item.short v :: rest := by
  unfold Serializer.getShort at h
  split at h
  · simp only [Option.some.injEq, Prod.mk.injEq] at h
    rw [h.1, h.2]
  · exact absurd h (by simp)

theorem getLong_some (inp rest : Serializer) (v : Nat)
    (h : Serializer.getLong inp = some (v, rest)) : inp = Item.long v :: rest := by
  unfold Serializer.getLong at h
  split at h
  · simp only [Option.some.injEq, Prod.mk.injEq] at h
    rw [h.1, h.2]
  · exact absurd h (by simp)

theorem getDouble_some (inp rest : Serializer) (v : ℚ)
    (h : Serializer.getDouble inp = some (v, rest)) : inp = Item.double v :: rest := by
  unfold Serializer.getDouble at h
  split at h
  · simp only [Option.some.injEq, Prod.mk.injEq] at h
    rw [h.1, h.2]
  · exact absurd h (by simp)

theorem getBool_some (inp rest : Serializer) (b : Bool)
    (h : Serializer.getBool inp = some (b, rest)) : inp = Item.bool b :: rest := by
  unfold Serializer.getBool at h
  split at h
  · simp only [Option.some.injEq, Prod.mk.injEq] at h
    rw [h.1, h.2]
  · exact absurd h (by simp)

theorem getByteArray_some (n : Nat) (inp rest : Serializer) (vs : List Nat)
    (h : Serializer.getByteArray n inp = some (vs, rest)) :
    inp = vs.map Item.byte ++ rest ∧ vs.length = n := by
  induction n generalizing inp vs rest with
  | zero =>
    simp only [Serializer.getByteArray, Option.some.injEq, Prod.mk.injEq] at h
    rw [← h.1, ← h.2]
    exact ⟨rfl, rfl⟩
  | succ n ih =>
    unfold Serializer.getByteArray at h
    split at h
    · exact absurd h (by simp)
    · rename_i v r1 hb
      split at h
      · exact absurd h (by simp)
      · rename_i ws r2 ha
        simp only [Option.some.injEq, Prod.mk.injEq] at h
        obtain ⟨e1, e2⟩ := ih r1 r2 ws ha
        rw [← h.1, ← h.2, getByte_some _ _ _ hb, e1]
        exact ⟨rfl, by simp [e2]⟩

theorem getShortArray_some (n : Nat) (inp rest : Serializer) (vs : List Nat)
    (h : Serializer.getShortArray n inp = some (vs, rest)) :
    inp = vs.map Item.short ++ rest ∧ vs.length = n := by
  induction n generalizing inp vs rest with
  | zero =>
    simp only [Serializer.getShortArray, Option.some.injEq, Prod.mk.injEq] at h
    rw [← h.1, ← h.2]
    exact ⟨rfl, rfl⟩
  | succ n ih =>
    unfold Serializer.getShortArray at h
    split at h
    · exact absurd h (by simp)
    · rename_i v r1 hb
      split at h
      · exact absurd h (by simp)
      · rename_i ws r2 ha
        simp only [Option.some.injEq, Prod.mk.injEq] at h
        obtain ⟨e1, e2⟩ := ih r1 r2 ws ha
        rw [← h.1, ← h.2, getShort_some _ _ _ hb, e1]
        exact ⟨rfl, by simp [e2]⟩

theorem getInto_ok {α : Type} (get : Serializer → Option (α × Serializer))
    (store : CartridgeDPC → α → CartridgeDPC) (p q : CartridgeDPC × Serializer)
    (h : getInto get store p = Except.ok q) :
    ∃ v, get p.2 = some (v, q.2) ∧ q.1 = store p.1 v := by
  unfold getInto at h
  split at h
  · exact absurd h (by simp)
  · rename_i v rest hg
    simp only [Except.ok.injEq] at h
    rw [← h]
    exact ⟨v, hg, rfl⟩

theorem bind_getInto_ok {α : Type} (x : Except CartridgeDPC (CartridgeDPC × Serializer))
    (get : Serializer → Option (α × Serializer)) (store : CartridgeDPC → α → CartridgeDPC)
    (q : CartridgeDPC × Serializer) (h : (x >>= getInto get store) = Except.ok q) :
    ∃ p v, x = Except.ok p ∧ get p.2 = some (v, q.2) ∧ q.1 = store p.1 v := by
  cases x with
  | error e => exact absurd h (by simp [bind, Except.bind])
  | ok p =>
    obtain ⟨v, h1, h2⟩ := getInto_ok get store p q h
    exact ⟨p, v, rfl, h1, h2⟩

theorem loadFields_ok_stream (t : CartridgeDPC) (inp : Serializer)
    (q : CartridgeDPC × Serializer) (h : t.loadFields inp = Except.ok q) :
    ∃ (off : Nat) (tops bottoms counters flags : List Nat) (m0 m1 m2 : Bool) (r aud : Nat)
      (frac : ℚ),
      tops.length = 8 ∧ bottoms.length = 8 ∧ counters.length = 8 ∧ flags.length = 8 ∧
      inp = Item.short off :: (tops.map Item.byte ++ (bottoms.map Item.byte ++
        (counters.map Item.short ++ (flags.map Item.byte ++
          (Item.bool m0 :: Item.bool m1 :: Item.bool m2 :: Item.byte r :: Item.long aud ::
            Item.double frac :: q.2))))) := by
  unfold loadFields at h
  obtain ⟨p10, frac, h10, g10, -⟩ := bind_getInto_ok _ _ _ _ h
  obtain ⟨p9, aud, h9, g9, -⟩ := bind_getInto_ok _ _ _ _ h10
  obtain ⟨p8, r, h8, g8, -⟩ := bind_getInto_ok _ _ _ _ h9
  obtain ⟨p7, m2, h7, g7, -⟩ := bind_getInto_ok _ _ _ _ h8
  obtain ⟨p6, m1, h6, g6, -⟩ := bind_getInto_ok _ _ _ _ h7
  obtain ⟨p5, m0, h5, g5, -⟩ := bind_getInto_ok _ _ _ _ h6
  obtain ⟨p4, flags, h4, g4, -⟩ := bind_getInto_ok _ _ _ _ h5
  obtain ⟨p3, counters, h3, g3, -⟩ := bind_getInto_ok _ _ _ _ h4
  obtain ⟨p2, bottoms, h2, g2, -⟩ := bind_getInto_ok _ _ _ _ h3
  obtain ⟨p1, tops, h1, g1, -⟩ := bind_getInto_ok _ _ _ _ h2
  obtain ⟨off, g0, -⟩ := getInto_ok _ _ _ _ h1
  obtain ⟨e1, l1⟩ := getByteArray_some _ _ _ _ g1
  obtain ⟨e2, l2⟩ := getByteArray_some _ _ _ _ g2
  obtain ⟨e3, l3⟩ := getShortArray_some _ _ _ _ g3
  obtain ⟨e4, l4⟩ := getByteArray_some _ _ _ _ g4
  refine ⟨off, tops, bottoms, counters, flags, m0, m1, m2, r, aud, frac, l1, l2, l3, l4, ?_⟩
  have e0 : inp = Item.short off :: p1.2 := getShort_some inp _ _ g0
  rw [e0, e1, e2, e3, e4, getBool_some _ _ _ g5, getBool_some _ _ _ g6,
    getBool_some _ _ _ g7, getByte_some _ _ _ g8, getLong_some _ _ _ g9,
    getDouble_some _ _ _ g10]

theorem loadFields_ok_layout (t : CartridgeDPC) (inp : Serializer)
    (q : CartridgeDPC × Serializer) (h : t.loadFields inp = Except.ok q) :
    (inp.take 39).map Item.type = snapshotLayout := by
  obtain ⟨off, tops, bottoms, counters, flags, m0, m1, m2, r, aud, frac, l1, l2, l3, l4, e⟩ :=
    loadFields_ok_stream t inp q h
  have e2 : inp = (Item.short off :: (tops.map Item.byte ++ (bottoms.map Item.byte ++
        (counters.map Item.short ++ (flags.map Item.byte ++
          [Item.bool m0, Item.bool m1, Item.bool m2, Item.byte r, Item.long aud,
            Item.double frac]))))) ++ q.2 := by
    rw [e]
    simp only [List.cons_append, List.append_assoc, List.nil_append]
  rw [e2, List.take_left' (by simp [l1, l2, l3, l4])]
  simp only [List.map_cons, List.map_append, map_type_byte, map_type_short,
    l1, l2, l3, l4, Item.type, List.map_nil]
  rfl

theorem load_of_loadFields_ok (t : CartridgeDPC) (inp : Serializer) (q : CartridgeDPC × Serializer)
    (h : t.loadFields inp = Except.ok q) :
    t.load inp = (true, (q.1.bank (q.1.myBankOffset >>> 12)).2, q.2) := by
  unfold load
  rw [h]

theorem load_of_loadFields_error (t : CartridgeDPC) (inp : Serializer) (e : CartridgeDPC)
    (h : t.loadFields inp = Except.error e) : t.load inp = (false, e, inp) := by
  unfold load
  rw [h]

/-- C18 (snapshot field order): `save` appends exactly the items of
`snapshotItems`, namely the short `myBankOffset`, the 8 bytes of `myTops`, the 8
bytes of `myBottoms`, the 8 shorts of `myCounters`, the 8 bytes of `myFlags`,
the 3 booleans of `myMusicMode`, the byte `myRandomNumber`, the 64-bit
`myAudioCycles` and the double `myFractionalClocks`, whose types are the layout
of the spec; `load` reads these items back in the same order into the same
fields, and succeeds only on a stream that starts with this layout. -/
theorem snapshot_field_order (S T : CartridgeDPC) (out rest inp : Serializer) (hS : S.Sized)
    (hT : T.Sized) :
    S.save out = (true, out ++ S.snapshotItems) ∧
    S.snapshotItems =
      Item.short S.myBankOffset :: (S.myTops.map Item.byte ++ (S.myBottoms.map Item.byte ++
        (S.myCounters.map Item.short ++ (S.myFlags.map Item.byte ++
          [Item.bool (S.myMusicMode.getD 0 false), Item.bool (S.myMusicMode.getD 1 false),
           Item.bool (S.myMusicMode.getD 2 false), Item.byte S.myRandomNumber,
           Item.long S.myAudioCycles, Item.double S.myFractionalClocks])))) ∧
    S.snapshotItems.map Item.type = snapshotLayout ∧ S.snapshotItems.length = 39 ∧
    T.load (S.snapshotItems ++ rest) =
      (true, ((T.restored S).bank (S.myBankOffset >>> 12)).2, rest) ∧
    ((T.load inp).1 = false ∨ (inp.take 39).map Item.type = snapshotLayout) := by
  refine ⟨save_snapshotItems S hS out, rfl, snapshotItems_layout S hS, snapshotItems_length S hS,
    ?_, ?_⟩
  · exact load_of_loadFields_ok _ _ _ (loadFields_snapshotItems S T hS hT rest)
  · cases h : T.loadFields inp with
    | error e =>
      left
      rw [load_of_loadFields_error _ _ _ h]
    | ok q =>
      right
      exact loadFields_ok_layout T inp q h

theorem snapshotCart_sized : snapshotCart.Sized :=
  (reachable_invariant _
    (Reachable.poke _ _ _ (Reachable.powerOn exampleImage 10496 System.empty) (by decide))).1

/-- Witness of C18: the snapshot of `snapshotCart`, loaded into `exampleCart`. -/
theorem snapshot_field_order_witness :
    snapshotCart.Sized ∧ exampleCart.Sized ∧
    snapshotCart.save [] = (true, [] ++ snapshotCart.snapshotItems) ∧
    snapshotCart.snapshotItems.map Item.type = snapshotLayout ∧
    exampleCart.load (snapshotCart.snapshotItems ++ []) =
      (true, ((exampleCart.restored snapshotCart).bank (snapshotCart.myBankOffset >>> 12)).2, []) :=
  ⟨snapshotCart_sized, exampleCart_sized,
    (snapshot_field_order snapshotCart exampleCart [] [] [] snapshotCart_sized exampleCart_sized).1,
    (snapshot_field_order snapshotCart exampleCart [] [] [] snapshotCart_sized
      exampleCart_sized).2.2.1,
    (snapshot_field_order snapshotCart exampleCart [] [] [] snapshotCart_sized
      exampleCart_sized).2.2.2.2.1⟩

/-! ## Claim C19: a failed load -/

theorem loadFields_truncated_after_tops (s : CartridgeDPC) (off : Nat) (tops : List Nat)
    (hs : s.Sized) (htl : tops.length = 8) :
    s.loadFields (Item.short off :: tops.map Item.byte) =
      Except.error { s with myBankOffset := off, myTops := tops } := by
  have g1 := getByteArray_map tops []
  rw [htl, List.append_nil] at g1
  have g2 : Serializer.getByteArray 8 ([] : Serializer) = none := rfl
  simp only [loadFields, getInto, bind, Except.bind, Serializer.getShort, g1, g2,
    List.drop_of_length_le (le_of_eq hs.1), List.append_nil]

theorem bind_getInto_invariant {α : Type} (P : CartridgeDPC → Prop)
    (x : Except CartridgeDPC (CartridgeDPC × Serializer))
    (get : Serializer → Option (α × Serializer)) (store : CartridgeDPC → α → CartridgeDPC)
    (hx : (∀ e, x = Except.error e → P e) ∧ (∀ p, x = Except.ok p → P p.1))
    (hstore : ∀ t v, P t → P (store t v)) :
    (∀ e, (x >>= getInto get store) = Except.error e → P e) ∧
    (∀ p, (x >>= getInto get store) = Except.ok p → P p.1) := by
  cases x with
  | error e0 =>
    constructor
    · intro e he
      simp only [bind, Except.bind, Except.error.injEq] at he
      rw [← he]
      exact hx.1 e0 rfl
    · intro p hp
      exact absurd hp (by simp [bind, Except.bind])
  | ok p0 =>
    have hp0 := hx.2 p0 rfl
    simp only [bind, Except.bind, getInto]
    cases get p0.2 with
    | none =>
      constructor
      · intro e he
        simp only [Except.error.injEq] at he
        rw [← he]
        exact hp0
      · intro p hp
        exact absurd hp (by simp)
    | some r =>
      constructor
      · intro e he
        exact absurd he (by simp)
      · intro p hp
        simp only [Except.ok.injEq] at hp
        rw [← hp]
        exact hstore _ _ hp0

theorem bind_getInto_error {α : Type} (P : CartridgeDPC → Prop)
    (x : Except CartridgeDPC (CartridgeDPC × Serializer))
    (get : Serializer → Option (α × Serializer)) (store : CartridgeDPC → α → CartridgeDPC)
    (hx : (∀ e, x = Except.error e → P e) ∧ (∀ p, x = Except.ok p → P p.1))
    (e : CartridgeDPC) (he : (x >>= getInto get store) = Except.error e) : P e := by
  cases x with
  | error e0 =>
    simp only [bind, Except.bind, Except.error.injEq] at he
    rw [← he]
    exact hx.1 e0 rfl
  | ok p0 =>
    have hp0 := hx.2 p0 rfl
    simp only [bind, Except.bind, getInto] at he
    cases hg : get p0.2 with
    | none =>
      rw [hg] at he
      simp only [Except.error.injEq] at he
      rw [← he]
      exact hp0
    | some r =>
      rw [hg] at he
      exact absurd he (by simp)

theorem loadFields_error_keeps (s e : CartridgeDPC) (inp : Serializer)
    (h : s.loadFields inp = Except.error e) :
    e.myImage = s.myImage ∧ e.mySize = s.mySize ∧ e.mySystem = s.mySystem ∧
    e.myBankLocked = s.myBankLocked ∧ e.myStartBank = s.myStartBank ∧
    e.myBankChanged = s.myBankChanged ∧ e.myFractionalClocks = s.myFractionalClocks := by
  unfold loadFields at h
  refine bind_getInto_error (fun e => e.myImage = s.myImage ∧ e.mySize = s.mySize ∧
    e.mySystem = s.mySystem ∧ e.myBankLocked = s.myBankLocked ∧ e.myStartBank = s.myStartBank ∧
    e.myBankChanged = s.myBankChanged ∧ e.myFractionalClocks = s.myFractionalClocks) _ _ _ ?_ e h
  refine bind_getInto_invariant _ _ _ _ ?_ (fun t v ht => ht)
  refine bind_getInto_invariant _ _ _ _ ?_ (fun t v ht => ht)
  refine bind_getInto_invariant _ _ _ _ ?_ (fun t v ht => ht)
  refine bind_getInto_invariant _ _ _ _ ?_ (fun t v ht => ht)
  refine bind_getInto_invariant _ _ _ _ ?_ (fun t v ht => ht)
  refine bind_getInto_invariant _ _ _ _ ?_ (fun t v ht => ht)
  refine bind_getInto_invariant _ _ _ _ ?_ (fun t v ht => ht)
  refine bind_getInto_invariant _ _ _ _ ?_ (fun t v ht => ht)
  refine bind_getInto_invariant _ _ _ _ ?_ (fun t v ht => ht)
  constructor
  · intro e0 he0
    unfold getInto at he0
    split at he0
    · simp only [Except.error.injEq] at he0
      rw [← he0]
      exact ⟨rfl, rfl, rfl, rfl, rfl, rfl, rfl⟩
    · exact absurd he0 (by simp)
  · intro p hp
    unfold getInto at hp
    split at hp
    · exact absurd hp (by simp)
    · simp only [Except.ok.injEq] at hp
      rw [← hp]
      exact ⟨rfl, rfl, rfl, rfl, rfl, rfl, rfl⟩

theorem exampleCart_myRandomNumber : exampleCart.myRandomNumber = 1 := by
  simp [exampleCart, reset, install, initializeStartBank, new]

theorem snapshotCart_eq :
    snapshotCart = exampleCart.clockRandomNumberGenerator.writeFunction 0 0 0x21 :=
  poke_write exampleCart 0x1040 0x21 0 0 (by decide) (by decide) (by decide)

theorem snapshotCart_myTops : snapshotCart.myTops = (List.replicate 8 0).set 0 0x21 := by
  rw [snapshotCart_eq]
  simp only [writeFunction, clockRandomNumberGenerator_myTops, exampleCart_myTops]

theorem snapshotCart_myRandomNumber : snapshotCart.myRandomNumber = 3 := by
  rw [snapshotCart_eq]
  simp only [writeFunction, clockRandomNumberGenerator_myRandomNumber, exampleCart_myRandomNumber]
  decide

/-- C19 as stated fails: when the stream ends after the tops array, `load`
returns false and leaves a mixture: the bank offset and the tops are the values
just read, while the random number keeps its old value 3; the state is neither
the reset state nor the power-on state. -/
theorem load_failure_counterexample :
    (snapshotCart.load truncatedStream).1 = false ∧
    (snapshotCart.load truncatedStream).2.1.myTops = List.replicate 8 7 ∧
    (snapshotCart.load truncatedStream).2.1.myBankOffset = 0 ∧
    snapshotCart.myTops ≠ List.replicate 8 7 ∧
    (snapshotCart.load truncatedStream).2.1.myRandomNumber = 3 ∧
    (snapshotCart.load truncatedStream).2.1.myTops ≠ snapshotCart.reset.myTops ∧
    (snapshotCart.load truncatedStream).2.1.myTops ≠ exampleCart.myTops := by
  have hl : snapshotCart.load truncatedStream =
      (false, { snapshotCart with myBankOffset := 0, myTops := List.replicate 8 7 },
        truncatedStream) :=
    load_of_loadFields_error _ _ _
      (loadFields_truncated_after_tops snapshotCart 0 (List.replicate 8 7) snapshotCart_sized
        (by decide))
  rw [hl]
  refine ⟨rfl, rfl, rfl, ?_, snapshotCart_myRandomNumber, ?_, ?_⟩
  · rw [snapshotCart_myTops]; decide
  · have e : snapshotCart.reset.myTops = snapshotCart.myTops := by
      simp [reset, initializeStartBank]
    rw [e, snapshotCart_myTops]
    decide
  · rw [exampleCart_myTops]
    decide

theorem isSome_eq_false_iff {α : Type} (o : Option α) : o.isSome = false ↔ o = none := by
  cases o <;> simp

theorem getShort_cons (v : Nat) (r : Serializer) :
    Serializer.getShort (Item.short v :: r) = some (v, r) := rfl

theorem getBool_cons (b : Bool) (r : Serializer) :
    Serializer.getBool (Item.bool b :: r) = some (b, r) := rfl

theorem getByte_cons (v : Nat) (r : Serializer) :
    Serializer.getByte (Item.byte v :: r) = some (v, r) := rfl

theorem getLong_cons (v : Nat) (r : Serializer) :
    Serializer.getLong (Item.long v :: r) = some (v, r) := rfl

theorem loadFields_of_reads (s v : CartridgeDPC) (k : Nat) (rest : Serializer) (hs : s.Sized)
    (hv : v.Sized) (hk : k ≤ 10) (hr : readSucceeds k rest = false) :
    s.loadFields (itemsOfReads k v ++ rest) = Except.error (storedReads k s v) := by
  obtain ⟨s1, s2, s3, s4, s5⟩ := hs
  obtain ⟨v1, v2, v3, v4, v5⟩ := hv
  have g1 := getByteArray_map v.myTops
  have g2 := getByteArray_map v.myBottoms
  have g3 := getShortArray_map v.myCounters
  have g4 := getByteArray_map v.myFlags
  rw [v1] at g1
  rw [v2] at g2
  rw [v3] at g3
  rw [v4] at g4
  obtain ⟨a, b, c, hm⟩ := List.length_eq_three.mp s5
  cases s
  simp only [] at hm s1 s2 s3 s4
  subst hm
  interval_cases k <;>
    simp only [readSucceeds, isSome_eq_false_iff] at hr <;>
    simp only [loadFields, itemsOfReads, storedReads, getInto, bind, Except.bind,
      List.cons_append, List.append_assoc, List.nil_append, getShort_cons, g1, g2, g3, g4,
      getBool_cons, getByte_cons, getLong_cons, hr,
      List.drop_of_length_le (le_of_eq s1), List.drop_of_length_le (le_of_eq s2),
      List.drop_of_length_le (le_of_eq s3), List.drop_of_length_le (le_of_eq s4),
      List.append_nil, Nat.lt_irrefl, Nat.not_lt_zero, if_false, if_true, List.set_cons_zero,
      List.set_cons_succ, List.getD_cons_zero, List.getD_cons_succ, Nat.reduceLT, reduceIte,
      List.singleton_append]

theorem stream_split (inp : Serializer) :
    (∃ k v rest, k ≤ 10 ∧ Sized v ∧ inp = itemsOfReads k v ++ rest ∧
      readSucceeds k rest = false) ∨
    (∃ v rest, Sized v ∧ inp = snapshotItems v ++ rest) := by
  rcases g0 : Serializer.getShort inp with _ | ⟨off, r1⟩
  · exact Or.inl ⟨0, new [] 0, inp, by norm_num, ⟨rfl, rfl, rfl, rfl, rfl⟩, rfl,
      by simp only [readSucceeds, g0, Option.isSome_none]⟩
  have e0 := getShort_some _ _ _ g0
  subst e0
  rcases g1 : Serializer.getByteArray 8 r1 with _ | ⟨tops, r2⟩
  · exact Or.inl ⟨1,
      { new [] 0 with
        myBankOffset := off },
      r1, by norm_num, ⟨rfl, rfl, rfl, rfl, rfl⟩,
      by simp only [itemsOfReads, Nat.reduceLT, reduceIte, List.cons_append, List.append_assoc,
        List.nil_append, List.singleton_append, List.getD_cons_zero, List.getD_cons_succ,
        List.append_nil, Nat.lt_irrefl, if_false, if_true],
      by simp only [readSucceeds, g1, Option.isSome_none]⟩
  obtain ⟨e1, l1⟩ := getByteArray_some _ _ _ _ g1
  subst e1
  rcases g2 : Serializer.getByteArray 8 r2 with _ | ⟨bottoms, r3⟩
  · exact Or.inl ⟨2,
      { new [] 0 with
        myBankOffset := off
        myTops := tops },
      r2, by norm_num, ⟨l1, rfl, rfl, rfl, rfl⟩,
      by simp only [itemsOfReads, Nat.reduceLT, reduceIte, List.cons_append, List.append_assoc,
        List.nil_append, List.singleton_append, List.getD_cons_zero, List.getD_cons_succ,
        List.append_nil, Nat.lt_irrefl, if_false, if_true],
      by simp only [readSucceeds, g2, Option.isSome_none]⟩
  obtain ⟨e2, l2⟩ := getByteArray_some _ _ _ _ g2
  subst e2
  rcases g3 : Serializer.getShortArray 8 r3 with _ | ⟨counters, r4⟩
  · exact Or.inl ⟨3,
      { new [] 0 with
        myBankOffset := off
        myTops := tops
        myBottoms := bottoms },
      r3, by norm_num, ⟨l1, l2, rfl, rfl, rfl⟩,
      by simp only [itemsOfReads, Nat.reduceLT, reduceIte, List.cons_append, List.append_assoc,
        List.nil_append, List.singleton_append, List.getD_cons_zero, List.getD_cons_succ,
        List.append_nil, Nat.lt_irrefl, if_false, if_true],
      by simp only [readSucceeds, g3, Option.isSome_none]⟩
  obtain ⟨e3, l3⟩ := getShortArray_some _ _ _ _ g3
  subst e3
  rcases g4 : Serializer.getByteArray 8 r4 with _ | ⟨flags, r5⟩
  · exact Or.inl ⟨4,
      { new [] 0 with
        myBankOffset := off
        myTops := tops
        myBottoms := bottoms
        myCounters := counters },
      r4, by norm_num, ⟨l1, l2, l3, rfl, rfl⟩,
      by simp only [itemsOfReads, Nat.reduceLT, reduceIte, List.cons_append, List.append_assoc,
        List.nil_append, List.singleton_append, List.getD_cons_zero, List.getD_cons_succ,
        List.append_nil, Nat.lt_irrefl, if_false, if_true],
      by simp only [readSucceeds, g4, Option.isSome_none]⟩
  obtain ⟨e4, l4⟩ := getByteArray_some _ _ _ _ g4
  subst e4
  rcases g5 : Serializer.getBool r5 with _ | ⟨m0, r6⟩
  · exact Or.inl ⟨5,
      { new [] 0 with
        myBankOffset := off
        myTops := tops
        myBottoms := bottoms
        myCounters := counters
        myFlags := flags },
      r5, by norm_num, ⟨l1, l2, l3, l4, rfl⟩,
      by simp only [itemsOfReads, Nat.reduceLT, reduceIte, List.cons_append, List.append_assoc,
        List.nil_append, List.singleton_append, List.getD_cons_zero, List.getD_cons_succ,
        List.append_nil, Nat.lt_irrefl, if_false, if_true],
      by simp only [readSucceeds, g5, Option.isSome_none]⟩
  have e5 := getBool_some _ _ _ g5
  subst e5
  rcases g6 : Serializer.getBool r6 with _ | ⟨m1, r7⟩
  · exact Or.inl ⟨6,
      { new [] 0 with
        myBankOffset := off
        myTops := tops
        myBottoms := bottoms
        myCounters := counters
        myFlags := flags
        myMusicMode := [m0, false, false] },
      r6, by norm_num, ⟨l1, l2, l3, l4, rfl⟩,
      by simp only [itemsOfReads, Nat.reduceLT, reduceIte, List.cons_append, List.append_assoc,
        List.nil_append, List.singleton_append, List.getD_cons_zero, List.getD_cons_succ,
        List.append_nil, Nat.lt_irrefl, if_false, if_true],
      by simp only [readSucceeds, g6, Option.isSome_none]⟩
  have e6 := getBool_some _ _ _ g6
  subst e6
  rcases g7 : Serializer.getBool r7 with _ | ⟨m2, r8⟩
  · exact Or.inl ⟨7,
      { new [] 0 with
        myBankOffset := off
        myTops := tops
        myBottoms := bottoms
        myCounters := counters
        myFlags := flags
        myMusicMode := [m0, m1, false] },
      r7, by norm_num, ⟨l1, l2, l3, l4, rfl⟩,
      by simp only [itemsOfReads, Nat.reduceLT, reduceIte, List.cons_append, List.append_assoc,
        List.nil_append, List.singleton_append, List.getD_cons_zero, List.getD_cons_succ,
        List.append_nil, Nat.lt_irrefl, if_false, if_true],
      by simp only [readSucceeds, g7, Option.isSome_none]⟩
  have e7 := getBool_some _ _ _ g7
  subst e7
  rcases g8 : Serializer.getByte r8 with _ | ⟨rnd, r9⟩
  · exact Or.inl ⟨8,
      { new [] 0 with
        myBankOffset := off
        myTops := tops
        myBottoms := bottoms
        myCounters := counters
        myFlags := flags
        myMusicMode := [m0, m1, m2] },
      r8, by norm_num, ⟨l1, l2, l3, l4, rfl⟩,
      by simp only [itemsOfReads, Nat.reduceLT, reduceIte, List.cons_append, List.append_assoc,
        List.nil_append, List.singleton_append, List.getD_cons_zero, List.getD_cons_succ,
        List.append_nil, Nat.lt_irrefl, if_false, if_true],
      by simp only [readSucceeds, g8, Option.isSome_none]⟩
  have e8 := getByte_some _ _ _ g8
  subst e8
  rcases g9 : Serializer.getLong r9 with _ | ⟨aud, r10⟩
  · exact Or.inl ⟨9,
      { new [] 0 with
        myBankOffset := off
        myTops := tops
        myBottoms := bottoms
        myCounters := counters
        myFlags := flags
        myRandomNumber := rnd
        myMusicMode := [m0, m1, m2] },
      r9, by norm_num, ⟨l1, l2, l3, l4, rfl⟩,
      by simp only [itemsOfReads, Nat.reduceLT, reduceIte, List.cons_append, List.append_assoc,
        List.nil_append, List.singleton_append, List.getD_cons_zero, List.getD_cons_succ,
        List.append_nil, Nat.lt_irrefl, if_false, if_true],
      by simp only [readSucceeds, g9, Option.isSome_none]⟩
  have e9 := getLong_some _ _ _ g9
  subst e9
  rcases g10 : Serializer.getDouble r10 with _ | ⟨frac, r11⟩
  · exact Or.inl ⟨10,
      { new [] 0 with
        myBankOffset := off
        myTops := tops
        myBottoms := bottoms
        myCounters := counters
        myFlags := flags
        myRandomNumber := rnd
        myAudioCycles := aud
        myMusicMode := [m0, m1, m2] },
      r10, by norm_num, ⟨l1, l2, l3, l4, rfl⟩,
      by simp only [itemsOfReads, Nat.reduceLT, reduceIte, List.cons_append, List.append_assoc,
        List.nil_append, List.singleton_append, List.getD_cons_zero, List.getD_cons_succ,
        List.append_nil, Nat.lt_irrefl, if_false, if_true],
      by simp only [readSucceeds, g10, Option.isSome_none]⟩
  have e10 := getDouble_some _ _ _ g10
  subst e10
  exact Or.inr ⟨
    { new [] 0 with
      myBankOffset := off
      myTops := tops
      myBottoms := bottoms
      myCounters := counters
      myFlags := flags
      myRandomNumber := rnd
      myAudioCycles := aud
      myFractionalClocks := frac
      myMusicMode := [m0, m1, m2] },
    r11, ⟨l1, l2, l3, l4, rfl⟩,
    by simp only [snapshotItems, List.cons_append, List.append_assoc, List.nil_append,
      List.singleton_append, List.getD_cons_zero, List.getD_cons_succ]⟩

/-- C19 (amended): when a read fails, `load` returns false without calling
`bank`, and the state it leaves is the prior state with the fields read before
the failure overwritten by the values read: the stream is the items of the
first `k` reads (`k <= 10`) followed by a rest on which read number `k` fails,
and the state left is `storedReads k s v`, `v` holding the values read.  This
holds for every failing stream and for every `k`.  The image, the bus with its
page table, the lock and `myFractionalClocks` (the field read last) keep their
old values; e.g. when the stream ends after the tops array, `myBankOffset` and
`myTops` hold the values read and every other field its old value. -/
theorem load_failure_keeps_reads (s : CartridgeDPC) (inp : Serializer) (off : Nat) (tops : List Nat)
    (hs : s.Sized) (htl : tops.length = 8) (hf : (s.load inp).1 = false) :
    (s.load inp).2.1.myImage = s.myImage ∧ (s.load inp).2.1.mySystem = s.mySystem ∧
    (s.load inp).2.1.myBankLocked = s.myBankLocked ∧
    (s.load inp).2.1.myBankChanged = s.myBankChanged ∧
    (s.load inp).2.1.myFractionalClocks = s.myFractionalClocks ∧
    s.load (Item.short off :: tops.map Item.byte) =
      (false, { s with myBankOffset := off, myTops := tops },
        Item.short off :: tops.map Item.byte) ∧
    (∃ k v rest, k ≤ 10 ∧ Sized v ∧ inp = itemsOfReads k v ++ rest ∧
      readSucceeds k rest = false ∧ s.load inp = (false, storedReads k s v, inp)) ∧
    (∀ k v rest, k ≤ 10 → Sized v → readSucceeds k rest = false →
      s.load (itemsOfReads k v ++ rest) =
        (false, storedReads k s v, itemsOfReads k v ++ rest)) := by
  have h2 := load_of_loadFields_error _ _ _ (loadFields_truncated_after_tops s off tops hs htl)
  have hall : ∀ k v rest, k ≤ 10 → Sized v → readSucceeds k rest = false →
      s.load (itemsOfReads k v ++ rest) =
        (false, storedReads k s v, itemsOfReads k v ++ rest) :=
    fun k v rest hk hv hr =>
      load_of_loadFields_error _ _ _ (loadFields_of_reads s v k rest hs hv hk hr)
  cases h : s.loadFields inp with
  | error e =>
    obtain ⟨k1, -, k3, k4, -, k6, k7⟩ := loadFields_error_keeps s e inp h
    rw [load_of_loadFields_error _ _ _ h]
    refine ⟨k1, k3, k4, k6, k7, h2, ?_, hall⟩
    rcases stream_split inp with ⟨k, v, rest, hk, hv, hi, hr⟩ | ⟨v, rest, hv, hi⟩
    · have hp := loadFields_of_reads s v k rest hs hv hk hr
      rw [← hi, h] at hp
      simp only [Except.error.injEq] at hp
      exact ⟨k, v, rest, hk, hv, hi, hr, by rw [hp]⟩
    · have hp := loadFields_snapshotItems v s hv hs rest
      rw [← hi, h] at hp
      exact absurd hp (by simp)
  | ok q =>
    rw [load_of_loadFields_ok _ _ _ h] at hf
    exact absurd hf (by simp)

theorem truncatedStream_load_false : (snapshotCart.load truncatedStream).1 = false :=
  congrArg Prod.fst (load_of_loadFields_error _ _ _
    (loadFields_truncated_after_tops snapshotCart 0 (List.replicate 8 7) snapshotCart_sized
      (by decide)))

/-- Witness of the amended C19: the truncated stream loaded into
`snapshotCart`; the stream is the items of two reads followed by a rest on
which the third read fails. -/
theorem load_failure_keeps_reads_witness :
    snapshotCart.Sized ∧ (List.replicate 8 7).length = 8 ∧
    (snapshotCart.load truncatedStream).1 = false ∧
    (snapshotCart.load truncatedStream).2.1.myFractionalClocks =
      snapshotCart.myFractionalClocks ∧
    snapshotCart.load (Item.short 0 :: (List.replicate 8 7).map Item.byte) =
      (false, { snapshotCart with myBankOffset := 0, myTops := List.replicate 8 7 },
        Item.short 0 :: (List.replicate 8 7).map Item.byte) ∧
    (∃ k v rest, k ≤ 10 ∧ Sized v ∧ truncatedStream = itemsOfReads k v ++ rest ∧
      readSucceeds k rest = false ∧
      snapshotCart.load truncatedStream = (false, storedReads k snapshotCart v, truncatedStream)) :=
  ⟨snapshotCart_sized, by decide, truncatedStream_load_false,
    (load_failure_keeps_reads snapshotCart truncatedStream 0 (List.replicate 8 7) snapshotCart_sized
      (by decide) truncatedStream_load_false).2.2.2.2.1,
    (load_failure_keeps_reads snapshotCart truncatedStream 0 (List.replicate 8 7) snapshotCart_sized
      (by decide) truncatedStream_load_false).2.2.2.2.2.1,
    (load_failure_keeps_reads snapshotCart truncatedStream 0 (List.replicate 8 7) snapshotCart_sized
      (by decide) truncatedStream_load_false).2.2.2.2.2.2.1⟩

/-! ## Claim C20: `poke` under the lock -/

theorem exampleCart_lockedCart_fields :
    lockedCart.myTops = exampleCart.myTops ∧ lockedCart.myRandomNumber = exampleCart.myRandomNumber :=
  ⟨rfl, rfl⟩

/-- C20 as stated fails: on the locked example state `poke(0x1040, 0x21)` writes
0x21 into `myTops[0]`, which held 0, and clocks `myRandomNumber` from 1 to 3. -/
theorem poke_locked_counterexample :
    lockedCart.bankLocked = true ∧ lockedCart.myTops.getD 0 0 = 0 ∧
    (lockedCart.poke 0x1040 0x21).2.myTops.getD 0 0 = 0x21 ∧
    lockedCart.myRandomNumber = 1 ∧ (lockedCart.poke 0x1040 0x21).2.myRandomNumber = 3 := by
  have e := poke_write lockedCart 0x1040 0x21 0 0 (by decide) (by decide) (by decide)
  have ht : lockedCart.myTops = List.replicate 8 0 :=
    exampleCart_lockedCart_fields.1.trans exampleCart_myTops
  have hr : lockedCart.myRandomNumber = 1 :=
    exampleCart_lockedCart_fields.2.trans exampleCart_myRandomNumber
  refine ⟨rfl, ?_, ?_, hr, ?_⟩
  · rw [ht]; decide
  · rw [e]
    simp only [writeFunction, clockRandomNumberGenerator_myTops, ht]
    decide
  · rw [e]
    simp only [writeFunction, clockRandomNumberGenerator_myRandomNumber, hr]
    decide

theorem switchBanks_of_locked (s : CartridgeDPC) (a : Nat) (h : s.bankLocked = true) :
    s.switchBanks a = s := by
  unfold switchBanks
  split_ifs <;> simp [bank, h]

/-- C20 (amended): with `bankLocked` set, `poke(a, v)` returns false and leaves
the bank offset, the bus page table and the lock unchanged (the hot-spot switch
is refused by `bank`), but it is not a no-op: it clocks `myRandomNumber`, and
for offsets 0x40 to 0x7F it performs the write function on the registers; for
every other offset the state afterwards is the prior state with
`myRandomNumber` clocked once. -/
theorem poke_locked (s : CartridgeDPC) (a v : Nat) (h : s.bankLocked = true) :
    (s.poke a v).1 = false ∧ (s.poke a v).2.myBankOffset = s.myBankOffset ∧
    (s.poke a v).2.mySystem = s.mySystem ∧ (s.poke a v).2.myBankLocked = s.myBankLocked ∧
    (s.poke a v).2 =
      (if 0x0040 ≤ (a &&& 0x0FFF) ∧ (a &&& 0x0FFF) < 0x0080 then
        s.clockRandomNumberGenerator.writeFunction ((a &&& 0x0FFF) &&& 0x07)
          (((a &&& 0x0FFF) >>> 3) &&& 0x07) v
       else s.clockRandomNumberGenerator) := by
  have hl : s.clockRandomNumberGenerator.bankLocked = true := by simpa [bankLocked] using h
  have e : (s.poke a v).2 =
      (if 0x0040 ≤ (a &&& 0x0FFF) ∧ (a &&& 0x0FFF) < 0x0080 then
        s.clockRandomNumberGenerator.writeFunction ((a &&& 0x0FFF) &&& 0x07)
          (((a &&& 0x0FFF) >>> 3) &&& 0x07) v
       else s.clockRandomNumberGenerator) := by
    rw [poke_eq, switchBanks_of_locked _ _ hl]
  refine ⟨by rw [poke_eq], ?_, ?_, ?_, e⟩
  · rw [e]; split <;> simp
  · rw [e]; split <;> simp
  · rw [e]; split <;> simp

/-- Witness of the amended C20 at the locked example state. -/
theorem poke_locked_witness :
    lockedCart.bankLocked = true ∧
    (lockedCart.poke 0x1FF8 0).1 = false ∧
    (lockedCart.poke 0x1FF8 0).2.myBankOffset = lockedCart.myBankOffset ∧
    (lockedCart.poke 0x1FF8 0).2.mySystem = lockedCart.mySystem :=
  ⟨rfl, (poke_locked lockedCart 0x1FF8 0 rfl).1, (poke_locked lockedCart 0x1FF8 0 rfl).2.1,
    (poke_locked lockedCart 0x1FF8 0 rfl).2.2.1⟩

/-! ## Claims C21, C22, C23: power-on, reset and the hot spots -/

theorem reset_fields (s : CartridgeDPC) :
    s.reset.myAudioCycles = 0 ∧ s.reset.myFractionalClocks = 0 ∧ s.reset.myStartBank = 1 ∧
    s.reset.myTops = s.myTops ∧ s.reset.myBottoms = s.myBottoms ∧
    s.reset.myCounters = s.myCounters ∧ s.reset.myFlags = s.myFlags ∧
    s.reset.myMusicMode = s.myMusicMode ∧ s.reset.myRandomNumber = s.myRandomNumber ∧
    s.reset.myImage = s.myImage ∧ s.reset.myBankLocked = s.myBankLocked := by
  simp [reset, initializeStartBank]

theorem reset_getBank_of_unlocked (s : CartridgeDPC) (h : s.bankLocked = false) :
    s.reset.getBank = 1 ∧ s.reset.myBankOffset = 4096 := by
  have hl : bankLocked ({ s with myAudioCycles := 0, myFractionalClocks := 0 }.initializeStartBank 1)
      = false := h
  have hb := bank_of_unlocked _ 1 hl
  have e : s.reset.myBankOffset = 4096 := by
    unfold reset
    simp only [startBank, initializeStartBank]
    exact hb.2.1
  exact ⟨by rw [getBank, e]; decide, e⟩

theorem install_fields (s : CartridgeDPC) (system : System) :
    (s.install system).myAudioCycles = s.myAudioCycles ∧
    (s.install system).myTops = s.myTops ∧ (s.install system).myBottoms = s.myBottoms ∧
    (s.install system).myCounters = s.myCounters ∧ (s.install system).myFlags = s.myFlags ∧
    (s.install system).myMusicMode = s.myMusicMode ∧
    (s.install system).myRandomNumber = s.myRandomNumber ∧
    (s.install system).myImage = s.myImage ∧
    (s.install system).myBankLocked = s.myBankLocked := by
  simp [install]

/-- C21 (power-on state): for every image, after construction followed by
`reset()`, with or without `install` in between, the cartridge is unlocked,
`getBank()` is 1, `myRandomNumber` is 1, the tops, bottoms, flags and counters
are all 0, no fetcher is in music mode, and `myAudioCycles` and
`myFractionalClocks` are 0. -/
theorem power_on_state (image : List Nat) (size : Nat) (system : System) :
    ((new image size).reset.bankLocked = false ∧ (new image size).reset.getBank = 1 ∧
     (new image size).reset.myRandomNumber = 1 ∧
     (new image size).reset.myTops = List.replicate 8 0 ∧
     (new image size).reset.myBottoms = List.replicate 8 0 ∧
     (new image size).reset.myFlags = List.replicate 8 0 ∧
     (new image size).reset.myCounters = List.replicate 8 0 ∧
     (new image size).reset.myMusicMode = [false, false, false] ∧
     (new image size).reset.myAudioCycles = 0 ∧ (new image size).reset.myFractionalClocks = 0) ∧
    (((new image size).install system).reset.bankLocked = false ∧
     ((new image size).install system).reset.getBank = 1 ∧
     ((new image size).install system).reset.myRandomNumber = 1 ∧
     ((new image size).install system).reset.myTops = List.replicate 8 0 ∧
     ((new image size).install system).reset.myBottoms = List.replicate 8 0 ∧
     ((new image size).install system).reset.myFlags = List.replicate 8 0 ∧
     ((new image size).install system).reset.myCounters = List.replicate 8 0 ∧
     ((new image size).install system).reset.myMusicMode = [false, false, false] ∧
     ((new image size).install system).reset.myAudioCycles = 0 ∧
     ((new image size).install system).reset.myFractionalClocks = 0) := by
  have hn : (new image size).bankLocked = false := rfl
  obtain ⟨a1, a2, -, a4, a5, a6, a7, a8, a9, -, a11⟩ := reset_fields (new image size)
  obtain ⟨i1, i2, i3, i4, i5, i6, i7, -, i9⟩ := install_fields (new image size) system
  have hi : ((new image size).install system).bankLocked = false := i9
  obtain ⟨b1, b2, -, b4, b5, b6, b7, b8, b9, -, b11⟩ :=
    reset_fields ((new image size).install system)
  refine ⟨⟨a11, (reset_getBank_of_unlocked _ hn).1, a9, a4, a5, a7, a6, a8, a1, a2⟩,
    ⟨b11.trans i9, (reset_getBank_of_unlocked _ hi).1, b9.trans i7, b4.trans i2, b5.trans i3,
      b7.trans i5, b6.trans i4, b8.trans i6, b1, b2⟩⟩

/-- C22 as stated fails: `snapshotCart` is reached from power-on by one poke,
and after `reset()` its top register 0 still holds 0x21 and its random number
is still 3, not the power-on values 0 and 1. -/
theorem reset_power_on_counterexample :
    Reachable snapshotCart ∧ snapshotCart.bankLocked = false ∧
    snapshotCart.reset.myTops.getD 0 0 = 0x21 ∧ snapshotCart.reset.myRandomNumber = 3 := by
  obtain ⟨-, -, -, a4, -, -, -, -, a9, -, -⟩ := reset_fields snapshotCart
  refine ⟨Reachable.poke _ _ _ (Reachable.powerOn exampleImage 10496 System.empty) (by decide),
    ?_, ?_, ?_⟩
  · exact (poke_lengths exampleCart 0x1040 0x21).2.2.2.2.2.2.trans exampleCart_bankLocked
  · rw [a4, snapshotCart_myTops]; decide
  · rw [a9, snapshotCart_myRandomNumber]

/-- C22 (amended): for every unlocked state, after `reset()` `myAudioCycles`
and `myFractionalClocks` are 0 and the active bank is the start bank 1; the
random number, tops, bottoms, flags, counters and music modes keep the values
they had before the reset. -/
theorem reset_clears_clock_and_bank (s : CartridgeDPC) (h : s.bankLocked = false) :
    s.reset.myAudioCycles = 0 ∧ s.reset.myFractionalClocks = 0 ∧
    s.reset.getBank = s.reset.startBank ∧ s.reset.startBank = 1 ∧
    s.reset.myRandomNumber = s.myRandomNumber ∧ s.reset.myTops = s.myTops ∧
    s.reset.myBottoms = s.myBottoms ∧ s.reset.myFlags = s.myFlags ∧
    s.reset.myCounters = s.myCounters ∧ s.reset.myMusicMode = s.myMusicMode := by
  obtain ⟨a1, a2, a3, a4, a5, a6, a7, a8, a9, -, -⟩ := reset_fields s
  have hs : s.reset.startBank = 1 := a3
  exact ⟨a1, a2, by rw [hs]; exact (reset_getBank_of_unlocked s h).1, hs, a9, a4, a5, a7, a6, a8⟩

theorem snapshotCart_bankLocked : snapshotCart.bankLocked = false :=
  (poke_lengths exampleCart 0x1040 0x21).2.2.2.2.2.2.trans exampleCart_bankLocked

/-- Witness of the amended C22 at `snapshotCart`. -/
theorem reset_clears_clock_and_bank_witness :
    snapshotCart.bankLocked = false ∧
    (snapshotCart.reset.myAudioCycles = 0 ∧ snapshotCart.reset.myFractionalClocks = 0 ∧
     snapshotCart.reset.getBank = snapshotCart.reset.startBank ∧
     snapshotCart.reset.startBank = 1 ∧
     snapshotCart.reset.myRandomNumber = snapshotCart.myRandomNumber ∧
     snapshotCart.reset.myTops = snapshotCart.myTops ∧
     snapshotCart.reset.myBottoms = snapshotCart.myBottoms ∧
     snapshotCart.reset.myFlags = snapshotCart.myFlags ∧
     snapshotCart.reset.myCounters = snapshotCart.myCounters ∧
     snapshotCart.reset.myMusicMode = snapshotCart.myMusicMode) :=
  ⟨snapshotCart_bankLocked, reset_clears_clock_and_bank snapshotCart snapshotCart_bankLocked⟩

theorem peek_hotspot_state (s : CartridgeDPC) (a : Nat) (h : s.bankLocked = false)
    (ha : a &&& 0x0FFF = 0x0FF8 ∨ a &&& 0x0FFF = 0x0FF9) :
    (s.peek a).2.bankLocked = false ∧ (s.peek a).2.myImage = s.myImage ∧
    (s.peek a).2.myBankOffset = (if a &&& 0x0FFF = 0x0FF8 then 0 else 4096) := by
  have hl : s.clockRandomNumberGenerator.bankLocked = false := h
  have hlt : ¬ (a &&& 0x0FFF) < 0x0040 := by omega
  obtain ⟨-, -, -, -, -, k6, k7⟩ := peek_lengths s a
  refine ⟨k7.trans h, k6, ?_⟩
  rw [peek_rom_of_unlocked s a h hlt]
  simp only []
  rw [switchBanks_myBankOffset _ _ hl]
  rcases ha with ha | ha <;> simp [ha]

/-- C23 (hot-spot idempotence): on an unlocked cartridge, after one
`peek(0x1FF8)` a second `peek(0x1FF8)` returns `myProgramImage[0x0FF8]`, the
byte of the lower bank, as the first did, and leaves bank 0 active; likewise
after one `peek(0x1FF9)` a second returns `myProgramImage[4096 + 0x0FF9]` and
leaves bank 1 active. -/
theorem hotspot_idempotent (s : CartridgeDPC) (h : s.bankLocked = false) :
    ((s.peek 0x1FF8).2.peek 0x1FF8).1 = s.myProgramImage 0x0FF8 ∧
    ((s.peek 0x1FF8).2.peek 0x1FF8).1 = (s.peek 0x1FF8).1 ∧
    ((s.peek 0x1FF8).2.peek 0x1FF8).2.getBank = 0 ∧
    ((s.peek 0x1FF9).2.peek 0x1FF9).1 = s.myProgramImage (4096 + 0x0FF9) ∧
    ((s.peek 0x1FF9).2.peek 0x1FF9).1 = (s.peek 0x1FF9).1 ∧
    ((s.peek 0x1FF9).2.peek 0x1FF9).2.getBank = 1 := by
  have h8 : (0x1FF8 &&& 0x0FFF) = 0x0FF8 := by decide
  have h9 : (0x1FF9 &&& 0x0FFF) = 0x0FF9 := by decide
  obtain ⟨l8, i8, -⟩ := peek_hotspot_state s 0x1FF8 h (Or.inl h8)
  obtain ⟨l9, i9, -⟩ := peek_hotspot_state s 0x1FF9 h (Or.inr h9)
  obtain ⟨-, -, o8⟩ := peek_hotspot_state (s.peek 0x1FF8).2 0x1FF8 l8 (Or.inl h8)
  obtain ⟨-, -, o9⟩ := peek_hotspot_state (s.peek 0x1FF9).2 0x1FF9 l9 (Or.inr h9)
  have v8 := peek_hotspot_value s 0x1FF8 h (Or.inl h8)
  have v9 := peek_hotspot_value s 0x1FF9 h (Or.inr h9)
  have w8 := peek_hotspot_value (s.peek 0x1FF8).2 0x1FF8 l8 (Or.inl h8)
  have w9 := peek_hotspot_value (s.peek 0x1FF9).2 0x1FF9 l9 (Or.inr h9)
  rw [myProgramImage_congr _ s i8] at w8
  rw [myProgramImage_congr _ s i9] at w9
  simp only [h8, h9, if_true] at v8 w8 o8
  have n9 : ¬ ((0x0FF9 : Nat) = 0x0FF8) := by decide
  simp only [h9, n9, if_false] at v9 w9 o9
  refine ⟨by simpa using w8, by rw [w8, v8], by rw [getBank, o8]; decide, w9, by rw [w9, v9],
    by rw [getBank, o9]; decide⟩

/-- Witness of C23 at the power-on example state. -/
theorem hotspot_idempotent_witness :
    exampleCart.bankLocked = false ∧
    ((exampleCart.peek 0x1FF8).2.peek 0x1FF8).1 = exampleCart.myProgramImage 0x0FF8 ∧
    ((exampleCart.peek 0x1FF8).2.peek 0x1FF8).2.getBank = 0 :=
  ⟨exampleCart_bankLocked, (hotspot_idempotent exampleCart exampleCart_bankLocked).1,
    (hotspot_idempotent exampleCart exampleCart_bankLocked).2.2.1⟩

/-! ## Claim C28: the shift register against its definition -/

set_option maxRecDepth 100000 in
/-- C28 (LFSR step equals its definition): for every byte `r`,
`clockRandomNumberGenerator` maps `r` to `((r << 1) | bit) mod 256` with `bit`
the NOT of the XOR of bits 7, 5, 4, 3 of `r`; the table index is built from
these four bits, and each of the 16 entries of the table `f` is the complement
of the parity of its index. -/
theorem lfsr_step_refines_definition :
    (∀ r, r < 256 → nextRandom r = shiftRegisterStep r) ∧
    (∀ r, r < 256 →
      (((r >>> 3) &&& 0x07) ||| (if r &&& 0x80 ≠ 0 then 0x08 else 0x00) : Nat) =
        (if r.testBit 7 then 8 else 0) + (if r.testBit 5 then 4 else 0) +
        (if r.testBit 4 then 2 else 0) + (if r.testBit 3 then 1 else 0)) ∧
    (∀ k, k < 16 → f.getD k 0 = if parity4 k then 0 else 1) := by
  decide

theorem exampleCart_myCounters : exampleCart.myCounters = List.replicate 8 0 := by
  simp [exampleCart, reset, install, initializeStartBank, new]

/-! ## Claim C27: the comparator -/

theorem read_decode (i k : Nat) (hi : i < 8) (hk : k < 8) :
    (8 * k + i) &&& 0x07 = i ∧ ((8 * k + i) >>> 3) &&& 0x07 = k := by
  interval_cases i <;> interval_cases k <;> decide

theorem peek_read (s : CartridgeDPC) (a i k : Nat) (h : s.bankLocked = false) (hi : i < 8)
    (hk : k < 8) (ha : a &&& 0x0FFF = 8 * k + i) :
    s.peek a = (((s.clockRandomNumberGenerator.updateFlag i).readFunction i k).1,
      ((s.clockRandomNumberGenerator.updateFlag i).readFunction i k).2.clockCounter i) := by
  rw [peek_dpc_of_unlocked s a h (by omega), ha, (read_decode i k hi hk).1,
    (read_decode i k hi hk).2]

theorem updateFlag_myFlags_getD (s : CartridgeDPC) (i : Nat) (hi : i < s.myFlags.length) :
    (s.updateFlag i).myFlags.getD i 0 =
      if (s.myCounters.getD i 0 &&& 0x00ff) = s.myTops.getD i 0 then 0xff
      else if (s.myCounters.getD i 0 &&& 0x00ff) = s.myBottoms.getD i 0 then 0x00
      else s.myFlags.getD i 0 := by
  unfold updateFlag
  split_ifs
  · exact getD_set_self _ _ _ _ hi
  · exact getD_set_self _ _ _ _ hi
  · rfl

/-- C27 (comparator runs before dispatch): on an unlocked read of an offset
below 0x40 with `i = a & 7`, the function dispatch runs on the state in which
`myFlags[i]` is 0xFF if `(myCounters[i] & 0xFF) == myTops[i]`, otherwise 0x00 if
it equals `myBottoms[i]`, otherwise unchanged (the top wins when both are
equal); so a poke of `myTops[i] = v` followed at once by a function-7 read of
fetcher `i` whose counter low byte is `v` returns 0xFF. -/
theorem comparator_before_dispatch (s : CartridgeDPC) (a i fn v w r : Nat)
    (h : s.bankLocked = false) (hs : s.Sized) (ha : (a &&& 0x0FFF) < 0x0040)
    (hidx : (a &&& 0x0FFF) &&& 0x07 = i) (hfn : ((a &&& 0x0FFF) >>> 3) &&& 0x07 = fn)
    (hw : w &&& 0x0FFF = 0x40 + i) (hr : r &&& 0x0FFF = 0x38 + i)
    (hc : s.myCounters.getD i 0 &&& 0x00ff = v) :
    s.peek a = (((s.clockRandomNumberGenerator.updateFlag i).readFunction i fn).1,
      ((s.clockRandomNumberGenerator.updateFlag i).readFunction i fn).2.clockCounter i) ∧
    (s.clockRandomNumberGenerator.updateFlag i).myFlags.getD i 0 =
      (if (s.myCounters.getD i 0 &&& 0x00ff) = s.myTops.getD i 0 then 0xff
       else if (s.myCounters.getD i 0 &&& 0x00ff) = s.myBottoms.getD i 0 then 0x00
       else s.myFlags.getD i 0) ∧
    (s.poke w v).2.myFlags.getD i 0 = 0 ∧ ((s.poke w v).2.peek r).1 = 0xFF := by
  have hi : i < 8 := by rw [← hidx]; exact and7_lt _
  obtain ⟨ht, -, -, hf, -⟩ := hs
  have e1 : s.peek a = (((s.clockRandomNumberGenerator.updateFlag i).readFunction i fn).1,
      ((s.clockRandomNumberGenerator.updateFlag i).readFunction i fn).2.clockCounter i) := by
    rw [peek_dpc_of_unlocked s a h ha, hidx, hfn]
  have e2 := updateFlag_myFlags_getD s.clockRandomNumberGenerator i
    (by simp only [clockRandomNumberGenerator_myFlags]; omega)
  simp only [clockRandomNumberGenerator_myCounters, clockRandomNumberGenerator_myTops,
    clockRandomNumberGenerator_myBottoms, clockRandomNumberGenerator_myFlags] at e2
  have ep : (s.poke w v).2 = s.clockRandomNumberGenerator.writeFunction i 0 v :=
    poke_write s w v i 0 hi (by norm_num) (by omega)
  have hpl : (s.poke w v).2.bankLocked = false := (poke_lengths s w v).2.2.2.2.2.2.trans h
  have hpt : (s.poke w v).2.myTops.getD i 0 = v := by
    rw [ep]
    exact getD_set_self _ _ _ _ (by simp only [clockRandomNumberGenerator_myTops]; omega)
  have hpf0 : (s.poke w v).2.myFlags.getD i 0 = 0 := by
    rw [ep]
    exact getD_set_self _ _ _ _ (by simp only [clockRandomNumberGenerator_myFlags]; omega)
  have hpc : (s.poke w v).2.myCounters = s.myCounters := by rw [ep]; rfl
  have hpfl : (s.poke w v).2.myFlags.length = 8 := by rw [(poke_lengths s w v).2.2.2.1]; exact hf
  refine ⟨e1, e2, hpf0, ?_⟩
  rw [peek_read (s.poke w v).2 r i 7 hpl hi (by norm_num) (by omega)]
  simp only [readFunction]
  have e3 := updateFlag_myFlags_getD (s.poke w v).2.clockRandomNumberGenerator i
    (by simp only [clockRandomNumberGenerator_myFlags]; omega)
  simp only [clockRandomNumberGenerator_myCounters, clockRandomNumberGenerator_myTops,
    clockRandomNumberGenerator_myBottoms, clockRandomNumberGenerator_myFlags, hpc, hc, hpt,
    if_true] at e3
  exact e3

/-- Witness of C27: fetcher 0 at power-on, whose counter low byte is 0. -/
theorem comparator_before_dispatch_witness :
    exampleCart.bankLocked = false ∧ exampleCart.Sized ∧ (0x1038 &&& 0x0FFF) < 0x0040 ∧
    (0x1038 &&& 0x0FFF) &&& 0x07 = 0 ∧ ((0x1038 &&& 0x0FFF) >>> 3) &&& 0x07 = 7 ∧
    0x1040 &&& 0x0FFF = 0x40 + 0 ∧ 0x1038 &&& 0x0FFF = 0x38 + 0 ∧
    exampleCart.myCounters.getD 0 0 &&& 0x00ff = 0 ∧
    ((exampleCart.poke 0x1040 0).2.peek 0x1038).1 = 0xFF :=
  ⟨exampleCart_bankLocked, exampleCart_sized, by decide, by decide, by decide, by decide,
    by decide, by rw [exampleCart_myCounters]; decide,
    (comparator_before_dispatch exampleCart 0x1038 0 7 0 0x1040 0x1038 exampleCart_bankLocked
      exampleCart_sized (by decide) (by decide) (by decide) (by decide) (by decide)
      (by rw [exampleCart_myCounters]; decide)).2.2.2⟩

/-! ## Claims C29, C30: the music-mode update -/

theorem updateMusicModeDataFetcher_myFlags_getD (w : Nat) (s : CartridgeDPC) (x j : Nat)
    (h : j ≠ x ∨ s.myMusicMode.getD (x - 5) false = false) :
    (updateMusicModeDataFetcher w s x).myFlags.getD j 0 = s.myFlags.getD j 0 := by
  unfold updateMusicModeDataFetcher
  split
  · rename_i hm
    rcases h with h | h
    · simp only []
      split_ifs <;> first | rfl | exact getD_set_other _ _ _ _ _ (Ne.symm h)
    · rw [h] at hm; exact absurd hm (by decide)
  · rfl

theorem updateMusicModeDataFetchers_myFlags_getD (s : CartridgeDPC) (j : Nat)
    (h : j < 5 ∨ s.myMusicMode.getD (j - 5) false = false) :
    s.updateMusicModeDataFetchers.myFlags.getD j 0 = s.myFlags.getD j 0 := by
  have step : ∀ (w : Nat) (t : CartridgeDPC) (x : Nat), 5 ≤ x → t.myMusicMode = s.myMusicMode →
      (updateMusicModeDataFetcher w t x).myFlags.getD j 0 = t.myFlags.getD j 0 := by
    intro w t x hx ht
    apply updateMusicModeDataFetcher_myFlags_getD
    by_cases hjx : j = x
    · right
      rcases h with h | h
      · omega
      · rw [ht, ← hjx]; exact h
    · left; exact hjx
  unfold updateMusicModeDataFetchers
  simp only []
  split
  · rfl
  · simp only [List.foldl]
    rw [step _ _ 7 (by norm_num) (by simp), step _ _ 6 (by norm_num) (by simp),
      step _ _ 5 (by norm_num) (by simp)]

theorem updateMusicModeDataFetchers_of_zero (s : CartridgeDPC) (h : s.musicWholeClocks = 0) :
    s.updateMusicModeDataFetchers.myCounters = s.myCounters ∧
    s.updateMusicModeDataFetchers.myFlags = s.myFlags := by
  rw [updateMusicModeDataFetchers_eq, h]
  exact ⟨rfl, rfl⟩

/-- C30 (music update frame): `updateMusicModeDataFetchers` never changes the
tops, the bottoms, the music modes, the random number or the bank offset, nor
the counter and the flag of a fetcher `j` that is one of 0 to 4 or is not in
music mode; and when the whole-clock count is 0 it changes no counter and no
flag at all, only `myAudioCycles` and `myFractionalClocks`. -/
theorem music_update_frame (s : CartridgeDPC) (j : Nat)
    (hj : j < 5 ∨ s.myMusicMode.getD (j - 5) false = false) :
    s.updateMusicModeDataFetchers.myTops = s.myTops ∧
    s.updateMusicModeDataFetchers.myBottoms = s.myBottoms ∧
    s.updateMusicModeDataFetchers.myMusicMode = s.myMusicMode ∧
    s.updateMusicModeDataFetchers.myRandomNumber = s.myRandomNumber ∧
    s.updateMusicModeDataFetchers.myBankOffset = s.myBankOffset ∧
    s.updateMusicModeDataFetchers.myImage = s.myImage ∧
    s.updateMusicModeDataFetchers.mySystem = s.mySystem ∧
    s.updateMusicModeDataFetchers.myBankLocked = s.myBankLocked ∧
    s.updateMusicModeDataFetchers.myCounters.getD j 0 = s.myCounters.getD j 0 ∧
    s.updateMusicModeDataFetchers.myFlags.getD j 0 = s.myFlags.getD j 0 ∧
    (s.musicWholeClocks ≠ 0 ∨
      (s.updateMusicModeDataFetchers.myCounters = s.myCounters ∧
       s.updateMusicModeDataFetchers.myFlags = s.myFlags)) ∧
    s.updateMusicModeDataFetchers.myAudioCycles = s.mySystem.cycles ∧
    s.updateMusicModeDataFetchers.myFractionalClocks =
      s.musicClocks - (s.musicWholeClocks : ℚ) := by
  refine ⟨by simp, by simp, by simp, by simp, by simp, by simp, by simp, by simp,
    updateMusicModeDataFetchers_myCounters_getD s j hj,
    updateMusicModeDataFetchers_myFlags_getD s j hj, ?_,
    updateMusicModeDataFetchers_myAudioCycles s,
    updateMusicModeDataFetchers_myFractionalClocks s⟩
  by_cases h0 : s.musicWholeClocks = 0
  · right; exact updateMusicModeDataFetchers_of_zero s h0
  · left; exact h0

/-- Witness of C30: fetcher 2 at power-on. -/
theorem music_update_frame_witness :
    (2 < 5 ∨ exampleCart.myMusicMode.getD (2 - 5) false = false) ∧
    exampleCart.updateMusicModeDataFetchers.myTops = exampleCart.myTops ∧
    exampleCart.updateMusicModeDataFetchers.myCounters.getD 2 0 =
      exampleCart.myCounters.getD 2 0 :=
  ⟨Or.inl (by decide), (music_update_frame exampleCart 2 (Or.inl (by decide))).1,
    (music_update_frame exampleCart 2 (Or.inl (by decide))).2.2.2.2.2.2.2.2.1⟩

theorem updateMusicModeDataFetcher_at (w : Nat) (t : CartridgeDPC) (x : Nat)
    (hm : t.myMusicMode.getD (x - 5) false = true) (hf : x < t.myFlags.length)
    (hc : x < t.myCounters.length) :
    (updateMusicModeDataFetcher w t x).myFlags.getD x 0 =
      (if musicNewLow w t x ≤ ((t.myBottoms.getD x 0 : Nat) : Int) then 0x00
       else if musicNewLow w t x ≤ ((t.myTops.getD x 0 : Nat) : Int) then 0xff
       else t.myFlags.getD x 0) ∧
    (updateMusicModeDataFetcher w t x).myCounters.getD x 0 =
      (t.myCounters.getD x 0 &&& 0x0700) ||| ((musicNewLow w t x).toNat % 65536) := by
  have e : updateMusicModeDataFetcher w t x =
      { t with
        myFlags :=
          if musicNewLow w t x ≤ ((t.myBottoms.getD x 0 : Nat) : Int) then t.myFlags.set x 0x00
          else if musicNewLow w t x ≤ ((t.myTops.getD x 0 : Nat) : Int) then t.myFlags.set x 0xff
          else t.myFlags
        myCounters := t.myCounters.set x
          ((t.myCounters.getD x 0 &&& 0x0700) ||| ((musicNewLow w t x).toNat % 65536)) } := by
    unfold updateMusicModeDataFetcher musicNewLow
    rw [if_pos hm]
  rw [e]
  constructor
  · simp only []
    split_ifs
    · exact getD_set_self _ _ _ _ hf
    · exact getD_set_self _ _ _ _ hf
    · rfl
  · exact getD_set_self _ _ _ _ hc

theorem musicNewLow_congr (w : Nat) (t s : CartridgeDPC) (x : Nat) (ht : t.myTops = s.myTops)
    (hc : t.myCounters.getD x 0 = s.myCounters.getD x 0) :
    musicNewLow w t x = musicNewLow w s x := by
  unfold musicNewLow
  rw [ht, hc]

theorem updateMusicModeDataFetcher_from (w : Nat) (s t : CartridgeDPC) (x : Nat)
    (hm : s.myMusicMode.getD (x - 5) false = true) (hf : x < s.myFlags.length)
    (hc : x < s.myCounters.length)
    (k1 : t.myTops = s.myTops) (k2 : t.myBottoms = s.myBottoms)
    (k3 : t.myMusicMode = s.myMusicMode)
    (k4 : t.myCounters.getD x 0 = s.myCounters.getD x 0)
    (k5 : t.myFlags.getD x 0 = s.myFlags.getD x 0)
    (k6 : t.myFlags.length = s.myFlags.length) (k7 : t.myCounters.length = s.myCounters.length) :
    (updateMusicModeDataFetcher w t x).myFlags.getD x 0 =
      (if musicNewLow w s x ≤ ((s.myBottoms.getD x 0 : Nat) : Int) then 0x00
       else if musicNewLow w s x ≤ ((s.myTops.getD x 0 : Nat) : Int) then 0xff
       else s.myFlags.getD x 0) ∧
    (updateMusicModeDataFetcher w t x).myCounters.getD x 0 =
      (s.myCounters.getD x 0 &&& 0x0700) ||| ((musicNewLow w s x).toNat % 65536) := by
  have h := updateMusicModeDataFetcher_at w t x (by rw [k3]; exact hm) (by rw [k6]; exact hf)
    (by rw [k7]; exact hc)
  rw [musicNewLow_congr w t s x k1 k4, k1, k2, k4, k5] at h
  exact h

theorem updateMusicModeDataFetchers_at (s : CartridgeDPC) (x : Nat) (hx5 : 5 ≤ x) (hx7 : x ≤ 7)
    (hm : s.myMusicMode.getD (x - 5) false = true) (hw : 0 < s.musicWholeClocks)
    (hf : x < s.myFlags.length) (hc : x < s.myCounters.length) :
    s.updateMusicModeDataFetchers.myFlags.getD x 0 =
      (if musicNewLow s.musicWholeClocks s x ≤ ((s.myBottoms.getD x 0 : Nat) : Int) then 0x00
       else if musicNewLow s.musicWholeClocks s x ≤ ((s.myTops.getD x 0 : Nat) : Int) then 0xff
       else s.myFlags.getD x 0) ∧
    s.updateMusicModeDataFetchers.myCounters.getD x 0 =
      (s.myCounters.getD x 0 &&& 0x0700) |||
        ((musicNewLow s.musicWholeClocks s x).toNat % 65536) := by
  rw [updateMusicModeDataFetchers_eq, if_neg (by omega)]
  simp only [List.foldl]
  have hcases : x = 5 ∨ x = 6 ∨ x = 7 := by omega
  rcases hcases with rfl | rfl | rfl
  · rw [updateMusicModeDataFetcher_myFlags_getD _ _ 7 5 (Or.inl (by decide)),
      updateMusicModeDataFetcher_myFlags_getD _ _ 6 5 (Or.inl (by decide)),
      updateMusicModeDataFetcher_myCounters_getD _ _ 7 5 (Or.inl (by decide)),
      updateMusicModeDataFetcher_myCounters_getD _ _ 6 5 (Or.inl (by decide))]
    exact updateMusicModeDataFetcher_from _ s _ 5 hm hf hc rfl rfl rfl rfl rfl rfl rfl
  · rw [updateMusicModeDataFetcher_myFlags_getD _ _ 7 6 (Or.inl (by decide)),
      updateMusicModeDataFetcher_myCounters_getD _ _ 7 6 (Or.inl (by decide))]
    refine updateMusicModeDataFetcher_from _ s _ 6 hm hf hc (by simp) (by simp) (by simp) ?_ ?_
      ?_ ?_
    · rw [updateMusicModeDataFetcher_myCounters_getD _ _ 5 6 (Or.inl (by decide))]
    · rw [updateMusicModeDataFetcher_myFlags_getD _ _ 5 6 (Or.inl (by decide))]
    · rw [updateMusicModeDataFetcher_myFlags_length]
    · rw [updateMusicModeDataFetcher_myCounters_length]
  · refine updateMusicModeDataFetcher_from _ s _ 7 hm hf hc (by simp) (by simp) (by simp) ?_ ?_
      ?_ ?_
    · rw [updateMusicModeDataFetcher_myCounters_getD _ _ 6 7 (Or.inl (by decide)),
        updateMusicModeDataFetcher_myCounters_getD _ _ 5 7 (Or.inl (by decide))]
    · rw [updateMusicModeDataFetcher_myFlags_getD _ _ 6 7 (Or.inl (by decide)),
        updateMusicModeDataFetcher_myFlags_getD _ _ 5 7 (Or.inl (by decide))]
    · rw [updateMusicModeDataFetcher_myFlags_length, updateMusicModeDataFetcher_myFlags_length]
    · rw [updateMusicModeDataFetcher_myCounters_length,
        updateMusicModeDataFetcher_myCounters_length]

theorem musicNewLow_eq (w : Nat) (s : CartridgeDPC) (x : Nat) :
    musicNewLow w s x =
      if s.myTops.getD x 0 ≠ 0 then
        (if ((s.myCounters.getD x 0 &&& 0x00ff : Nat) : Int)
            - ((w % (s.myTops.getD x 0 + 1) : Nat) : Int) < 0 then
          ((s.myCounters.getD x 0 &&& 0x00ff : Nat) : Int)
            - ((w % (s.myTops.getD x 0 + 1) : Nat) : Int) + ((s.myTops.getD x 0 + 1 : Nat) : Int)
         else
          ((s.myCounters.getD x 0 &&& 0x00ff : Nat) : Int)
            - ((w % (s.myTops.getD x 0 + 1) : Nat) : Int))
      else 0 := by
  have e : (((s.myTops.getD x 0 : Nat) : Int) + 1).toNat = s.myTops.getD x 0 + 1 := by omega
  unfold musicNewLow
  rw [e]
  push_cast
  rfl

theorem sub_emod_of_low (low w top : Nat) (htop : 0 < top) (hlow : low < top) :
    ((low : Int) - (w : Int)) % (top : Int) =
      if (low : Int) - ((w % top : Nat) : Int) < 0 then
        (low : Int) - ((w % top : Nat) : Int) + (top : Int)
      else (low : Int) - ((w % top : Nat) : Int) := by
  have hr : w % top < top := Nat.mod_lt _ htop
  have hw : (w : Int) = (top : Int) * ((w / top : Nat) : Int) + ((w % top : Nat) : Int) := by
    have := Nat.div_add_mod w top
    exact_mod_cast this.symm
  have e1 : ((low : Int) - (w : Int)) % (top : Int) =
      ((low : Int) - ((w % top : Nat) : Int)) % (top : Int) := by
    have : (low : Int) - (w : Int) =
        ((low : Int) - ((w % top : Nat) : Int)) + (top : Int) * (-((w / top : Nat) : Int)) := by
      rw [hw]
      push_cast
      ring
    rw [this, Int.add_mul_emod_self_left]
  rw [e1]
  split_ifs with hneg
  · rw [← Int.add_emod_self]
    apply Int.emod_eq_of_lt <;> omega
  · apply Int.emod_eq_of_lt <;> omega

theorem musicNewLow_range (w : Nat) (s : CartridgeDPC) (x : Nat) (ht : s.myTops.getD x 0 < 256) :
    0 ≤ musicNewLow w s x ∧ musicNewLow w s x ≤ 255 := by
  have hlow : s.myCounters.getD x 0 &&& 0x00ff ≤ 255 := Nat.and_le_right
  have hr : w % (s.myTops.getD x 0 + 1) < s.myTops.getD x 0 + 1 := Nat.mod_lt _ (by omega)
  rw [musicNewLow_eq]
  generalize w % (s.myTops.getD x 0 + 1) = r at hr
  generalize s.myCounters.getD x 0 &&& 0x00ff = low at hlow
  generalize s.myTops.getD x 0 = top at ht hr
  split_ifs <;> omega

/-- C29 (music-mode fetcher step): for a fetcher `x` of 5, 6, 7 in music mode
and a whole-clock count `whole > 0`, `updateMusicModeDataFetchers` computes,
with `low = myCounters[x] & 0xFF` and `top = myTops[x] + 1`: `newLow` is
`low - (whole mod top)`, plus `top` if that is negative, when `myTops[x] != 0`,
and 0 when `myTops[x] == 0`; `myFlags[x]` becomes 0x00 if
`newLow <= myBottoms[x]`, else 0xFF if `newLow <= myTops[x]`, else is unchanged;
`myCounters[x]` becomes `(myCounters[x] & 0x0700) | newLow`.  With
`myTops[x] = 0` this gives `newLow = 0` and the flag 0x00, and whenever
`low <= myTops[x]` it gives `newLow = (low - whole) mod (myTops[x] + 1)`. -/
theorem music_fetcher_step (s : CartridgeDPC) (x : Nat) (hx5 : 5 ≤ x) (hx7 : x ≤ 7)
    (hm : s.myMusicMode.getD (x - 5) false = true) (hw : 0 < s.musicWholeClocks)
    (hs : s.Sized) (ht : s.myTops.getD x 0 < 256) :
    musicNewLow s.musicWholeClocks s x =
      (if s.myTops.getD x 0 ≠ 0 then
        (if ((s.myCounters.getD x 0 &&& 0x00ff : Nat) : Int)
            - ((s.musicWholeClocks % (s.myTops.getD x 0 + 1) : Nat) : Int) < 0 then
          ((s.myCounters.getD x 0 &&& 0x00ff : Nat) : Int)
            - ((s.musicWholeClocks % (s.myTops.getD x 0 + 1) : Nat) : Int)
            + ((s.myTops.getD x 0 + 1 : Nat) : Int)
         else
          ((s.myCounters.getD x 0 &&& 0x00ff : Nat) : Int)
            - ((s.musicWholeClocks % (s.myTops.getD x 0 + 1) : Nat) : Int))
       else 0) ∧
    s.updateMusicModeDataFetchers.myFlags.getD x 0 =
      (if musicNewLow s.musicWholeClocks s x ≤ ((s.myBottoms.getD x 0 : Nat) : Int) then 0x00
       else if musicNewLow s.musicWholeClocks s x ≤ ((s.myTops.getD x 0 : Nat) : Int) then 0xff
       else s.myFlags.getD x 0) ∧
    s.updateMusicModeDataFetchers.myCounters.getD x 0 =
      (s.myCounters.getD x 0 &&& 0x0700) ||| (musicNewLow s.musicWholeClocks s x).toNat ∧
    0 ≤ musicNewLow s.musicWholeClocks s x ∧ musicNewLow s.musicWholeClocks s x ≤ 255 ∧
    (s.myTops.getD x 0 ≠ 0 ∨
      (musicNewLow s.musicWholeClocks s x = 0 ∧
       s.updateMusicModeDataFetchers.myFlags.getD x 0 = 0x00)) ∧
    (¬ (s.myCounters.getD x 0 &&& 0x00ff) ≤ s.myTops.getD x 0 ∨
      musicNewLow s.musicWholeClocks s x =
        (((s.myCounters.getD x 0 &&& 0x00ff : Nat) : Int) - (s.musicWholeClocks : Int)) %
          ((s.myTops.getD x 0 + 1 : Nat) : Int)) := by
  obtain ⟨-, -, hc, hf, -⟩ := hs
  obtain ⟨g1, g2⟩ := updateMusicModeDataFetchers_at s x hx5 hx7 hm hw (by omega) (by omega)
  obtain ⟨r0, r1⟩ := musicNewLow_range s.musicWholeClocks s x ht
  have hmod : (musicNewLow s.musicWholeClocks s x).toNat % 65536 =
      (musicNewLow s.musicWholeClocks s x).toNat := by omega
  rw [hmod] at g2
  refine ⟨musicNewLow_eq _ s x, g1, g2, r0, r1, ?_, ?_⟩
  · by_cases h0 : s.myTops.getD x 0 = 0
    · right
      have hz : musicNewLow s.musicWholeClocks s x = 0 := by
        rw [musicNewLow_eq, if_neg (by simpa using h0)]
      refine ⟨hz, ?_⟩
      rw [g1, hz, if_pos (by omega)]
    · left; exact h0
  · by_cases hl : (s.myCounters.getD x 0 &&& 0x00ff) ≤ s.myTops.getD x 0
    · right
      rw [sub_emod_of_low _ _ _ (by omega) (by omega), musicNewLow_eq]
      by_cases h0 : s.myTops.getD x 0 = 0
      · rw [if_neg (by simpa using h0)]
        have hl0 : s.myCounters.getD x 0 &&& 0x00ff = 0 := by omega
        rw [hl0, h0]
        simp
      · rw [if_pos h0]
    · left; exact hl

/-! ## Claim C25: the flag window -/

theorem and_0xff_eq_mod (n : Nat) : n &&& 0x00ff = n % 256 := by
  have := Nat.and_pow_two_sub_one_eq_mod n 8
  norm_num at this
  exact this

theorem peek_flag_read (s : CartridgeDPC) (a i : Nat) (h : s.bankLocked = false) (hs : s.Sized)
    (hi : i < 8) (ha : a &&& 0x0FFF = 0x38 + i)
    (hnm : i < 5 ∨ s.myMusicMode.getD (i - 5) false = false) :
    (s.peek a).1 =
      (if (s.myCounters.getD i 0 &&& 0x00ff) = s.myTops.getD i 0 then 0xff
       else if (s.myCounters.getD i 0 &&& 0x00ff) = s.myBottoms.getD i 0 then 0x00
       else s.myFlags.getD i 0) ∧
    (s.peek a).2.myFlags.getD i 0 = (s.peek a).1 ∧
    (s.peek a).2.myCounters.getD i 0 = (s.myCounters.getD i 0 + 2047) % 2048 ∧
    (s.peek a).2.bankLocked = false ∧ (s.peek a).2.Sized ∧
    (s.peek a).2.myTops = s.myTops ∧ (s.peek a).2.myBottoms = s.myBottoms ∧
    (s.peek a).2.myMusicMode = s.myMusicMode := by
  obtain ⟨k1, k2, k3, k4, k5, -, k7⟩ := peek_lengths s a
  have hsz : (s.peek a).2.Sized := by
    unfold Sized
    rw [k1, k2, k3, k4, k5]
    exact hs
  obtain ⟨-, -, hc, hf, -⟩ := hs
  have e := peek_read s a i 7 h hi (by norm_num) (by omega)
  have e2 := updateFlag_myFlags_getD s.clockRandomNumberGenerator i
    (by simp only [clockRandomNumberGenerator_myFlags]; omega)
  simp only [clockRandomNumberGenerator_myCounters, clockRandomNumberGenerator_myTops,
    clockRandomNumberGenerator_myBottoms, clockRandomNumberGenerator_myFlags] at e2
  have v1 : (s.peek a).1 = (s.clockRandomNumberGenerator.updateFlag i).myFlags.getD i 0 := by
    rw [e]
    simp only [readFunction]
  have v2 : (s.peek a).2 = (s.clockRandomNumberGenerator.updateFlag i).clockCounter i := by
    rw [e]
    simp only [readFunction]
  refine ⟨v1.trans e2, ?_, ?_, k7.trans h, hsz, k1, k2, k5⟩
  · rw [v1, v2]
    simp only [clockCounter_myFlags]
  · rw [v2, clockCounter_myCounters]
    simp only [updateFlag_myMusicMode, clockRandomNumberGenerator_myMusicMode,
      updateFlag_myCounters, clockRandomNumberGenerator_myCounters]
    rw [if_pos hnm]
    exact getD_set_self _ _ _ _ (by omega)

theorem afterReads_succ (s : CartridgeDPC) (a k : Nat) :
    s.afterReads a (k + 1) = ((s.afterReads a k).peek a).2 := by
  unfold afterReads
  rw [Function.iterate_succ_apply']

theorem flag_window_arith (l t b k f : Nat) (hl : l = (t + 256 - k) % 256) (ht : t < 256)
    (hbt : b < t) (hk : k ≤ 256) (hf : k = 0 ∨ f = if k - 1 < t - b then 0xFF else 0) :
    (if l = t then 0xff else if l = b then 0x00 else f) =
      (if k < t - b then 0xFF else if k < 256 then 0 else 0xFF) := by
  rcases hf with hf | hf
  · subst hf
    rw [if_pos (by omega), if_pos (by omega)]
  · rw [hf]
    split_ifs <;> omega

theorem afterReads_invariant (s : CartridgeDPC) (a i : Nat) (h : s.bankLocked = false)
    (hs : s.Sized) (hi : i < 8) (ha : a &&& 0x0FFF = 0x38 + i)
    (hnm : i < 5 ∨ s.myMusicMode.getD (i - 5) false = false)
    (hbt : s.myBottoms.getD i 0 < s.myTops.getD i 0)
    (hct : s.myCounters.getD i 0 &&& 0x00ff = s.myTops.getD i 0) (k : Nat) (hk : k ≤ 256) :
    (s.afterReads a k).bankLocked = false ∧ (s.afterReads a k).Sized ∧
    (s.afterReads a k).myTops = s.myTops ∧ (s.afterReads a k).myBottoms = s.myBottoms ∧
    (s.afterReads a k).myMusicMode = s.myMusicMode ∧
    (s.afterReads a k).myCounters.getD i 0 % 256 = (s.myTops.getD i 0 + 256 - k) % 256 ∧
    (k = 0 ∨ (s.afterReads a k).myFlags.getD i 0 =
      if k - 1 < s.myTops.getD i 0 - s.myBottoms.getD i 0 then 0xFF else 0) := by
  rw [and_0xff_eq_mod] at hct
  have ht : s.myTops.getD i 0 < 256 := by omega
  induction k with
  | zero =>
    refine ⟨h, hs, rfl, rfl, rfl, ?_, Or.inl rfl⟩
    show s.myCounters.getD i 0 % 256 = _
    omega
  | succ k ih =>
    obtain ⟨i1, i2, i3, i4, i5, i6, i7⟩ := ih (by omega)
    obtain ⟨p1, p2, p3, p4, p5, p6, p7, p8⟩ :=
      peek_flag_read (s.afterReads a k) a i i1 i2 hi ha (by rw [i5]; exact hnm)
    have q1 := flag_window_arith ((s.afterReads a k).myCounters.getD i 0 % 256)
      (s.myTops.getD i 0) (s.myBottoms.getD i 0) k ((s.afterReads a k).myFlags.getD i 0)
      i6 ht hbt (by omega) i7
    rw [afterReads_succ]
    refine ⟨p4, p5, p6.trans i3, p7.trans i4, p8.trans i5, ?_, Or.inr ?_⟩
    · rw [p3]
      omega
    · rw [p2, p1, i3, i4, and_0xff_eq_mod]
      rw [q1]
      simp only [Nat.add_sub_cancel]
      split_ifs <;> first | rfl | omega

/-- C25: with bottoms[i] < tops[i], fetcher i out of music mode and the low byte
of counters[i] equal to tops[i], the k-th consecutive read of function 7 on
fetcher i (k counted from 0, the reads being the only accesses) returns 0xFF for
k < tops[i] - bottoms[i], 0x00 for tops[i] - bottoms[i] <= k < 256 and 0xFF
again at k = 256; the low byte it finds in counters[i] is tops[i] - k modulo
256. -/
theorem flag_duty_window (s : CartridgeDPC) (a i k : Nat) (h : s.bankLocked = false)
    (hs : s.Sized) (hi : i < 8) (ha : a &&& 0x0FFF = 0x38 + i)
    (hnm : i < 5 ∨ s.myMusicMode.getD (i - 5) false = false)
    (hbt : s.myBottoms.getD i 0 < s.myTops.getD i 0)
    (hct : s.myCounters.getD i 0 &&& 0x00ff = s.myTops.getD i 0) (hk : k ≤ 256) :
    ((s.afterReads a k).peek a).1 =
      (if k < s.myTops.getD i 0 - s.myBottoms.getD i 0 then 0xFF
       else if k < 256 then 0x00 else 0xFF) ∧
    (s.afterReads a k).myCounters.getD i 0 &&& 0x00ff = (s.myTops.getD i 0 + 256 - k) % 256 := by
  obtain ⟨i1, i2, i3, i4, i5, i6, i7⟩ := afterReads_invariant s a i h hs hi ha hnm hbt hct k hk
  obtain ⟨p1, -⟩ := peek_flag_read (s.afterReads a k) a i i1 i2 hi ha (by rw [i5]; exact hnm)
  rw [and_0xff_eq_mod] at hct
  refine ⟨?_, by rw [and_0xff_eq_mod]; exact i6⟩
  rw [p1, i3, i4, and_0xff_eq_mod]
  exact flag_window_arith _ _ _ k _ i6 (by omega) hbt hk i7

theorem comparatorCart_sized : comparatorCart.Sized := by
  unfold Sized
  exact ⟨rfl, rfl, rfl, rfl, rfl⟩

/-- Witness of C25 at tops 0x10, bottoms 0x05 and fetcher 0: the read number 10
is the last to return 0xFF and the read number 11 returns 0x00. -/
theorem flag_duty_window_witness :
    comparatorCart.bankLocked = false ∧ comparatorCart.Sized ∧
    comparatorCart.myBottoms.getD 0 0 < comparatorCart.myTops.getD 0 0 ∧
    comparatorCart.myCounters.getD 0 0 &&& 0x00ff = comparatorCart.myTops.getD 0 0 ∧
    ((comparatorCart.afterReads 0x1038 10).peek 0x1038).1 = 0xFF ∧
    ((comparatorCart.afterReads 0x1038 11).peek 0x1038).1 = 0x00 :=
  ⟨rfl, comparatorCart_sized, by decide, by decide,
    (flag_duty_window comparatorCart 0x1038 0 10 rfl comparatorCart_sized (by decide)
      (by decide) (Or.inl (by decide)) (by decide) (by decide) (by decide)).1,
    (flag_duty_window comparatorCart 0x1038 0 11 rfl comparatorCart_sized (by decide)
      (by decide) (Or.inl (by decide)) (by decide) (by decide) (by decide)).1⟩

/-! ## Claim C26: the amplitude scenario -/

theorem peek_amplitude_read (s : CartridgeDPC) (a : Nat) (h : s.bankLocked = false)
    (h4 : 4 ≤ (a &&& 0x0FFF)) (h8 : (a &&& 0x0FFF) < 8) :
    (s.peek a).1 = musicAmplitudes.getD
      (s.clockRandomNumberGenerator.updateFlag (a &&& 0x0FFF)).updateMusicModeDataFetchers.musicIndex 0 := by
  rw [peek_read s a (a &&& 0x0FFF) 0 h h8 (by norm_num) (by omega)]
  simp only [readFunction]
  rw [if_neg (by omega)]

theorem musicWholeClocks_congr (t s : CartridgeDPC) (h1 : t.mySystem = s.mySystem)
    (h2 : t.myAudioCycles = s.myAudioCycles) (h3 : t.myFractionalClocks = s.myFractionalClocks) :
    t.musicWholeClocks = s.musicWholeClocks := by
  unfold musicWholeClocks musicClocks musicCycles
  rw [h1, h2, h3]

theorem updateFlag_myFlags_getD_other (s : CartridgeDPC) (i j : Nat) (h : i ≠ j) :
    (s.updateFlag i).myFlags.getD j 0 = s.myFlags.getD j 0 := by
  unfold updateFlag
  split_ifs <;> first | rfl | exact getD_set_other _ _ _ _ _ h

theorem peek_amplitude_flag (s : CartridgeDPC) (o x : Nat) (hs : s.Sized) (hx5 : 5 ≤ x)
    (hx7 : x ≤ 7) (hm : s.myMusicMode.getD (x - 5) false = true) (hw : 0 < s.musicWholeClocks) :
    (s.clockRandomNumberGenerator.updateFlag o).updateMusicModeDataFetchers.myFlags.getD x 0 =
      (if musicNewLow s.musicWholeClocks s x ≤ ((s.myBottoms.getD x 0 : Nat) : Int) then 0x00
       else if musicNewLow s.musicWholeClocks s x ≤ ((s.myTops.getD x 0 : Nat) : Int) then 0xff
       else (s.clockRandomNumberGenerator.updateFlag o).myFlags.getD x 0) := by
  obtain ⟨-, -, hc, hf, -⟩ := hs
  have ew : (s.clockRandomNumberGenerator.updateFlag o).musicWholeClocks = s.musicWholeClocks :=
    musicWholeClocks_congr _ _ (by simp) (by simp) (by simp)
  have en : musicNewLow s.musicWholeClocks (s.clockRandomNumberGenerator.updateFlag o) x =
      musicNewLow s.musicWholeClocks s x := musicNewLow_congr _ _ _ _ (by simp) (by simp)
  obtain ⟨g, -⟩ := updateMusicModeDataFetchers_at (s.clockRandomNumberGenerator.updateFlag o) x
    hx5 hx7 (by simpa using hm) (by rw [ew]; exact hw)
    (by rw [updateFlag_myFlags_length, clockRandomNumberGenerator_myFlags]; omega)
    (by simp only [updateFlag_myCounters, clockRandomNumberGenerator_myCounters]; omega)
  rw [ew, en] at g
  simpa using g

theorem fetcherCart_musicWholeClocks (t b : Nat) (m : Bool) :
    (fetcherCart t b m 100000).musicWholeClocks = 1676 := by
  have h1 : (fetcherCart t b m 100000).mySystem.cycles = 100000 := rfl
  have h2 : (fetcherCart t b m 100000).myAudioCycles = 0 := rfl
  have e : (fetcherCart t b m 100000).musicCycles = 100000 :=
    musicCycles_of_delta _ 100000 (by norm_num) (by rw [h1, h2])
  have ef : (fetcherCart t b m 100000).myFractionalClocks = 0 := rfl
  have efl : ⌊(fetcherCart t b m 100000).musicClocks⌋ = 1676 := by
    unfold musicClocks
    rw [e, ef, Int.floor_eq_iff]
    constructor <;> norm_num
  unfold musicWholeClocks
  rw [efl]
  decide

theorem musicCart_musicWholeClocks : musicCart.musicWholeClocks = 1676 :=
  fetcherCart_musicWholeClocks 0 0 true

theorem windowCart_musicWholeClocks : windowCart.musicWholeClocks = 1676 :=
  fetcherCart_musicWholeClocks 0x10 0 true

theorem musicCart_sized : musicCart.Sized := by
  unfold Sized
  exact ⟨rfl, rfl, rfl, rfl, rfl⟩

theorem windowCart_sized : windowCart.Sized := by
  unfold Sized
  exact ⟨rfl, rfl, rfl, rfl, rfl⟩

theorem musicIndex_of_flags (s : CartridgeDPC) (m0 m1 m2 : Bool) (f5 f6 f7 : Nat)
    (h0 : s.myMusicMode.getD 0 false = m0) (h1 : s.myMusicMode.getD 1 false = m1)
    (h2 : s.myMusicMode.getD 2 false = m2) (k5 : s.myFlags.getD 5 0 = f5)
    (k6 : s.myFlags.getD 6 0 = f6) (k7 : s.myFlags.getD 7 0 = f7) :
    s.musicIndex =
      ((if m0 && f5 ≠ 0 then 0x01 else 0) ||| (if m1 && f6 ≠ 0 then 0x02 else 0)) |||
        (if m2 && f7 ≠ 0 then 0x04 else 0) := by
  unfold musicIndex
  rw [h0, h1, h2, k5, k6, k7]

/-- C26, the sentence as written fails: in the unlocked state `musicCart`, with
the three music modes set, `myFlags[5..7]` at 0xFF and a whole-clock count of
1676, the read of 0x1004 forms the amplitude index 0 and returns 0x00: the
update it runs recomputes the three flags from the counters and, tops and
bottoms being 0, clears them. -/
theorem amplitude_scenario_counterexample :
    musicCart.bankLocked = false ∧ musicCart.myMusicMode = [true, true, true] ∧
    musicCart.myFlags.getD 5 0 = 0xFF ∧ musicCart.myFlags.getD 6 0 = 0xFF ∧
    musicCart.myFlags.getD 7 0 = 0xFF ∧ 0 < musicCart.musicWholeClocks ∧
    (musicCart.clockRandomNumberGenerator.updateFlag
      (0x1004 &&& 0x0FFF)).updateMusicModeDataFetchers.musicIndex = 0 ∧
    (musicCart.peek 0x1004).1 = 0x00 ∧ (musicCart.peek 0x1004).1 ≠ 0x0F := by
  have hw : musicCart.musicWholeClocks = 1676 := musicCart_musicWholeClocks
  have hz : ∀ x, musicNewLow musicCart.musicWholeClocks musicCart x = 0 := by
    intro x
    rw [musicNewLow_eq, if_neg]
    have e : musicCart.myTops.getD x 0 = 0 := by
      show (List.replicate 8 0).getD x 0 = 0
      rw [List.getD_eq_getElem?_getD, List.getElem?_replicate]
      split_ifs <;> rfl
    rw [e]
    exact fun hne => hne rfl
  have f : ∀ x, 5 ≤ x → x ≤ 7 → musicCart.myMusicMode.getD (x - 5) false = true →
      (musicCart.clockRandomNumberGenerator.updateFlag
        (0x1004 &&& 0x0FFF)).updateMusicModeDataFetchers.myFlags.getD x 0 = 0 := by
    intro x h5 h7 hm
    rw [peek_amplitude_flag musicCart _ x musicCart_sized h5 h7 hm (by rw [hw]; norm_num), hz x,
      if_pos (by omega)]
  have hi : (musicCart.clockRandomNumberGenerator.updateFlag
      (0x1004 &&& 0x0FFF)).updateMusicModeDataFetchers.musicIndex = 0 := by
    rw [musicIndex_of_flags _ true true true 0 0 0 (by simp; rfl) (by simp; rfl) (by simp; rfl)
      (f 5 (by norm_num) (by norm_num) rfl) (f 6 (by norm_num) (by norm_num) rfl)
      (f 7 (by norm_num) (by norm_num) rfl)]
    decide
  have hv : (musicCart.peek 0x1004).1 = 0x00 := by
    rw [peek_amplitude_read musicCart 0x1004 rfl (by decide) (by decide), hi]
    rfl
  refine ⟨rfl, rfl, rfl, rfl, rfl, by rw [hw]; norm_num, hi, hv, ?_⟩
  rw [hv]
  decide

/-- C26 (amended): for an unlocked state with the three music modes set and
`myFlags[5..7]` at 0xFF, a function-0 read of a fetcher 4 to 7 with a whole-clock
count `whole > 0` forms the amplitude index 7 and returns 0x0F provided that the
comparator of the read does not clear the flag of the fetcher read and that, for
each fetcher 5, 6, 7, the low byte `newLow` the update computes is greater than
`myBottoms` of that fetcher. -/
theorem amplitude_full_scale (s : CartridgeDPC) (a : Nat) (h : s.bankLocked = false)
    (hs : s.Sized) (h4 : 4 ≤ (a &&& 0x0FFF)) (h8 : (a &&& 0x0FFF) < 8)
    (hm0 : s.myMusicMode.getD 0 false = true) (hm1 : s.myMusicMode.getD 1 false = true)
    (hm2 : s.myMusicMode.getD 2 false = true)
    (hf5 : s.myFlags.getD 5 0 = 0xFF) (hf6 : s.myFlags.getD 6 0 = 0xFF)
    (hf7 : s.myFlags.getD 7 0 = 0xFF) (hw : 0 < s.musicWholeClocks)
    (hcmp : (s.myCounters.getD (a &&& 0x0FFF) 0 &&& 0x00ff) = s.myTops.getD (a &&& 0x0FFF) 0 ∨
      (s.myCounters.getD (a &&& 0x0FFF) 0 &&& 0x00ff) ≠ s.myBottoms.getD (a &&& 0x0FFF) 0 ∨
      (a &&& 0x0FFF) = 4)
    (hn5 : ((s.myBottoms.getD 5 0 : Nat) : Int) < musicNewLow s.musicWholeClocks s 5)
    (hn6 : ((s.myBottoms.getD 6 0 : Nat) : Int) < musicNewLow s.musicWholeClocks s 6)
    (hn7 : ((s.myBottoms.getD 7 0 : Nat) : Int) < musicNewLow s.musicWholeClocks s 7) :
    (s.clockRandomNumberGenerator.updateFlag
      (a &&& 0x0FFF)).updateMusicModeDataFetchers.musicIndex = 7 ∧
    (s.peek a).1 = 0x0F := by
  have hu : ∀ x, 5 ≤ x → x ≤ 7 → s.myFlags.getD x 0 = 0xFF →
      (s.clockRandomNumberGenerator.updateFlag (a &&& 0x0FFF)).myFlags.getD x 0 = 0xFF := by
    intro x h5 h7 hx
    by_cases e : (a &&& 0x0FFF) = x
    · have hlen : (a &&& 0x0FFF) < s.clockRandomNumberGenerator.myFlags.length := by
        rw [clockRandomNumberGenerator_myFlags]
        obtain ⟨-, -, -, hf, -⟩ := hs
        omega
      have g := updateFlag_myFlags_getD s.clockRandomNumberGenerator (a &&& 0x0FFF) hlen
      simp only [clockRandomNumberGenerator_myCounters, clockRandomNumberGenerator_myTops,
        clockRandomNumberGenerator_myBottoms, clockRandomNumberGenerator_myFlags] at g
      rw [← e, g]
      rw [← e] at hx
      rcases hcmp with c | c | c
      · rw [if_pos c]
      · split_ifs
        · rfl
        · exact hx
      · omega
    · rw [updateFlag_myFlags_getD_other _ _ _ e, clockRandomNumberGenerator_myFlags]
      exact hx
  have f : ∀ x, 5 ≤ x → x ≤ 7 → s.myMusicMode.getD (x - 5) false = true →
      s.myFlags.getD x 0 = 0xFF →
      ((s.myBottoms.getD x 0 : Nat) : Int) < musicNewLow s.musicWholeClocks s x →
      (s.clockRandomNumberGenerator.updateFlag
        (a &&& 0x0FFF)).updateMusicModeDataFetchers.myFlags.getD x 0 = 0xFF := by
    intro x h5 h7 hm hx hn
    rw [peek_amplitude_flag s _ x hs h5 h7 hm hw, if_neg (by omega), hu x h5 h7 hx]
    split_ifs <;> rfl
  have hi : (s.clockRandomNumberGenerator.updateFlag
      (a &&& 0x0FFF)).updateMusicModeDataFetchers.musicIndex = 7 := by
    rw [musicIndex_of_flags _ true true true 0xFF 0xFF 0xFF (by simpa using hm0)
      (by simpa using hm1) (by simpa using hm2)
      (f 5 (by norm_num) (by norm_num) hm0 hf5 hn5) (f 6 (by norm_num) (by norm_num) hm1 hf6 hn6)
      (f 7 (by norm_num) (by norm_num) hm2 hf7 hn7)]
    decide
  refine ⟨hi, ?_⟩
  rw [peek_amplitude_read s a h h4 h8, hi]
  rfl

theorem windowCart_musicNewLow (x : Nat) (hx : x < 8) :
    musicNewLow windowCart.musicWholeClocks windowCart x = 6 := by
  rw [windowCart_musicWholeClocks]
  interval_cases x <;> decide

/-- Witness of C26 (amended): tops 0x10, bottoms 0, counters 0x0010 and 1676
whole clocks give `newLow = 6` for each music fetcher, and the read of 0x1004
returns 0x0F. -/
theorem amplitude_full_scale_witness :
    windowCart.bankLocked = false ∧ windowCart.Sized ∧ 0 < windowCart.musicWholeClocks ∧
    ((windowCart.myBottoms.getD 5 0 : Nat) : Int) <
      musicNewLow windowCart.musicWholeClocks windowCart 5 ∧
    (windowCart.peek 0x1004).1 = 0x0F :=
  ⟨rfl, windowCart_sized, by rw [windowCart_musicWholeClocks]; norm_num,
    by rw [windowCart_musicNewLow 5 (by norm_num)]; decide,
    (amplitude_full_scale windowCart 0x1004 rfl windowCart_sized (by decide) (by decide) rfl rfl
      rfl rfl rfl rfl (by rw [windowCart_musicWholeClocks]; norm_num)
      (Or.inr (Or.inr (by decide)))
      (by rw [windowCart_musicNewLow 5 (by norm_num)]; decide)
      (by rw [windowCart_musicNewLow 6 (by norm_num)]; decide)
      (by rw [windowCart_musicNewLow 7 (by norm_num)]; decide)).2⟩

/-- Witness of C29 at `windowCart`: fetcher 5 has top 0x10, low byte 0x10 and
1676 whole clocks, so `newLow = 0x10 - 1676 mod 17 = 6` and the flag is 0xFF. -/
theorem music_fetcher_step_witness :
    windowCart.myMusicMode.getD (5 - 5) false = true ∧ 0 < windowCart.musicWholeClocks ∧
    windowCart.Sized ∧ windowCart.myTops.getD 5 0 < 256 ∧
    windowCart.updateMusicModeDataFetchers.myFlags.getD 5 0 =
      (if musicNewLow windowCart.musicWholeClocks windowCart 5 ≤
          ((windowCart.myBottoms.getD 5 0 : Nat) : Int) then 0x00
       else if musicNewLow windowCart.musicWholeClocks windowCart 5 ≤
          ((windowCart.myTops.getD 5 0 : Nat) : Int) then 0xff
       else windowCart.myFlags.getD 5 0) :=
  ⟨rfl, by rw [windowCart_musicWholeClocks]; norm_num, windowCart_sized, by decide,
    (music_fetcher_step windowCart 5 (by norm_num) (by norm_num) rfl
      (by rw [windowCart_musicWholeClocks]; norm_num) windowCart_sized
      (by decide)).2.1⟩

/-! ## Claim C24: the page records -/

theorem table_fold_other (G : Nat → PageAccess) (L : List Nat) (tbl : Nat → PageAccess) (q : Nat)
    (hq : ∀ addr ∈ L, addr >>> PAGE_SHIFT ≠ q) :
    (L.foldl (fun t addr => Function.update t (addr >>> PAGE_SHIFT) (G addr)) tbl) q = tbl q := by
  induction L generalizing tbl with
  | nil => rfl
  | cons x rest ih =>
    rw [List.foldl_cons, ih _ (fun addr hmem => hq addr (List.mem_cons_of_mem _ hmem))]
    exact Function.update_noteq (Ne.symm (hq x (List.mem_cons_self _ _))) _ _

theorem table_fold_at (G : Nat → PageAccess) (L : List Nat) (tbl : Nat → PageAccess) (addr : Nat)
    (hmem : addr ∈ L) (hnd : (L.map (fun x => x >>> PAGE_SHIFT)).Nodup) :
    (L.foldl (fun t x => Function.update t (x >>> PAGE_SHIFT) (G x)) tbl) (addr >>> PAGE_SHIFT) =
      G addr := by
  induction L generalizing tbl with
  | nil => cases hmem
  | cons x rest ih =>
    rw [List.map_cons, List.nodup_cons] at hnd
    rw [List.foldl_cons]
    rcases List.mem_cons.mp hmem with e | e
    · subst e
      rw [table_fold_other]
      · exact Function.update_same _ _ _
      · intro y hy hxy
        exact hnd.1 (List.mem_map.mpr ⟨y, hy, hxy⟩)
    · exact ih _ e hnd.2

theorem installPages_table (system : System) :
    (installPages system).myPageAccessTable =
      (pageAddrs 0x1000 0x1080).foldl (fun t addr => Function.update t (addr >>> PAGE_SHIFT)
        (PageAccess.new Device.cartridge PageAccessType.PA_READWRITE)) system.myPageAccessTable := by
  unfold installPages
  simp only []
  generalize pageAddrs 0x1000 0x1080 = L
  induction L generalizing system with
  | nil => rfl
  | cons x rest ih =>
    rw [List.foldl_cons, List.foldl_cons, ih]
    rfl

theorem hotspot_loop (offset : Nat) (L : List Nat) (acc : PageAccess) (sys : System)
    (hp : acc.directPeekBase = none) (hd : acc.device = Device.cartridge)
    (ht : acc.type = PageAccessType.PA_READ) :
    (L.foldl (fun (p : PageAccess × System) addr =>
        ({ p.1 with codeAccessBase := some (offset + (addr &&& 0x0FFF)) },
          p.2.setPageAccess addr { p.1 with codeAccessBase := some (offset + (addr &&& 0x0FFF)) }))
      (acc, sys)).2.myPageAccessTable =
      L.foldl (fun t addr => Function.update t (addr >>> PAGE_SHIFT)
        { directPeekBase := none, codeAccessBase := some (offset + (addr &&& 0x0FFF)),
          device := Device.cartridge, type := PageAccessType.PA_READ }) sys.myPageAccessTable ∧
    (L.foldl (fun (p : PageAccess × System) addr =>
        ({ p.1 with codeAccessBase := some (offset + (addr &&& 0x0FFF)) },
          p.2.setPageAccess addr { p.1 with codeAccessBase := some (offset + (addr &&& 0x0FFF)) }))
      (acc, sys)).1.device = Device.cartridge ∧
    (L.foldl (fun (p : PageAccess × System) addr =>
        ({ p.1 with codeAccessBase := some (offset + (addr &&& 0x0FFF)) },
          p.2.setPageAccess addr { p.1 with codeAccessBase := some (offset + (addr &&& 0x0FFF)) }))
      (acc, sys)).1.type = PageAccessType.PA_READ := by
  induction L generalizing acc sys with
  | nil => exact ⟨rfl, hd, ht⟩
  | cons x rest ih =>
    rw [List.foldl_cons, List.foldl_cons]
    obtain ⟨i1, i2, i3⟩ := ih { acc with codeAccessBase := some (offset + (x &&& 0x0FFF)) }
      (sys.setPageAccess x { acc with codeAccessBase := some (offset + (x &&& 0x0FFF)) }) hp hd ht
    refine ⟨?_, i2, i3⟩
    rw [i1]
    cases acc
    simp only [] at hp hd ht
    subst hp hd ht
    rfl

theorem rom_loop (offset : Nat) (L : List Nat) (acc : PageAccess) (sys : System)
    (hd : acc.device = Device.cartridge) (ht : acc.type = PageAccessType.PA_READ) :
    (L.foldl (fun (p : PageAccess × System) addr =>
        ({ p.1 with
            directPeekBase := some (offset + (addr &&& 0x0FFF))
            codeAccessBase := some (offset + (addr &&& 0x0FFF)) },
          p.2.setPageAccess addr { p.1 with
            directPeekBase := some (offset + (addr &&& 0x0FFF))
            codeAccessBase := some (offset + (addr &&& 0x0FFF)) }))
      (acc, sys)).2.myPageAccessTable =
      L.foldl (fun t addr => Function.update t (addr >>> PAGE_SHIFT)
        { directPeekBase := some (offset + (addr &&& 0x0FFF)),
          codeAccessBase := some (offset + (addr &&& 0x0FFF)),
          device := Device.cartridge, type := PageAccessType.PA_READ }) sys.myPageAccessTable := by
  induction L generalizing acc sys with
  | nil => rfl
  | cons x rest ih =>
    rw [List.foldl_cons, List.foldl_cons]
    have i1 := ih { acc with
        directPeekBase := some (offset + (x &&& 0x0FFF))
        codeAccessBase := some (offset + (x &&& 0x0FFF)) }
      (sys.setPageAccess x { acc with
        directPeekBase := some (offset + (x &&& 0x0FFF))
        codeAccessBase := some (offset + (x &&& 0x0FFF)) }) hd ht
    refine i1.trans ?_
    cases acc
    simp only [] at hd ht
    subst hd ht
    rfl

theorem bankPages_table (sys : System) (offset : Nat) :
    (bankPages sys offset).myPageAccessTable =
      (pageAddrs 0x1080 (0x1FF8 - (0x1FF8 &&& PAGE_MASK))).foldl
        (fun t addr => Function.update t (addr >>> PAGE_SHIFT)
          { directPeekBase := some (offset + (addr &&& 0x0FFF)),
            codeAccessBase := some (offset + (addr &&& 0x0FFF)),
            device := Device.cartridge, type := PageAccessType.PA_READ })
        ((pageAddrs (0x1FF8 - (0x1FF8 &&& PAGE_MASK)) 0x2000).foldl
          (fun t addr => Function.update t (addr >>> PAGE_SHIFT)
            { directPeekBase := none, codeAccessBase := some (offset + (addr &&& 0x0FFF)),
              device := Device.cartridge, type := PageAccessType.PA_READ })
          sys.myPageAccessTable) := by
  obtain ⟨h1, h2, h3⟩ := hotspot_loop offset (pageAddrs (0x1FF8 - (0x1FF8 &&& PAGE_MASK)) 0x2000)
    (PageAccess.new Device.cartridge PageAccessType.PA_READ) sys rfl rfl rfl
  unfold bankPages
  simp only []
  rw [← h1]
  exact rom_loop offset _ _ _ h2 h3

theorem mem_pageAddrs (start stop x : Nat) :
    x ∈ pageAddrs start stop ↔ ∃ k, k < (stop + 63 - start) / 64 ∧ start + k * 64 = x := by
  unfold pageAddrs
  rw [List.mem_map]
  have e : PAGE_SIZE = 64 := rfl
  rw [e]
  constructor
  · rintro ⟨k, hk, rfl⟩
    exact ⟨k, List.mem_range.mp hk, rfl⟩
  · rintro ⟨k, hk, rfl⟩
    exact ⟨k, List.mem_range.mpr hk, rfl⟩

theorem shiftRight_page (x : Nat) : x >>> PAGE_SHIFT = x / 64 :=
  Nat.shiftRight_eq_div_pow x 6

theorem shiftLeft_page (x : Nat) : x <<< PAGE_SHIFT = x * 64 :=
  Nat.shiftLeft_eq x 6

theorem hotspot_page_start : 0x1FF8 - (0x1FF8 &&& PAGE_MASK) = 0x1FC0 := by decide

theorem pageAddrs_nodup (start stop : Nat) :
    ((pageAddrs start stop).map (fun x => x >>> PAGE_SHIFT)).Nodup := by
  unfold pageAddrs
  rw [List.map_map]
  refine List.Nodup.map_on ?_ (List.nodup_range _)
  intro i _ j _ hij
  simp only [Function.comp, shiftRight_page] at hij
  have e : PAGE_SIZE = 64 := rfl
  rw [e] at hij
  omega

theorem installPages_record (system : System) (a : Nat) (h0 : 0x1000 ≤ a) (h1 : a < 0x1080) :
    (installPages system).myPageAccessTable (a >>> PAGE_SHIFT) =
      PageAccess.new Device.cartridge PageAccessType.PA_READWRITE := by
  have hm : (a >>> PAGE_SHIFT) <<< PAGE_SHIFT ∈ pageAddrs 0x1000 0x1080 := by
    rw [mem_pageAddrs, shiftRight_page, shiftLeft_page]
    exact ⟨a / 64 - 64, by omega, by omega⟩
  have hp : ((a >>> PAGE_SHIFT) <<< PAGE_SHIFT) >>> PAGE_SHIFT = a >>> PAGE_SHIFT := by
    simp only [shiftRight_page, shiftLeft_page]
    omega
  rw [installPages_table, ← hp]
  exact table_fold_at (fun _ => PageAccess.new Device.cartridge PageAccessType.PA_READWRITE) _ _ _
    hm (pageAddrs_nodup _ _)

theorem bankPages_record (sys : System) (offset a : Nat) (h1 : a < 0x2000) :
    (bankPages sys offset).myPageAccessTable (a >>> PAGE_SHIFT) =
      if a < 0x1080 then sys.myPageAccessTable (a >>> PAGE_SHIFT)
      else if a < 0x1FC0 then
        { directPeekBase := some (offset + (((a >>> PAGE_SHIFT) <<< PAGE_SHIFT) &&& 0x0FFF)),
          codeAccessBase := some (offset + (((a >>> PAGE_SHIFT) <<< PAGE_SHIFT) &&& 0x0FFF)),
          device := Device.cartridge, type := PageAccessType.PA_READ }
      else
        { directPeekBase := none,
          codeAccessBase := some (offset + (((a >>> PAGE_SHIFT) <<< PAGE_SHIFT) &&& 0x0FFF)),
          device := Device.cartridge, type := PageAccessType.PA_READ } := by
  have hp : ((a >>> PAGE_SHIFT) <<< PAGE_SHIFT) >>> PAGE_SHIFT = a >>> PAGE_SHIFT := by
    simp only [shiftRight_page, shiftLeft_page]
    omega
  rw [bankPages_table, hotspot_page_start]
  by_cases c1 : a < 0x1080
  · rw [if_pos c1, table_fold_other, table_fold_other]
    · intro addr hmem
      rw [mem_pageAddrs] at hmem
      obtain ⟨k, -, rfl⟩ := hmem
      simp only [shiftRight_page]
      omega
    · intro addr hmem
      rw [mem_pageAddrs] at hmem
      obtain ⟨k, -, rfl⟩ := hmem
      simp only [shiftRight_page]
      omega
  · rw [if_neg c1]
    by_cases c2 : a < 0x1FC0
    · rw [if_pos c2]
      have hm : (a >>> PAGE_SHIFT) <<< PAGE_SHIFT ∈ pageAddrs 0x1080 0x1FC0 := by
        rw [mem_pageAddrs, shiftRight_page, shiftLeft_page]
        exact ⟨a / 64 - 66, by omega, by omega⟩
      rw [← hp]
      refine (table_fold_at _ _ _ _ hm (pageAddrs_nodup _ _)).trans ?_
      rw [hp]
    · rw [if_neg c2]
      have hm : (a >>> PAGE_SHIFT) <<< PAGE_SHIFT ∈ pageAddrs 0x1FC0 0x2000 := by
        rw [mem_pageAddrs, shiftRight_page, shiftLeft_page]
        exact ⟨a / 64 - 127, by omega, by omega⟩
      rw [table_fold_other]
      · rw [← hp]
        refine (table_fold_at _ _ _ _ hm (pageAddrs_nodup _ _)).trans ?_
        rw [hp]
      · intro addr hmem
        rw [mem_pageAddrs] at hmem
        obtain ⟨k, hk, rfl⟩ := hmem
        simp only [shiftRight_page]
        omega

theorem install_bank_mySystem (s : CartridgeDPC) (system : System) (n : Nat)
    (h : s.bankLocked = false) :
    ((s.install system).bank n).2.mySystem =
      bankPages (bankPages (installPages system) ((s.myStartBank <<< 12) % 65536))
        ((n <<< 12) % 65536) ∧
    ((s.install system).bank n).2.myBankOffset = (n <<< 12) % 65536 := by
  unfold bankLocked at h
  simp [install, bank, bankLocked, startBank, h]

/-- C24 (no direct peek on the pages with side effects, pages of 64 bytes):
after `install` and an unlocked `bank(n)`, for every address `a` of
0x1000..0x1FFF the record of the page containing `a` is owned by the cartridge;
for `a` in 0x1000..0x107F (the DPC registers) it is the READWRITE record with no
`directPeekBase`; for `a` from 0x1080 up to the page of 0x1FF8 it is a READ
record whose `directPeekBase` and `codeAccessBase` are
`myBankOffset + (pageAddr & 0x0FFF)`; for `a` in the page of the hot spots it is
a READ record with no `directPeekBase`.  The three loops visit the pages 64 to
127 once each. -/
theorem page_records_after_bank (s : CartridgeDPC) (system : System) (n a : Nat)
    (h : s.bankLocked = false) (h0 : 0x1000 ≤ a) (h1 : a < 0x2000) :
    ((s.install system).bank n).2.mySystem.myPageAccessTable (a >>> PAGE_SHIFT) =
      (if a < 0x1080 then PageAccess.new Device.cartridge PageAccessType.PA_READWRITE
       else if a < 0x1FF8 - (0x1FF8 &&& PAGE_MASK) then
        { directPeekBase := some (((s.install system).bank n).2.myBankOffset +
            (((a >>> PAGE_SHIFT) <<< PAGE_SHIFT) &&& 0x0FFF)),
          codeAccessBase := some (((s.install system).bank n).2.myBankOffset +
            (((a >>> PAGE_SHIFT) <<< PAGE_SHIFT) &&& 0x0FFF)),
          device := Device.cartridge, type := PageAccessType.PA_READ }
       else
        { directPeekBase := none,
          codeAccessBase := some (((s.install system).bank n).2.myBankOffset +
            (((a >>> PAGE_SHIFT) <<< PAGE_SHIFT) &&& 0x0FFF)),
          device := Device.cartridge, type := PageAccessType.PA_READ }) ∧
    (((s.install system).bank n).2.mySystem.myPageAccessTable (a >>> PAGE_SHIFT)).device =
      Device.cartridge ∧
    ((0x1080 ≤ a ∧ a < 0x1FF8 - (0x1FF8 &&& PAGE_MASK)) ∨
      (((s.install system).bank n).2.mySystem.myPageAccessTable
        (a >>> PAGE_SHIFT)).directPeekBase = none) ∧
    0x1FF8 >>> PAGE_SHIFT = 0x1FF9 >>> PAGE_SHIFT ∧
    0x1FF8 - (0x1FF8 &&& PAGE_MASK) ≤ 0x1FF8 ∧
    ((pageAddrs 0x1000 0x1080 ++ pageAddrs 0x1080 (0x1FF8 - (0x1FF8 &&& PAGE_MASK)) ++
      pageAddrs (0x1FF8 - (0x1FF8 &&& PAGE_MASK)) 0x2000).map (fun x => x >>> PAGE_SHIFT)) =
      List.range' 64 64 := by
  obtain ⟨e1, e2⟩ := install_bank_mySystem s system n h
  have hrec : ((s.install system).bank n).2.mySystem.myPageAccessTable (a >>> PAGE_SHIFT) =
      (if a < 0x1080 then PageAccess.new Device.cartridge PageAccessType.PA_READWRITE
       else if a < 0x1FF8 - (0x1FF8 &&& PAGE_MASK) then
        { directPeekBase := some (((s.install system).bank n).2.myBankOffset +
            (((a >>> PAGE_SHIFT) <<< PAGE_SHIFT) &&& 0x0FFF)),
          codeAccessBase := some (((s.install system).bank n).2.myBankOffset +
            (((a >>> PAGE_SHIFT) <<< PAGE_SHIFT) &&& 0x0FFF)),
          device := Device.cartridge, type := PageAccessType.PA_READ }
       else
        { directPeekBase := none,
          codeAccessBase := some (((s.install system).bank n).2.myBankOffset +
            (((a >>> PAGE_SHIFT) <<< PAGE_SHIFT) &&& 0x0FFF)),
          device := Device.cartridge, type := PageAccessType.PA_READ }) := by
    rw [e1, e2, hotspot_page_start, bankPages_record _ _ a h1]
    by_cases c1 : a < 0x1080
    · rw [if_pos c1, if_pos c1, bankPages_record _ _ a h1, if_pos c1,
        installPages_record system a h0 c1]
    · rw [if_neg c1, if_neg c1]
  refine ⟨hrec, ?_, ?_, by decide, by decide, by decide⟩
  · rw [hrec]
    split_ifs <;> rfl
  · rw [hrec, hotspot_page_start]
    by_cases c1 : a < 0x1080
    · right
      rw [if_pos c1]
      rfl
    · by_cases c2 : a < 0x1FC0
      · left
        omega
      · right
        rw [if_neg c1, if_neg c2]

/-- Witness of C24 at the example cartridge installed on the empty bus: the
record of the page of the hot spot 0x1FF8 after `bank(0)` has no
`directPeekBase`. -/
theorem page_records_after_bank_witness :
    exampleCart.bankLocked = false ∧ (0x1000 : Nat) ≤ 0x1FF8 ∧ (0x1FF8 : Nat) < 0x2000 ∧
    ((0x1080 ≤ 0x1FF8 ∧ 0x1FF8 < 0x1FF8 - (0x1FF8 &&& PAGE_MASK)) ∨
      (((exampleCart.install System.empty).bank 0).2.mySystem.myPageAccessTable
        (0x1FF8 >>> PAGE_SHIFT)).directPeekBase = none) :=
  ⟨exampleCart_bankLocked, by decide, by decide,
    (page_records_after_bank exampleCart System.empty 0 0x1FF8 exampleCart_bankLocked (by decide)
      (by decide)).2.2.1⟩

/-! ## Claim C33: the lock-up state of the shift register -/

theorem nextRandom_lt (r : Nat) : nextRandom r < 256 := by
  unfold nextRandom clockRandomNumberGenerator
  exact Nat.mod_lt _ (by norm_num)

theorem nextRandom_iterate_lt (k : Nat) : nextRandom^[k] 1 < 256 := by
  cases k with
  | zero => decide
  | succ k =>
    rw [Function.iterate_succ_apply']
    exact nextRandom_lt _

set_option maxRecDepth 100000 in
theorem nextRandom_fixed_point : ∀ r, r < 256 → (nextRandom r = r ↔ r = 0xFF) := by decide

theorem nextRandom_iterate_ne_255 (n : Nat) : nextRandom^[n] 1 ≠ 0xFF := by
  rw [nextRandom_iterate_mod]
  exact (nextRandom_orbit_table (n % 255) (Nat.mod_lt _ (by norm_num))).1

theorem nextRandom_orbit_covers (v : Nat) (hv : v < 255) : ∃ n, n < 255 ∧ nextRandom^[n] 1 = v := by
  have hsub : (Finset.range 255).image (fun k => nextRandom^[k] 1) ⊆ Finset.range 255 := by
    intro y hy
    obtain ⟨k, -, rfl⟩ := Finset.mem_image.mp hy
    have h1 := nextRandom_iterate_lt k
    have h2 := nextRandom_iterate_ne_255 k
    exact Finset.mem_range.mpr (by omega)
  have hcard : ((Finset.range 255).image (fun k => nextRandom^[k] 1)).card = 255 := by
    rw [Finset.card_image_of_injOn, Finset.card_range]
    intro i hi j hj hij
    exact nextRandom_iterate_injective i j (Finset.mem_range.mp hi) (Finset.mem_range.mp hj) hij
  have heq := Finset.eq_of_subset_of_card_le hsub (by rw [hcard, Finset.card_range])
  have hmem : v ∈ (Finset.range 255).image (fun k => nextRandom^[k] 1) := by
    rw [heq]
    exact Finset.mem_range.mpr hv
  obtain ⟨k, hk, e⟩ := Finset.mem_image.mp hmem
  exact ⟨k, Finset.mem_range.mp hk, e⟩

theorem byte_cases (r : Nat) (hr : r < 256) :
    r = 0xFF ∨ ∃ n, n < 255 ∧ nextRandom^[n] 1 = r := by
  by_cases h : r = 0xFF
  · exact Or.inl h
  · exact Or.inr (nextRandom_orbit_covers r (by omega))

theorem nextRandom_injective (r1 r2 : Nat) (h1 : r1 < 256) (h2 : r2 < 256)
    (h : nextRandom r1 = nextRandom r2) : r1 = r2 := by
  have hff : nextRandom 0xFF = 0xFF := (nextRandom_fixed_point 0xFF (by norm_num)).mpr rfl
  rcases byte_cases r1 h1 with e1 | ⟨k1, hk1, e1⟩ <;>
    rcases byte_cases r2 h2 with e2 | ⟨k2, hk2, e2⟩
  · rw [e1, e2]
  · exfalso
    rw [e1, hff, ← e2, ← Function.iterate_succ_apply' nextRandom] at h
    exact nextRandom_iterate_ne_255 _ h.symm
  · exfalso
    rw [e2, hff, ← e1, ← Function.iterate_succ_apply' nextRandom] at h
    exact nextRandom_iterate_ne_255 _ h
  · rw [← e1, ← e2, ← Function.iterate_succ_apply' nextRandom,
      ← Function.iterate_succ_apply' nextRandom, nextRandom_iterate_mod (k1 + 1),
      nextRandom_iterate_mod (k2 + 1)] at h
    have := nextRandom_iterate_injective _ _ (Nat.mod_lt _ (by norm_num))
      (Nat.mod_lt _ (by norm_num)) h
    have e : k1 = k2 := by omega
    rw [← e1, ← e2, e]

theorem nextRandom_surjective (v : Nat) (hv : v < 256) : ∃ r, r < 256 ∧ nextRandom r = v := by
  rcases byte_cases v hv with e | ⟨k, hk, e⟩
  · exact ⟨0xFF, by norm_num, by rw [e]; exact (nextRandom_fixed_point 0xFF (by norm_num)).mpr rfl⟩
  · cases k with
    | zero =>
      refine ⟨nextRandom^[254] 1, nextRandom_iterate_lt _, ?_⟩
      rw [← Function.iterate_succ_apply' nextRandom, ← e]
      exact nextRandom_iterate_255
    | succ k =>
      refine ⟨nextRandom^[k] 1, nextRandom_iterate_lt _, ?_⟩
      rw [← Function.iterate_succ_apply' nextRandom]
      exact e

/-- C33 (LFSR lock-up state): 0xFF is the only byte that
`clockRandomNumberGenerator` maps to itself; the step is a bijection on bytes
(its values are bytes, it is injective and onto); starting from
`myRandomNumber = 1` the value 0xFF is not reached after any number of
clockings, and every other byte is reached within 254 clockings. -/
theorem lfsr_lockup_state (s : CartridgeDPC) (n : Nat) :
    (∀ r, r < 256 → (nextRandom r = r ↔ r = 0xFF)) ∧
    (∀ r, nextRandom r < 256) ∧
    (∀ r1 r2, r1 < 256 → r2 < 256 → nextRandom r1 = nextRandom r2 → r1 = r2) ∧
    (∀ v, v < 256 → ∃ r, r < 256 ∧ nextRandom r = v) ∧
    s.clockRandomNumberGenerator.myRandomNumber = nextRandom s.myRandomNumber ∧
    (clockRandomNumberGenerator^[n] { s with myRandomNumber := 1 }).myRandomNumber ≠ 0xFF ∧
    (∀ v, v < 255 → ∃ k, k < 255 ∧
      (clockRandomNumberGenerator^[k] { s with myRandomNumber := 1 }).myRandomNumber = v) := by
  refine ⟨nextRandom_fixed_point, nextRandom_lt, nextRandom_injective, nextRandom_surjective,
    rfl, ?_, ?_⟩
  · rw [iterate_clockRandomNumberGenerator]
    exact nextRandom_iterate_ne_255 n
  · intro v hv
    obtain ⟨k, hk, e⟩ := nextRandom_orbit_covers v hv
    refine ⟨k, hk, ?_⟩
    rw [iterate_clockRandomNumberGenerator]
    exact e

/-! ## Claim C31: the direct read against `peek` -/

theorem and_0x0fff_eq_mod (n : Nat) : n &&& 0x0FFF = n % 4096 := by
  have := Nat.and_pow_two_sub_one_eq_mod n 12
  norm_num at this
  exact this

theorem and_page_mask_eq_mod (n : Nat) : n &&& PAGE_MASK = n % 64 := by
  have := Nat.and_pow_two_sub_one_eq_mod n 6
  norm_num at this
  exact this

theorem bank_fields_of_unlocked (s : CartridgeDPC) (n : Nat) (h : s.bankLocked = false) :
    (s.bank n).2.mySystem = bankPages s.mySystem ((n <<< 12) % 65536) ∧
    (s.bank n).2.myBankOffset = (n <<< 12) % 65536 ∧ (s.bank n).2.bankLocked = false ∧
    (s.bank n).2.myImage = s.myImage := by
  unfold bankLocked at h
  simp [bank, bankLocked, h]

/-- C31 (the direct read agrees with `peek`): after an unlocked `bank(n)`, for
every address `a` from 0x1080 up to the start of the page of 0x1FF8 the page of
`a` has `directPeekBase` set, and the byte the bus reads directly,
`directPeekBase[a & PAGE_MASK]`, is `myProgramImage[myBankOffset + (a & 0x0FFF)]`,
the byte `peek(a)` returns; `peek(a)` leaves the bank as it is, and for `n` of 0
or 1 the index is inside the 8192 bytes of program ROM. -/
theorem direct_peek_agrees (s : CartridgeDPC) (n a : Nat) (h : s.bankLocked = false)
    (h0 : 0x1080 ≤ a) (h1 : a < 0x1FF8 - (0x1FF8 &&& PAGE_MASK)) :
    ((s.bank n).2.mySystem.myPageAccessTable (a >>> PAGE_SHIFT)).directPeekBase =
      some ((s.bank n).2.myBankOffset + (((a >>> PAGE_SHIFT) <<< PAGE_SHIFT) &&& 0x0FFF)) ∧
    (s.bank n).2.directPeek a =
      some ((s.bank n).2.myProgramImage ((s.bank n).2.myBankOffset + (a &&& 0x0FFF))) ∧
    ((s.bank n).2.peek a).1 =
      (s.bank n).2.myProgramImage ((s.bank n).2.myBankOffset + (a &&& 0x0FFF)) ∧
    (s.bank n).2.directPeek a = some ((s.bank n).2.peek a).1 ∧
    ((s.bank n).2.peek a).2.myBankOffset = (s.bank n).2.myBankOffset ∧
    (1 < n ∨ (s.bank n).2.myBankOffset + (a &&& 0x0FFF) < 8192) := by
  rw [hotspot_page_start] at h1
  obtain ⟨e1, e2, e3, -⟩ := bank_fields_of_unlocked s n h
  have hrec := bankPages_record s.mySystem ((n <<< 12) % 65536) a (by omega)
  rw [if_neg (by omega), if_pos h1] at hrec
  have hbase : ((s.bank n).2.mySystem.myPageAccessTable (a >>> PAGE_SHIFT)).directPeekBase =
      some ((s.bank n).2.myBankOffset + (((a >>> PAGE_SHIFT) <<< PAGE_SHIFT) &&& 0x0FFF)) := by
    rw [e1, e2, hrec]
  have hidx : (((a >>> PAGE_SHIFT) <<< PAGE_SHIFT) &&& 0x0FFF) + (a &&& PAGE_MASK) =
      a &&& 0x0FFF := by
    rw [and_0x0fff_eq_mod, and_0x0fff_eq_mod, and_page_mask_eq_mod, shiftRight_page,
      shiftLeft_page]
    omega
  have hdirect : (s.bank n).2.directPeek a =
      some ((s.bank n).2.myProgramImage ((s.bank n).2.myBankOffset + (a &&& 0x0FFF))) := by
    unfold directPeek
    rw [hbase]
    simp only []
    rw [Nat.add_assoc, hidx]
  have hrange : 0x0080 ≤ (a &&& 0x0FFF) ∧ (a &&& 0x0FFF) < 0x0FC0 := by
    rw [and_0x0fff_eq_mod]
    omega
  have hsw : (s.bank n).2.clockRandomNumberGenerator.switchBanks (a &&& 0x0FFF) =
      (s.bank n).2.clockRandomNumberGenerator := by
    unfold switchBanks
    rw [if_neg (by omega), if_neg (by omega)]
  have hpeek : (s.bank n).2.peek a =
      ((s.bank n).2.myProgramImage ((s.bank n).2.myBankOffset + (a &&& 0x0FFF)),
        (s.bank n).2.clockRandomNumberGenerator) := by
    rw [peek_rom_of_unlocked _ a e3 (by omega), hsw]
    rfl
  refine ⟨hbase, hdirect, ?_, ?_, ?_, ?_⟩
  · rw [hpeek]
  · rw [hdirect, hpeek]
  · rw [hpeek]
    rfl
  · by_cases hn : 1 < n
    · exact Or.inl hn
    · right
      rw [e2]
      have hn2 : n = 0 ∨ n = 1 := by omega
      rcases hn2 with rfl | rfl
      · have : ((0 <<< 12) % 65536 : Nat) = 0 := by decide
        omega
      · have : ((1 <<< 12) % 65536 : Nat) = 4096 := by decide
        omega

/-- Witness of C31 at the example cartridge: bank 0 and the address 0x1080. -/
theorem direct_peek_agrees_witness :
    exampleCart.bankLocked = false ∧ (0x1080 : Nat) ≤ 0x1080 ∧
    0x1080 < 0x1FF8 - (0x1FF8 &&& PAGE_MASK) ∧
    (exampleCart.bank 0).2.directPeek 0x1080 = some ((exampleCart.bank 0).2.peek 0x1080).1 :=
  ⟨exampleCart_bankLocked, by decide, by decide,
    (direct_peek_agrees exampleCart 0 0x1080 exampleCart_bankLocked (by decide)
      (by decide)).2.2.2.1⟩

/-! ## Claim C34: the music step is additive in the whole clocks -/

theorem musicNewLow_emod (w : Nat) (s : CartridgeDPC) (x : Nat)
    (hl : s.myCounters.getD x 0 &&& 0x00ff ≤ s.myTops.getD x 0) :
    musicNewLow w s x =
      (((s.myCounters.getD x 0 &&& 0x00ff : Nat) : Int) - (w : Int)) %
        ((s.myTops.getD x 0 + 1 : Nat) : Int) := by
  rw [musicNewLow_eq]
  by_cases h0 : s.myTops.getD x 0 = 0
  · rw [if_neg (by simpa using h0), h0]
    simp
  · rw [if_pos h0, sub_emod_of_low _ w _ (by omega) (by omega)]

theorem emod_sub_emod_left (a b T : Int) : (a % T - b) % T = (a - b) % T := by
  rw [Int.sub_emod, Int.emod_emod_of_dvd _ (dvd_refl T), ← Int.sub_emod]

/-- C34 (the music update is additive in whole clocks): for a fetcher `x` of 5,
6, 7 in music mode whose counter low byte is at most `myTops[x]`, the loop body
applied with `w1` whole clocks and then with `w2` leaves the same
`myCounters[x]` and `myFlags[x]` as the loop body applied once with `w1 + w2`;
the low byte stays at most `myTops[x]` after the first step.  The same holds
when an update with 0 whole clocks skips the loop, as the source does, provided
`w1 + w2 > 0`. -/
theorem music_step_additive (s : CartridgeDPC) (x w1 w2 : Nat) (hx5 : 5 ≤ x) (hx7 : x ≤ 7)
    (hm : s.myMusicMode.getD (x - 5) false = true) (hs : s.Sized)
    (ht : s.myTops.getD x 0 < 256)
    (hl : s.myCounters.getD x 0 &&& 0x00ff ≤ s.myTops.getD x 0) :
    (updateMusicModeDataFetcher w2 (updateMusicModeDataFetcher w1 s x) x).myCounters.getD x 0 =
      (updateMusicModeDataFetcher (w1 + w2) s x).myCounters.getD x 0 ∧
    (updateMusicModeDataFetcher w2 (updateMusicModeDataFetcher w1 s x) x).myFlags.getD x 0 =
      (updateMusicModeDataFetcher (w1 + w2) s x).myFlags.getD x 0 ∧
    (updateMusicModeDataFetcher w1 s x).myCounters.getD x 0 &&& 0x00ff ≤ s.myTops.getD x 0 ∧
    musicNewLow w2 (updateMusicModeDataFetcher w1 s x) x = musicNewLow (w1 + w2) s x ∧
    (w1 + w2 ≤ 0 ∨
      ((if w2 ≤ 0 then (if w1 ≤ 0 then s else updateMusicModeDataFetcher w1 s x)
        else updateMusicModeDataFetcher w2
          (if w1 ≤ 0 then s else updateMusicModeDataFetcher w1 s x) x).myCounters.getD x 0 =
        (updateMusicModeDataFetcher (w1 + w2) s x).myCounters.getD x 0 ∧
       (if w2 ≤ 0 then (if w1 ≤ 0 then s else updateMusicModeDataFetcher w1 s x)
        else updateMusicModeDataFetcher w2
          (if w1 ≤ 0 then s else updateMusicModeDataFetcher w1 s x) x).myFlags.getD x 0 =
        (updateMusicModeDataFetcher (w1 + w2) s x).myFlags.getD x 0)) := by
  obtain ⟨-, -, hc, hf, -⟩ := hs
  obtain ⟨g1f, g1c⟩ := updateMusicModeDataFetcher_at w1 s x hm (by omega) (by omega)
  obtain ⟨g2f, g2c⟩ := updateMusicModeDataFetcher_at w2 (updateMusicModeDataFetcher w1 s x) x
    (by simpa using hm) (by rw [updateMusicModeDataFetcher_myFlags_length]; omega)
    (by rw [updateMusicModeDataFetcher_myCounters_length]; omega)
  obtain ⟨g3f, g3c⟩ := updateMusicModeDataFetcher_at (w1 + w2) s x hm (by omega) (by omega)
  have hT : (0 : Int) < ((s.myTops.getD x 0 + 1 : Nat) : Int) := by omega
  have n1 := musicNewLow_emod w1 s x hl
  have n3 := musicNewLow_emod (w1 + w2) s x hl
  have r1a : 0 ≤ musicNewLow w1 s x := by rw [n1]; exact Int.emod_nonneg _ (by omega)
  have r1b : musicNewLow w1 s x < ((s.myTops.getD x 0 + 1 : Nat) : Int) := by
    rw [n1]; exact Int.emod_lt_of_pos _ hT
  have r3a : 0 ≤ musicNewLow (w1 + w2) s x := by rw [n3]; exact Int.emod_nonneg _ (by omega)
  have r3b : musicNewLow (w1 + w2) s x < ((s.myTops.getD x 0 + 1 : Nat) : Int) := by
    rw [n3]; exact Int.emod_lt_of_pos _ hT
  have hmod1 : (musicNewLow w1 s x).toNat % 65536 = (musicNewLow w1 s x).toNat := by omega
  have hlt1 : (musicNewLow w1 s x).toNat < 256 := by omega
  rw [hmod1] at g1c
  have hlow1 : (updateMusicModeDataFetcher w1 s x).myCounters.getD x 0 &&& 0x00ff =
      (musicNewLow w1 s x).toNat := by
    rw [g1c]
    exact or_low_and_0xff _ _ hlt1
  have hhigh1 : (updateMusicModeDataFetcher w1 s x).myCounters.getD x 0 &&& 0x0700 =
      s.myCounters.getD x 0 &&& 0x0700 := by
    rw [g1c]
    exact or_low_and_0x0700 _ _ hlt1
  have hle1 : (updateMusicModeDataFetcher w1 s x).myCounters.getD x 0 &&& 0x00ff ≤
      s.myTops.getD x 0 := by
    rw [hlow1]
    omega
  have n2 : musicNewLow w2 (updateMusicModeDataFetcher w1 s x) x = musicNewLow (w1 + w2) s x := by
    rw [musicNewLow_emod w2 _ x (by rw [updateMusicModeDataFetcher_myTops]; exact hle1),
      updateMusicModeDataFetcher_myTops, hlow1, Int.toNat_of_nonneg r1a, n1, n3,
      emod_sub_emod_left]
    congr 1
    push_cast
    ring
  have kc : (updateMusicModeDataFetcher w2 (updateMusicModeDataFetcher w1 s x) x).myCounters.getD
      x 0 = (updateMusicModeDataFetcher (w1 + w2) s x).myCounters.getD x 0 := by
    rw [g2c, g3c, n2, hhigh1]
  have kf : (updateMusicModeDataFetcher w2 (updateMusicModeDataFetcher w1 s x) x).myFlags.getD
      x 0 = (updateMusicModeDataFetcher (w1 + w2) s x).myFlags.getD x 0 := by
    rw [g2f, g3f, n2]
    simp only [updateMusicModeDataFetcher_myBottoms, updateMusicModeDataFetcher_myTops]
    have hle3 : musicNewLow (w1 + w2) s x ≤ ((s.myTops.getD x 0 : Nat) : Int) := by omega
    by_cases hb : musicNewLow (w1 + w2) s x ≤ ((s.myBottoms.getD x 0 : Nat) : Int)
    · rw [if_pos hb, if_pos hb]
    · rw [if_neg hb, if_neg hb, if_pos hle3, if_pos hle3]
  refine ⟨kc, kf, hle1, n2, ?_⟩
  by_cases z1 : w1 ≤ 0
  · by_cases z2 : w2 ≤ 0
    · left
      omega
    · right
      have e1 : w1 = 0 := by omega
      rw [if_neg z2, if_pos z1, e1, Nat.zero_add]
      exact ⟨rfl, rfl⟩
  · right
    by_cases z2 : w2 ≤ 0
    · have e2 : w2 = 0 := by omega
      rw [if_pos z2, if_neg z1, e2, Nat.add_zero]
      exact ⟨rfl, rfl⟩
    · rw [if_neg z2, if_neg z1]
      exact ⟨kc, kf⟩

/-- Witness of C34 at `windowCart`, fetcher 5 (top 0x10, low byte 0x10): 1000
whole clocks followed by 676 against 1676 at once. -/
theorem music_step_additive_witness :
    windowCart.myMusicMode.getD (5 - 5) false = true ∧ windowCart.Sized ∧
    windowCart.myTops.getD 5 0 < 256 ∧
    windowCart.myCounters.getD 5 0 &&& 0x00ff ≤ windowCart.myTops.getD 5 0 ∧
    (updateMusicModeDataFetcher 676 (updateMusicModeDataFetcher 1000 windowCart 5) 5).myCounters.getD
        5 0 =
      (updateMusicModeDataFetcher (1000 + 676) windowCart 5).myCounters.getD 5 0 ∧
    (updateMusicModeDataFetcher 676 (updateMusicModeDataFetcher 1000 windowCart 5) 5).myFlags.getD
        5 0 =
      (updateMusicModeDataFetcher (1000 + 676) windowCart 5).myFlags.getD 5 0 :=
  ⟨rfl, windowCart_sized, by decide, by decide,
    (music_step_additive windowCart 5 1000 676 (by norm_num) (by norm_num) rfl windowCart_sized
      (by decide) (by decide)).1,
    (music_step_additive windowCart 5 1000 676 (by norm_num) (by norm_num) rfl windowCart_sized
      (by decide) (by decide)).2.1⟩

/-! ## Claim C32: index safety -/

theorem table_index_lt (r : Nat) :
    (((r >>> 3) &&& 0x07) ||| (if r &&& 0x80 ≠ 0 then 0x08 else 0x00) : Nat) < 16 := by
  have h1 : (r >>> 3) &&& 0x07 < 2 ^ 4 := lt_of_lt_of_le (and7_lt _) (by norm_num)
  have h2 : (if r &&& 0x80 ≠ 0 then 0x08 else 0x00 : Nat) < 2 ^ 4 := by
    split_ifs <;> norm_num
  exact Nat.or_lt_two_pow h1 h2

theorem clockRandomNumberGeneratorAccesses_inBounds (s : CartridgeDPC) :
    ∀ x ∈ s.clockRandomNumberGeneratorAccesses, x.InBounds := by
  intro x hx
  rw [clockRandomNumberGeneratorAccesses, List.mem_singleton] at hx
  rw [hx]
  exact table_index_lt _

theorem ite_singleton_inBounds (c : Prop) [Decidable c] (y : Access) (hy : y.InBounds) :
    ∀ x ∈ (if c then [y] else []), x.InBounds := by
  intro x hx
  split_ifs at hx
  · rw [List.mem_singleton] at hx
    rw [hx]
    exact hy
  · cases hx

theorem musicMode_sub_inBounds (x : Nat) (h5 : 5 ≤ x) (h7 : x ≤ 7) :
    (Access.musicMode ((x : Int) - 5)).InBounds := by
  unfold Access.InBounds
  omega

theorem updateMusicModeDataFetcherAccesses_inBounds (s : CartridgeDPC) (x : Nat) (h5 : 5 ≤ x)
    (h7 : x ≤ 7) : ∀ y ∈ updateMusicModeDataFetcherAccesses s x, y.InBounds := by
  unfold updateMusicModeDataFetcherAccesses
  rw [List.forall_mem_cons]
  exact ⟨musicMode_sub_inBounds x h5 h7,
    ite_singleton_inBounds _ _ (show x < 8 by omega)⟩

theorem musicLoopAccesses_inBounds (w : Nat) (s : CartridgeDPC) (xs : List Nat)
    (hxs : ∀ x ∈ xs, 5 ≤ x ∧ x ≤ 7) : ∀ y ∈ musicLoopAccesses w s xs, y.InBounds := by
  induction xs generalizing s with
  | nil =>
    intro y hy
    cases hy
  | cons x rest ih =>
    rw [musicLoopAccesses, List.forall_mem_append]
    exact ⟨updateMusicModeDataFetcherAccesses_inBounds s x (hxs x (List.mem_cons_self _ _)).1
        (hxs x (List.mem_cons_self _ _)).2,
      ih _ (fun z hz => hxs z (List.mem_cons_of_mem _ hz))⟩

theorem updateMusicModeDataFetchersAccesses_inBounds (s : CartridgeDPC) :
    ∀ y ∈ s.updateMusicModeDataFetchersAccesses, y.InBounds := by
  unfold updateMusicModeDataFetchersAccesses
  split_ifs
  · intro y hy
    cases hy
  · exact musicLoopAccesses_inBounds _ _ _ (by decide)

theorem musicIndexAccesses_inBounds (s : CartridgeDPC) :
    ∀ y ∈ s.musicIndexAccesses, y.InBounds := by
  unfold musicIndexAccesses
  simp only [List.forall_mem_append, List.forall_mem_cons]
  refine ⟨⟨⟨⟨?_, ite_singleton_inBounds _ _ (show (5 : Nat) < 8 by norm_num)⟩,
    ⟨?_, ite_singleton_inBounds _ _ (show (6 : Nat) < 8 by norm_num)⟩⟩,
    ⟨?_, ite_singleton_inBounds _ _ (show (7 : Nat) < 8 by norm_num)⟩⟩, ?_⟩
  · exact ⟨by norm_num, by norm_num⟩
  · exact ⟨by norm_num, by norm_num⟩
  · exact ⟨by norm_num, by norm_num⟩
  · exact ⟨(musicIndex_bits s).1, fun y hy => by cases hy⟩

theorem display_inBounds (c : Nat) (hc : c ≤ 2047) :
    (Access.display (2047 - (c : Nat))).InBounds := by
  unfold Access.InBounds
  omega

theorem readFunctionAccesses_inBounds (s : CartridgeDPC) (index function : Nat) (hi : index < 8)
    (hf : function < 8) (hc : s.myCounters.getD index 0 ≤ 2047) :
    ∀ y ∈ s.readFunctionAccesses index function, y.InBounds := by
  have hfe : (Access.fetcher index).InBounds := hi
  interval_cases function <;> simp only [readFunctionAccesses]
  · split_ifs
    · intro y hy
      cases hy
    · rw [List.forall_mem_append]
      exact ⟨updateMusicModeDataFetchersAccesses_inBounds s, musicIndexAccesses_inBounds _⟩
  · simp only [List.forall_mem_cons]
    exact ⟨hfe, display_inBounds _ hc, fun y hy => by cases hy⟩
  · simp only [List.forall_mem_cons]
    exact ⟨hfe, display_inBounds _ hc, fun y hy => by cases hy⟩
  · intro y hy
    cases hy
  · intro y hy
    cases hy
  · intro y hy
    cases hy
  · intro y hy
    cases hy
  · simp only [List.forall_mem_cons]
    exact ⟨hfe, fun y hy => by cases hy⟩

theorem clockCounterAccesses_inBounds (s : CartridgeDPC) (index : Nat) (hi : index < 8) :
    ∀ y ∈ s.clockCounterAccesses index, y.InBounds := by
  have hfe : (Access.fetcher index).InBounds := hi
  unfold clockCounterAccesses
  by_cases h5 : index < 5
  · rw [if_pos h5]
    simp only [List.forall_mem_cons]
    exact ⟨hfe, fun y hy => by cases hy⟩
  · rw [if_neg h5, List.forall_mem_cons]
    exact ⟨musicMode_sub_inBounds index (by omega) (by omega), ite_singleton_inBounds _ _ hfe⟩

theorem writeFunctionAccesses_inBounds (index function : Nat) (hi : index < 8)
    (hf : function < 8) : ∀ y ∈ writeFunctionAccesses index function, y.InBounds := by
  have hfe : (Access.fetcher index).InBounds := hi
  have hmm : ∀ y ∈ (if 5 ≤ index then [Access.musicMode ((index : Int) - 5)] else []),
      y.InBounds := by
    intro y hy
    split_ifs at hy with h5
    · rw [List.mem_singleton] at hy
      rw [hy]
      exact musicMode_sub_inBounds index h5 (by omega)
    · cases hy
  interval_cases function <;> simp only [writeFunctionAccesses]
  · simp only [List.forall_mem_cons]
    exact ⟨hfe, fun y hy => by cases hy⟩
  · simp only [List.forall_mem_cons]
    exact ⟨hfe, fun y hy => by cases hy⟩
  · rw [List.forall_mem_append]
    refine ⟨hmm, ?_⟩
    simp only [List.forall_mem_cons]
    exact ⟨hfe, fun y hy => by cases hy⟩
  · rw [List.forall_mem_cons]
    exact ⟨hfe, hmm⟩
  · intro y hy
    cases hy
  · intro y hy
    cases hy
  · intro y hy
    cases hy
  · intro y hy
    cases hy

theorem and_0x0fff_lt (a : Nat) : a &&& 0x0FFF < 4096 := by
  rw [and_0x0fff_eq_mod]
  exact Nat.mod_lt _ (by norm_num)

theorem switchBanks_offset_cases (s : CartridgeDPC) (a : Nat)
    (hoff : s.myBankOffset = 0 ∨ s.myBankOffset = 4096) :
    (s.switchBanks a).myBankOffset = 0 ∨ (s.switchBanks a).myBankOffset = 4096 := by
  cases hl : s.bankLocked
  · rw [switchBanks_myBankOffset s a hl]
    split_ifs
    · exact Or.inl rfl
    · exact Or.inr rfl
    · exact hoff
  · rw [switchBanks_of_locked s a hl]
    exact hoff

/-- C32 (index safety): in a state with `myBankOffset` 0 or 4096 and all
counters at most 2047, every array access of `peek(a)` and of `poke(a, v)` is in
bounds: the program ROM index `myBankOffset + (a & 0x0FFF)` is below 8192, the
display ROM index `2047 - myCounters[i]` is in 0..2047, the fetcher index is
below 8, the music mode index in 0..2, the index into the table `f` below 16
and the amplitude index below 8; the bank offset is 0 or 4096 afterwards. -/
theorem index_safety (s : CartridgeDPC) (a v : Nat)
    (hoff : s.myBankOffset = 0 ∨ s.myBankOffset = 4096)
    (hc : ∀ i, i < 8 → s.myCounters.getD i 0 ≤ 2047) :
    (∀ x ∈ s.peekAccesses a, x.InBounds) ∧ (∀ x ∈ s.pokeAccesses a, x.InBounds) ∧
    ((s.peek a).2.myBankOffset = 0 ∨ (s.peek a).2.myBankOffset = 4096) ∧
    ((s.poke a v).2.myBankOffset = 0 ∨ (s.poke a v).2.myBankOffset = 4096) := by
  have ha := and_0x0fff_lt a
  have hoff1 : s.clockRandomNumberGenerator.myBankOffset = 0 ∨
      s.clockRandomNumberGenerator.myBankOffset = 4096 := hoff
  have hsw := switchBanks_offset_cases s.clockRandomNumberGenerator (a &&& 0x0FFF) hoff1
  refine ⟨?_, ?_, ?_, ?_⟩
  · unfold peekAccesses
    simp only []
    cases hl : s.bankLocked
    · simp only [Bool.false_eq_true, if_false]
      rw [List.forall_mem_append]
      refine ⟨clockRandomNumberGeneratorAccesses_inBounds s, ?_⟩
      by_cases h40 : (a &&& 0x0FFF) < 0x0040
      · rw [if_pos h40, List.forall_mem_append, List.forall_mem_append]
        have hi : (a &&& 0x0FFF) &&& 0x07 < 8 := and7_lt _
        refine ⟨⟨?_, ?_⟩, clockCounterAccesses_inBounds _ _ hi⟩
        · simp only [List.forall_mem_cons]
          exact ⟨hi, fun y hy => by cases hy⟩
        · exact readFunctionAccesses_inBounds _ _ _ hi (and7_lt _)
            (by simpa using hc _ hi)
      · rw [if_neg h40]
        simp only [List.forall_mem_cons]
        refine ⟨?_, fun y hy => by cases hy⟩
        show _ < 8192
        omega
    · simp only [if_true]
      simp only [List.forall_mem_cons]
      refine ⟨?_, fun y hy => by cases hy⟩
      show _ < 8192
      omega
  · unfold pokeAccesses
    simp only []
    rw [List.forall_mem_append]
    refine ⟨clockRandomNumberGeneratorAccesses_inBounds s, ?_⟩
    split_ifs
    · exact writeFunctionAccesses_inBounds _ _ (and7_lt _) (and7_lt _)
    · intro y hy
      cases hy
  · cases hl : s.bankLocked
    · by_cases h40 : (a &&& 0x0FFF) < 0x0040
      · rw [peek_dpc_of_unlocked s a hl h40]
        simp
        exact hoff
      · rw [peek_rom_of_unlocked s a hl h40]
        exact hsw
    · rw [peek_of_locked s a hl]
      exact hoff
  · rw [poke_eq]
    simp only []
    split_ifs
    · simp
      exact hoff
    · exact hsw

theorem exampleCart_counters_le (i : Nat) : exampleCart.myCounters.getD i 0 ≤ 2047 := by
  rw [exampleCart_myCounters, List.getD_eq_getElem?_getD, List.getElem?_replicate]
  by_cases h : i < 8
  · rw [if_pos h]
    decide
  · rw [if_neg h]
    decide

/-- Witness of C32 at the power-on example state: the accesses of the display
read `peek(0x1008)` and of the write `poke(0x105D, 0x10)`. -/
theorem index_safety_witness :
    (exampleCart.myBankOffset = 0 ∨ exampleCart.myBankOffset = 4096) ∧
    (∀ x ∈ exampleCart.peekAccesses 0x1008, x.InBounds) ∧
    (∀ x ∈ exampleCart.pokeAccesses 0x105D, x.InBounds) :=
  ⟨Or.inr exampleCart_myBankOffset,
    (index_safety exampleCart 0x1008 0x10 (Or.inr exampleCart_myBankOffset)
      (fun i _ => exampleCart_counters_le i)).1,
    (index_safety exampleCart 0x105D 0x10 (Or.inr exampleCart_myBankOffset)
      (fun i _ => exampleCart_counters_le i)).2.1⟩

/-! ## Witness of C6 -/

theorem windowCart_musicIndex :
    (windowCart.clockRandomNumberGenerator.updateFlag
      (0x1004 &&& 0x0FFF)).updateMusicModeDataFetchers.musicIndex = 7 := by
  have f : ∀ x, 5 ≤ x → x ≤ 7 →
      (windowCart.clockRandomNumberGenerator.updateFlag
        (0x1004 &&& 0x0FFF)).updateMusicModeDataFetchers.myFlags.getD x 0 = 0xFF := by
    intro x h5 h7
    have hm : windowCart.myMusicMode.getD (x - 5) false = true := by
      interval_cases x <;> rfl
    rw [peek_amplitude_flag windowCart _ x windowCart_sized h5 h7 hm
      (by rw [windowCart_musicWholeClocks]; norm_num), windowCart_musicNewLow x (by omega)]
    have hb : windowCart.myBottoms.getD x 0 = 0 := by interval_cases x <;> rfl
    have ht : windowCart.myTops.getD x 0 = 0x10 := by interval_cases x <;> rfl
    rw [hb, ht, if_neg (by norm_num), if_pos (by norm_num)]
  rw [musicIndex_of_flags _ true true true 0xFF 0xFF 0xFF (by simp; rfl) (by simp; rfl)
    (by simp; rfl) (f 5 (by norm_num) (by norm_num)) (f 6 (by norm_num) (by norm_num))
    (f 7 (by norm_num) (by norm_num))]
  decide

/-- Witness of C6: the read of offset 0x04 in `windowCart`, where the three
music fetchers are in music mode with their flags set after the update, forms
the index 7 and returns entry 7 of the table, 0x0F. -/
theorem peek_music_amplitude_witness :
    windowCart.bankLocked = false ∧ 4 ≤ (0x1004 &&& 0x0FFF) ∧ (0x1004 &&& 0x0FFF) < 8 ∧
    (windowCart.peek 0x1004).1 = [0x00, 0x04, 0x05, 0x09, 0x06, 0x0a, 0x0b, 0x0f].getD 7 0 ∧
    (windowCart.peek 0x1004).1 = 0x0F := by
  have hv := (peek_music_amplitude windowCart 0x1004 rfl (by decide) (by decide)).1
  rw [windowCart_musicIndex] at hv
  exact ⟨rfl, by decide, by decide, hv, hv⟩

end CartridgeDPC

end Stella
